import Mathlib

/-!
Pong clone: collision detection and response.

A shallow embedding of the physics core of `src/pong-clone/pong_clone.cpp`:
the value types `Vec2`, `Contact`, `Ball`, `Paddle`, the two collision checks
`CheckPaddleCollision` and `CheckWallCollision`, and the responses
`Ball::CollideWithPaddle`, `Ball::CollideWithWall`, `Paddle::Update`, and the
physics part of the loop body of `main` (`frameStep`).

Modelling conventions.
* The C++ `int` constants are integers (`ℤ`); where the source mixes them
  into a `float` expression they are cast, as the C++ conversion does.
* A C++ `float` is a rational (`ℚ`). Every run-time `float` addition,
  subtraction and multiplication is the exact operation followed by
  `roundF32`, rounding to the nearest binary32 value, ties to even (24-bit
  significand, gradual underflow down to `2^-149`). Negation, comparison and
  the assignment of a constant are exact. A value is a binary32 value when
  `roundF32 x = x`.
* The exponent range is not bounded above: overflow to infinity and NaN are
  not modelled.
* A literal, and a constant expression built from literals and the constants
  above (`0.8f`, `0.2f * BALL_SPEED`, `2.0f * PADDLE_HEIGHT / 3.0f`), stands
  for its decimal value.
* Methods that mutate `*this` become functions returning the new object.
* The `SDL_Rect rect` member of `Ball` and `Paddle` is only read and written
  by the constructors and by `Draw`; it is not part of the embedding.
-/

namespace Pong

/-! ## Binary32 arithmetic -/

/-- Rounding of a rational to the nearest integer, ties to the even one. -/
def roundHalfEven (t : ℚ) : ℤ :=
  if t - ⌊t⌋ < 1 / 2 then ⌊t⌋
  else if 1 / 2 < t - ⌊t⌋ then ⌊t⌋ + 1
  else if ⌊t⌋ % 2 = 0 then ⌊t⌋
  else ⌊t⌋ + 1

/-- The exponent of the unit in the last place of binary32 at `x`: 23 below
the exponent of `x`, and `-149` in the subnormal range. -/
def ulpExponent (x : ℚ) : ℤ := max (Int.log 2 |x| - 23) (-149)

/-- Rounding to the nearest binary32 value, ties to even. -/
def roundF32 (x : ℚ) : ℚ := (roundHalfEven (x / 2 ^ ulpExponent x) : ℚ) * 2 ^ ulpExponent x

/-- The `float` addition. -/
def fadd (a b : ℚ) : ℚ := roundF32 (a + b)

/-- The `float` subtraction. -/
def fsub (a b : ℚ) : ℚ := roundF32 (a - b)

/-- The `float` multiplication. -/
def fmul (a b : ℚ) : ℚ := roundF32 (a * b)

/-! ## Constants (source lines 10-18) -/

def WINDOW_WIDTH : ℤ := 800
def WINDOW_HEIGHT : ℤ := 500
def BALL_WIDTH : ℤ := 15
def BALL_HEIGHT : ℤ := 15
def PADDLE_WIDTH : ℤ := 10
def PADDLE_HEIGHT : ℤ := 120

def PADDLE_SPEED : ℚ := 0.8
def BALL_SPEED : ℚ := 0.5

/-! ## Data model (source lines 28-80, 150, 187) -/

/-- Enumeration `CollisionType`; `None` is the first enumerator, the value a
value-initialised `Contact{}` carries. -/
inductive CollisionType where
  | None
  | Top
  | Middle
  | Bottom
  | Left
  | Right
  deriving DecidableEq, Repr

/-- Struct `Contact`. -/
structure Contact where
  type : CollisionType
  penetration : ℚ
  deriving DecidableEq, Repr

/-- Value-initialised contact `Contact contact{}`: type `None`, penetration `0`. -/
def Contact.init : Contact := ⟨CollisionType.None, 0⟩

/-- Class `Vec2`. -/
structure Vec2 where
  x : ℚ
  y : ℚ
  deriving DecidableEq, Repr

/-- Operator `Vec2::operator+`. -/
def Vec2.add (a rhs : Vec2) : Vec2 := ⟨fadd a.x rhs.x, fadd a.y rhs.y⟩

/-- Operator `Vec2::operator*(float)`. -/
def Vec2.mul (a : Vec2) (rhs : ℚ) : Vec2 := ⟨fmul a.x rhs, fmul a.y rhs⟩

/-- Operator `Vec2::operator+=`, returning the updated left operand. -/
def Vec2.addAssign (a rhs : Vec2) : Vec2 := ⟨fadd a.x rhs.x, fadd a.y rhs.y⟩

/-- Class `Ball`: the members `position` and `velocity`. -/
structure Ball where
  position : Vec2
  velocity : Vec2
  deriving DecidableEq, Repr

/-- Class `Paddle`: the members `position` and `velocity`. -/
structure Paddle where
  position : Vec2
  velocity : Vec2
  deriving DecidableEq, Repr

/-! ## Collision checks (source lines 243-342) -/

/-- Function `CheckPaddleCollision(ball, paddle)`: the edges as `float` sums,
four early returns of the value-initialised contact, then the penetration
chosen by the sign of the ball's horizontal velocity, then the zone chosen by
`ballBottom`. The subtrahends `2.0f * PADDLE_HEIGHT / 3.0f = 80` and
`PADDLE_HEIGHT / 3.0f = 40` are constants, exact in binary32. -/
def CheckPaddleCollision (ball : Ball) (paddle : Paddle) : Contact :=
  let ballLeft : ℚ := ball.position.x
  let ballRight : ℚ := fadd ball.position.x BALL_WIDTH
  let ballTop : ℚ := ball.position.y
  let ballBottom : ℚ := fadd ball.position.y BALL_HEIGHT
  let paddleLeft : ℚ := paddle.position.x
  let paddleRight : ℚ := fadd paddle.position.x PADDLE_WIDTH
  let paddleTop : ℚ := paddle.position.y
  let paddleBottom : ℚ := fadd paddle.position.y PADDLE_HEIGHT
  let contact : Contact := Contact.init
  if ballLeft ≥ paddleRight then contact
  else if ballRight ≤ paddleLeft then contact
  else if ballTop ≥ paddleBottom then contact
  else if ballBottom ≤ paddleTop then contact
  else
    let paddleRangeUpper : ℚ := fsub paddleBottom (2 * PADDLE_HEIGHT / 3)
    let paddleRangeMiddle : ℚ := fsub paddleBottom (PADDLE_HEIGHT / 3)
    let contact : Contact :=
      if ball.velocity.x < 0 then
        { contact with penetration := fsub paddleRight ballLeft }
      else if ball.velocity.x > 0 then
        { contact with penetration := fsub paddleLeft ballRight }
      else contact
    if ballBottom > paddleTop ∧ ballBottom < paddleRangeUpper then
      { contact with type := CollisionType.Top }
    else if ballBottom > paddleRangeUpper ∧ ballBottom < paddleRangeMiddle then
      { contact with type := CollisionType.Middle }
    else
      { contact with type := CollisionType.Bottom }

/-- Function `CheckWallCollision(ball)`: an if / else-if cascade over the four
playfield edges, starting from the value-initialised contact. -/
def CheckWallCollision (ball : Ball) : Contact :=
  let ballLeft : ℚ := ball.position.x
  let ballRight : ℚ := fadd ball.position.x BALL_WIDTH
  let ballTop : ℚ := ball.position.y
  let ballBottom : ℚ := fadd ball.position.y BALL_HEIGHT
  let contact : Contact := Contact.init
  if ballLeft < 0 then
    { contact with type := CollisionType.Left }
  else if ballRight > WINDOW_WIDTH then
    { contact with type := CollisionType.Right }
  else if ballTop < 0 then
    { type := CollisionType.Top, penetration := -ballTop }
  else if ballBottom > WINDOW_HEIGHT then
    { type := CollisionType.Bottom, penetration := fsub WINDOW_HEIGHT ballBottom }
  else contact

/-! ## Responses (source lines 93-148, 166-179) -/

/-- Method `Ball::Update(dt)`. -/
def Ball.Update (b : Ball) (dt : ℚ) : Ball :=
  { b with position := b.position.addAssign (b.velocity.mul dt) }

/-- Method `Ball::CollideWithPaddle(contact)`. -/
def Ball.CollideWithPaddle (b : Ball) (contact : Contact) : Ball :=
  let b : Ball :=
    { b with position := { b.position with x := fadd b.position.x contact.penetration } }
  let b : Ball := { b with velocity := { b.velocity with x := -b.velocity.x } }
  if contact.type = CollisionType.Top then
    { b with velocity := { b.velocity with y := -0.75 * BALL_SPEED } }
  else if contact.type = CollisionType.Bottom then
    { b with velocity := { b.velocity with y := 0.75 * BALL_SPEED } }
  else b

/-- Method `Ball::CollideWithWall(contact)`. -/
def Ball.CollideWithWall (b : Ball) (contact : Contact) : Ball :=
  if contact.type = CollisionType.Top ∨ contact.type = CollisionType.Bottom then
    { position := { b.position with y := fadd b.position.y contact.penetration },
      velocity := { b.velocity with y := -b.velocity.y } }
  else if contact.type = CollisionType.Left then
    { position := ⟨(WINDOW_WIDTH : ℚ) / 2, (WINDOW_HEIGHT : ℚ) / 2⟩,
      velocity := ⟨BALL_SPEED, 0.2 * BALL_SPEED⟩ }
  else if contact.type = CollisionType.Right then
    { position := ⟨(WINDOW_WIDTH : ℚ) / 2, (WINDOW_HEIGHT : ℚ) / 2⟩,
      velocity := ⟨-BALL_SPEED, 0.2 * BALL_SPEED⟩ }
  else b

/-- Method `Paddle::Update(dt)`: advance, then clamp `position.y`; the upper
bound `WINDOW_HEIGHT - PADDLE_HEIGHT` is computed in `int`. -/
def Paddle.Update (p : Paddle) (dt : ℚ) : Paddle :=
  let p : Paddle := { p with position := p.position.addAssign (p.velocity.mul dt) }
  if p.position.y < 0 then
    { p with position := { p.position with y := 0 } }
  else if p.position.y > ((WINDOW_HEIGHT - PADDLE_HEIGHT : ℤ) : ℚ) then
    { p with position := { p.position with y := ((WINDOW_HEIGHT - PADDLE_HEIGHT : ℤ) : ℚ) } }
  else p

/-- The ball as `main` first creates it (source lines 391-392). -/
def initialBall : Ball :=
  { position := ⟨(WINDOW_WIDTH : ℚ) / 2 - (BALL_WIDTH : ℚ) / 2,
                 (WINDOW_HEIGHT : ℚ) / 2 - (BALL_WIDTH : ℚ) / 2⟩,
    velocity := ⟨BALL_SPEED, 0⟩ }

/-! ## Frame step of `main` (source lines 387-411, 487-557)

The body of the `while (running)` loop after the event queue has been
drained: the button states and the measured frame time `dt` are inputs of the
step. Rendering, the score text textures and the loading of the sound files
are not part of the embedding; the sound a frame plays is kept as an output.
The `int` scores are unbounded integers (signed overflow is not modelled).
-/

/-- Enumeration `Buttons`, the indices of `bool buttons[4]`. -/
inductive Buttons where
  | PaddleOneUp
  | PaddleOneDown
  | PaddleTwoUp
  | PaddleTwoDown
  deriving DecidableEq, Repr

/-- The two sound effects a frame can play with `Mix_PlayChannel`. -/
inductive Sound where
  | wallHitSound
  | paddleHitSound
  deriving DecidableEq, Repr

/-- The locals of `main` that the frame step reads and writes. -/
structure LoopState where
  ball : Ball
  paddleOne : Paddle
  paddleTwo : Paddle
  playerOneScore : ℤ
  playerTwoScore : ℤ
  deriving DecidableEq, Repr

/-- The locals as `main` creates them (source lines 391-404). -/
def initialState : LoopState :=
  { ball := initialBall,
    paddleOne := ⟨⟨50, (WINDOW_HEIGHT : ℚ) / 2 - (PADDLE_HEIGHT : ℚ) / 2⟩, ⟨0, 0⟩⟩,
    paddleTwo := ⟨⟨(WINDOW_WIDTH : ℚ) - 50, (WINDOW_HEIGHT : ℚ) / 2 - (PADDLE_HEIGHT : ℚ) / 2⟩,
                  ⟨0, 0⟩⟩,
    playerOneScore := 0,
    playerTwoScore := 0 }

/-- Block "Update paddle velocity" (source lines 487-512). -/
def updatePaddleVelocity (buttons : Buttons → Bool) (s : LoopState) : LoopState :=
  let paddleOne : Paddle :=
    if buttons Buttons.PaddleOneUp then
      { s.paddleOne with velocity := { s.paddleOne.velocity with y := -PADDLE_SPEED } }
    else if buttons Buttons.PaddleOneDown then
      { s.paddleOne with velocity := { s.paddleOne.velocity with y := PADDLE_SPEED } }
    else
      { s.paddleOne with velocity := { s.paddleOne.velocity with y := 0 } }
  let paddleTwo : Paddle :=
    if buttons Buttons.PaddleTwoUp then
      { s.paddleTwo with velocity := { s.paddleTwo.velocity with y := -PADDLE_SPEED } }
    else if buttons Buttons.PaddleTwoDown then
      { s.paddleTwo with velocity := { s.paddleTwo.velocity with y := PADDLE_SPEED } }
    else
      { s.paddleTwo with velocity := { s.paddleTwo.velocity with y := 0 } }
  { s with paddleOne := paddleOne, paddleTwo := paddleTwo }

/-- Blocks "Update paddle position" and "Update the ball position" (source
lines 514-519). -/
def updatePositions (dt : ℚ) (s : LoopState) : LoopState :=
  { s with paddleOne := s.paddleOne.Update dt,
           paddleTwo := s.paddleTwo.Update dt,
           ball := s.ball.Update dt }

/-- Block "Check collisions" (source lines 526-557): paddle one, else paddle
two, else the walls; returns the new locals and the sound played, if any. -/
def checkCollisions (s : LoopState) : LoopState × Option Sound :=
  let contact : Contact := CheckPaddleCollision s.ball s.paddleOne
  if contact.type ≠ CollisionType.None then
    ({ s with ball := s.ball.CollideWithPaddle contact }, some Sound.paddleHitSound)
  else
    let contact : Contact := CheckPaddleCollision s.ball s.paddleTwo
    if contact.type ≠ CollisionType.None then
      ({ s with ball := s.ball.CollideWithPaddle contact }, some Sound.paddleHitSound)
    else
      let contact : Contact := CheckWallCollision s.ball
      if contact.type ≠ CollisionType.None then
        let s : LoopState := { s with ball := s.ball.CollideWithWall contact }
        if contact.type = CollisionType.Left then
          ({ s with playerTwoScore := s.playerTwoScore + 1 }, none)
        else if contact.type = CollisionType.Right then
          ({ s with playerOneScore := s.playerOneScore + 1 }, none)
        else
          (s, some Sound.wallHitSound)
      else
        (s, none)

/-- One iteration of the loop body, from the paddle velocity update to the
collision block, for given button states and frame time. -/
def frameStep (buttons : Buttons → Bool) (dt : ℚ) (s : LoopState) : LoopState × Option Sound :=
  checkCollisions (updatePositions dt (updatePaddleVelocity buttons s))

/-- The loop run over a list of frames, each with its button states and `dt`. -/
def runFrames : List ((Buttons → Bool) × ℚ) → LoopState → LoopState
  | [], s => s
  | (buttons, dt) :: rest, s => runFrames rest (frameStep buttons dt s).1

/-- No button held. -/
def noButtons : Buttons → Bool := fun _ => false

/-- Every button held. -/
def allButtons : Buttons → Bool := fun _ => true

/-- The initial locals with the ball moved to `(-1, 200)`, moving left: its
left edge is beyond the left wall. -/
def leftExitState : LoopState :=
  { initialState with ball := ⟨⟨-1, 200⟩, ⟨-1/2, 1/10⟩⟩ }

/-- The initial locals with the ball moved to `(790, 200)`, moving right: its
right edge is beyond the right wall. -/
def rightExitState : LoopState :=
  { initialState with ball := ⟨⟨790, 200⟩, ⟨1/2, 1/10⟩⟩ }

/-- The initial locals with paddle one at the top of the field, `(50, 0)`, and
the ball at `(52, -3)`, moving up and left: the ball overlaps paddle one and
is beyond the top wall at once. -/
def paddleAtTopState : LoopState :=
  { initialState with ball := ⟨⟨52, -3⟩, ⟨-1/2, -3/8⟩⟩,
                      paddleOne := ⟨⟨50, 0⟩, ⟨0, 0⟩⟩ }

/-! ## Rounding to the nearest integer -/

/-- Rounding to the nearest integer gives the floor or the floor plus one. -/
theorem roundHalfEven_floor_or (t : ℚ) :
    roundHalfEven t = ⌊t⌋ ∨ roundHalfEven t = ⌊t⌋ + 1 := by
  unfold roundHalfEven
  split_ifs <;> simp

/-- Below the midpoint, rounding goes down. -/
theorem roundHalfEven_of_lt_half (t : ℚ) (z : ℤ) (h0 : (z : ℚ) ≤ t) (h1 : t < z + 1 / 2) :
    roundHalfEven t = z := by
  have hf : ⌊t⌋ = z := Int.floor_eq_iff.mpr ⟨h0, by linarith⟩
  unfold roundHalfEven
  rw [hf, if_pos (by linarith)]

/-- Above the midpoint, rounding goes up. -/
theorem roundHalfEven_of_gt_half (t : ℚ) (z : ℤ) (h0 : (z : ℚ) + 1 / 2 < t) (h1 : t < z + 1) :
    roundHalfEven t = z + 1 := by
  have hf : ⌊t⌋ = z := Int.floor_eq_iff.mpr ⟨by linarith, h1⟩
  unfold roundHalfEven
  rw [hf, if_neg (by linarith), if_pos (by linarith)]

/-- On the midpoint, rounding goes to the even neighbour. -/
theorem roundHalfEven_of_tie (t : ℚ) (z : ℤ) (h : t = z + 1 / 2) :
    roundHalfEven t = if z % 2 = 0 then z else z + 1 := by
  have hf : ⌊t⌋ = z := Int.floor_eq_iff.mpr ⟨by linarith, by linarith⟩
  unfold roundHalfEven
  rw [hf, if_neg (by linarith), if_neg (by linarith)]

/-- An integer rounds to itself. -/
theorem roundHalfEven_intCast (z : ℤ) : roundHalfEven (z : ℚ) = z :=
  roundHalfEven_of_lt_half _ z le_rfl (by linarith)

/-- Rounding to the nearest integer is monotone. -/
theorem roundHalfEven_mono {s t : ℚ} (h : s ≤ t) : roundHalfEven s ≤ roundHalfEven t := by
  have hf : ⌊s⌋ ≤ ⌊t⌋ := Int.floor_mono h
  rcases lt_or_eq_of_le hf with hlt | heq
  · rcases roundHalfEven_floor_or s with a | a <;> rcases roundHalfEven_floor_or t with b | b <;>
      omega
  · unfold roundHalfEven
    rw [heq]
    split_ifs <;> first | omega | (exfalso; linarith)

/-- Rounding to the nearest integer, ties to even, is odd. -/
theorem roundHalfEven_neg (t : ℚ) : roundHalfEven (-t) = -roundHalfEven t := by
  have h0 := Int.floor_le t
  have h1 := Int.lt_floor_add_one t
  rcases lt_trichotomy (t - ⌊t⌋) (1 / 2) with h | h | h
  · rw [roundHalfEven_of_lt_half t ⌊t⌋ h0 (by linarith)]
    rcases eq_or_lt_of_le h0 with e | e
    · have ht : -t = ((-⌊t⌋ : ℤ) : ℚ) := by push_cast; linarith
      rw [ht, roundHalfEven_intCast]
    · have := roundHalfEven_of_gt_half (-t) (-⌊t⌋ - 1) (by push_cast; linarith)
        (by push_cast; linarith)
      rw [this]; ring
  · have e : t = ⌊t⌋ + 1 / 2 := by linarith
    have e' : -t = ((-⌊t⌋ - 1 : ℤ) : ℚ) + 1 / 2 := by push_cast; linarith
    rw [roundHalfEven_of_tie t ⌊t⌋ e, roundHalfEven_of_tie (-t) (-⌊t⌋ - 1) e']
    split_ifs <;> omega
  · rw [roundHalfEven_of_gt_half t ⌊t⌋ (by linarith) h1]
    have := roundHalfEven_of_lt_half (-t) (-⌊t⌋ - 1) (by push_cast; linarith)
      (by push_cast; linarith)
    rw [this]; ring


/-! ## Rounding to binary32 -/

/-- Powers of two are positive. -/
theorem two_zpow_pos (e : ℤ) : (0 : ℚ) < 2 ^ e := zpow_pos (by norm_num) e

/-- A power of two with a non-negative exponent is an integer. -/
theorem two_zpow_eq_intCast (d : ℤ) (h : 0 ≤ d) : (2 : ℚ) ^ d = (((2 : ℤ) ^ d.toNat : ℤ) : ℚ) := by
  lift d to ℕ using h
  simp [zpow_natCast]

/-- The unit in the last place is at least `2^-149`. -/
theorem ulpExponent_ge (x : ℚ) : -149 ≤ ulpExponent x := le_max_right _ _

/-- The unit in the last place depends on the magnitude only. -/
theorem ulpExponent_neg (x : ℚ) : ulpExponent (-x) = ulpExponent x := by
  unfold ulpExponent
  rw [abs_neg]

/-- The binary exponent of a value in the binade `[2^k, 2^(k+1))`. -/
theorem log_eq_of_bounds (x : ℚ) (k : ℤ) (h1 : (2 : ℚ) ^ k ≤ |x|) (h2 : |x| < 2 ^ (k + 1)) :
    Int.log 2 |x| = k := by
  have hpos : 0 < |x| := lt_of_lt_of_le (two_zpow_pos k) h1
  have a : k ≤ Int.log 2 |x| :=
    (Int.zpow_le_iff_le_log (by norm_num) hpos).mp (by simpa using h1)
  have b : Int.log 2 |x| < k + 1 :=
    (Int.lt_zpow_iff_log_lt (by norm_num) hpos).mp (by simpa using h2)
  omega

/-- The unit in the last place in the binade `[2^k, 2^(k+1))`. -/
theorem ulpExponent_of_bounds (x : ℚ) (k : ℤ) (h1 : (2 : ℚ) ^ k ≤ |x|) (h2 : |x| < 2 ^ (k + 1)) :
    ulpExponent x = max (k - 23) (-149) := by
  unfold ulpExponent
  rw [log_eq_of_bounds x k h1 h2]

/-- Zero is a binary32 value. -/
theorem roundF32_zero : roundF32 0 = 0 := by
  have h : roundHalfEven (0 : ℚ) = 0 := by simpa using roundHalfEven_intCast 0
  unfold roundF32
  rw [zero_div, h]
  simp

/-- Rounding to binary32 is odd. -/
theorem roundF32_neg (x : ℚ) : roundF32 (-x) = -roundF32 x := by
  unfold roundF32
  rw [ulpExponent_neg, neg_div, roundHalfEven_neg]
  push_cast
  ring

/-- Rounding keeps a non-negative value non-negative. -/
theorem roundF32_nonneg {x : ℚ} (h : 0 ≤ x) : 0 ≤ roundF32 x := by
  unfold roundF32
  have h1 : (0 : ℚ) ≤ x / 2 ^ ulpExponent x := div_nonneg h (le_of_lt (two_zpow_pos _))
  have h2 : (0 : ℤ) ≤ roundHalfEven (x / 2 ^ ulpExponent x) := by
    have := roundHalfEven_mono h1
    rwa [show ((0 : ℚ)) = ((0 : ℤ) : ℚ) by simp, roundHalfEven_intCast] at this
  exact mul_nonneg (by exact_mod_cast h2) (le_of_lt (two_zpow_pos _))

/-- Rounding keeps a non-positive value non-positive. -/
theorem roundF32_nonpos {x : ℚ} (h : x ≤ 0) : roundF32 x ≤ 0 := by
  have := roundF32_nonneg (neg_nonneg.mpr h)
  rw [roundF32_neg] at this
  linarith

/-- Splitting a power of two at a non-negative offset. -/
theorem two_zpow_toNat_mul (d u : ℤ) (hd : 0 ≤ d) :
    (2 : ℚ) ^ d.toNat * 2 ^ u = 2 ^ (d + u) := by
  rw [zpow_add₀ (by norm_num : (2 : ℚ) ≠ 0), ← zpow_natCast, Int.toNat_of_nonneg hd]

/-- A value `m * 2^e` with `|m| < 2^24` and `e >= -149` is a binary32 value:
rounding leaves it as it is. -/
theorem roundF32_of_repr (x : ℚ) (m e : ℤ) (hx : x = m * 2 ^ e) (hm : |m| < 2 ^ 24)
    (he : -149 ≤ e) : roundF32 x = x := by
  by_cases hm0 : m = 0
  · rw [hx, hm0]; simp [roundF32_zero]
  have hmq : (0 : ℚ) < |(m : ℚ)| := abs_pos.mpr (by exact_mod_cast hm0)
  have hxabs : |x| = |(m : ℚ)| * 2 ^ e := by
    rw [hx, abs_mul, abs_of_pos (two_zpow_pos e)]
  have hpos : 0 < |x| := by rw [hxabs]; exact mul_pos hmq (two_zpow_pos e)
  have c24 : (2 : ℚ) ^ (24 : ℤ) = 16777216 := by norm_num
  have hmq2 : |(m : ℚ)| < 16777216 := by
    have : ((|m| : ℤ) : ℚ) < ((2 ^ 24 : ℤ) : ℚ) := by exact_mod_cast hm
    simpa using this
  have hlt : |x| < 2 ^ (24 + e) := by
    rw [hxabs, zpow_add₀ (by norm_num : (2 : ℚ) ≠ 0), c24]
    exact mul_lt_mul_of_pos_right hmq2 (two_zpow_pos e)
  have hlog : Int.log 2 |x| < 24 + e :=
    (Int.lt_zpow_iff_log_lt (by norm_num) hpos).mp (by simpa using hlt)
  have hu : ulpExponent x ≤ e := by
    unfold ulpExponent
    exact max_le (by omega) he
  unfold roundF32
  generalize ulpExponent x = u at hu ⊢
  have hd : 0 ≤ e - u := by omega
  have hq : x / 2 ^ u = ((m * 2 ^ (e - u).toNat : ℤ) : ℚ) := by
    rw [hx, mul_div_assoc, ← zpow_sub₀ (by norm_num : (2 : ℚ) ≠ 0),
      two_zpow_eq_intCast _ hd]
    push_cast
    ring
  rw [hq, roundHalfEven_intCast]
  push_cast
  rw [mul_assoc, two_zpow_toNat_mul _ _ hd, hx]
  congr 2
  ring


/-- An integer of magnitude below `2^24` is a binary32 value. -/
theorem roundF32_intCast (n : ℤ) (h : |n| < 2 ^ 24) : roundF32 (n : ℚ) = n :=
  roundF32_of_repr _ n 0 (by simp) h (by norm_num)

/-- The scaled value rounds to an integer of magnitude at most `2^24`. -/
theorem roundHalfEven_scaled_le (x : ℚ) :
    |roundHalfEven (x / 2 ^ ulpExponent x)| ≤ 2 ^ 24 := by
  have key : ∀ y : ℚ, 0 ≤ y → roundHalfEven (y / 2 ^ ulpExponent y) ≤ 2 ^ 24 := by
    intro y hy
    rcases eq_or_lt_of_le hy with h0 | hpos
    · rw [← h0, zero_div]
      have h : roundHalfEven (0 : ℚ) = 0 := by simpa using roundHalfEven_intCast 0
      rw [h]; norm_num
    · have h1 : y < 2 ^ (Int.log 2 y + 1) := by
        simpa using Int.lt_zpow_succ_log_self (b := 2) (by norm_num) y
      have hu : Int.log 2 y - 23 ≤ ulpExponent y := by
        unfold ulpExponent
        rw [abs_of_pos hpos]
        exact le_max_left _ _
      have h2 : (2 : ℚ) ^ (Int.log 2 y + 1) ≤ 2 ^ (24 + ulpExponent y) :=
        zpow_le_zpow_right₀ (by norm_num) (by omega)
      have h3 : y / 2 ^ ulpExponent y ≤ ((2 ^ 24 : ℤ) : ℚ) := by
        rw [div_le_iff₀ (two_zpow_pos _)]
        have : (2 : ℚ) ^ (24 + ulpExponent y) = ((2 ^ 24 : ℤ) : ℚ) * 2 ^ ulpExponent y := by
          rw [zpow_add₀ (by norm_num : (2 : ℚ) ≠ 0)]
          norm_num
        linarith
      have := roundHalfEven_mono h3
      rwa [roundHalfEven_intCast] at this
  rcases le_total 0 x with hx | hx
  · have h1 := key x hx
    have h2 : (0 : ℤ) ≤ roundHalfEven (x / 2 ^ ulpExponent x) := by
      have h := roundHalfEven_mono (div_nonneg hx (le_of_lt (two_zpow_pos (ulpExponent x))))
      rwa [show ((0 : ℚ)) = ((0 : ℤ) : ℚ) by simp, roundHalfEven_intCast] at h
    rw [abs_of_nonneg h2]; exact h1
  · have h1 := key (-x) (neg_nonneg.mpr hx)
    rw [ulpExponent_neg, neg_div, roundHalfEven_neg] at h1
    have h2 : roundHalfEven (x / 2 ^ ulpExponent x) ≤ 0 := by
      have h := roundHalfEven_mono
        (div_nonpos_of_nonpos_of_nonneg hx (le_of_lt (two_zpow_pos (ulpExponent x))))
      rwa [show ((0 : ℚ)) = ((0 : ℤ) : ℚ) by simp, roundHalfEven_intCast] at h
    rw [abs_of_nonpos h2]; exact h1

/-- Rounding is idempotent: every value of `roundF32` is a binary32 value. -/
theorem roundF32_idem (x : ℚ) : roundF32 (roundF32 x) = roundF32 x := by
  have hb := roundHalfEven_scaled_le x
  have hu := ulpExponent_ge x
  rcases lt_or_eq_of_le hb with hlt | heq
  · exact roundF32_of_repr _ _ (ulpExponent x) rfl hlt hu
  · rcases abs_eq (by norm_num : (0 : ℤ) ≤ 2 ^ 24) |>.mp heq with h | h
    · refine roundF32_of_repr _ (2 ^ 23) (ulpExponent x + 1) ?_ (by norm_num) (by omega)
      unfold roundF32
      rw [h, zpow_add₀ (by norm_num : (2 : ℚ) ≠ 0)]
      norm_num
      ring
    · refine roundF32_of_repr _ (-2 ^ 23) (ulpExponent x + 1) ?_ (by norm_num) (by omega)
      unfold roundF32
      rw [h, zpow_add₀ (by norm_num : (2 : ℚ) ≠ 0)]
      norm_num
      ring


/-- Rounding to binary32 is monotone on the positive values. -/
theorem roundF32_mono_pos {x y : ℚ} (hx : 0 < x) (hxy : x ≤ y) : roundF32 x ≤ roundF32 y := by
  have hy : 0 < y := lt_of_lt_of_le hx hxy
  have hlog : Int.log 2 x ≤ Int.log 2 y := Int.log_mono_right hx hxy
  have ex : ulpExponent x = max (Int.log 2 x - 23) (-149) := by
    unfold ulpExponent; rw [abs_of_pos hx]
  have ey : ulpExponent y = max (Int.log 2 y - 23) (-149) := by
    unfold ulpExponent; rw [abs_of_pos hy]
  have hle : ulpExponent x ≤ ulpExponent y := by
    rw [ex, ey]; exact max_le_max (by omega) le_rfl
  rcases eq_or_lt_of_le hle with heq | hlt
  · unfold roundF32
    rw [heq]
    have h1 : x / 2 ^ ulpExponent y ≤ y / 2 ^ ulpExponent y :=
      div_le_div_of_nonneg_right hxy (le_of_lt (two_zpow_pos _))
    have h2 := roundHalfEven_mono h1
    exact mul_le_mul_of_nonneg_right (by exact_mod_cast h2) (le_of_lt (two_zpow_pos _))
  · -- the binade of `y` lies above the one of `x`: `2 ^ log y` separates the two
    have hyu : ulpExponent y = Int.log 2 y - 23 := by
      rw [ey]
      apply max_eq_left
      have := ulpExponent_ge x
      rw [ey] at hlt
      by_contra hc
      rw [max_eq_right (by omega)] at hlt
      omega
    have hxu : Int.log 2 x - 23 ≤ ulpExponent x := by rw [ex]; exact le_max_left _ _
    have hk : Int.log 2 x + 1 ≤ Int.log 2 y := by omega
    -- upper bound for `roundF32 x`
    have hx1 : x < 2 ^ (Int.log 2 x + 1) := by
      simpa using Int.lt_zpow_succ_log_self (b := 2) (by norm_num) x
    have hx2 : x ≤ 2 ^ Int.log 2 y :=
      le_trans (le_of_lt hx1) (zpow_le_zpow_right₀ (by norm_num) hk)
    have hd : 0 ≤ Int.log 2 y - ulpExponent x := by omega
    have hx3 : x / 2 ^ ulpExponent x
        ≤ (((2 : ℤ) ^ (Int.log 2 y - ulpExponent x).toNat : ℤ) : ℚ) := by
      rw [← two_zpow_eq_intCast _ hd, zpow_sub₀ (by norm_num : (2 : ℚ) ≠ 0)]
      exact div_le_div_of_nonneg_right hx2 (le_of_lt (two_zpow_pos _))
    have hx4 := roundHalfEven_mono hx3
    rw [roundHalfEven_intCast] at hx4
    have hx5 : roundF32 x ≤ 2 ^ Int.log 2 y := by
      unfold roundF32
      have : ((roundHalfEven (x / 2 ^ ulpExponent x) : ℤ) : ℚ) * 2 ^ ulpExponent x
          ≤ (((2 : ℤ) ^ (Int.log 2 y - ulpExponent x).toNat : ℤ) : ℚ) * 2 ^ ulpExponent x :=
        mul_le_mul_of_nonneg_right (by exact_mod_cast hx4) (le_of_lt (two_zpow_pos _))
      refine le_trans this (le_of_eq ?_)
      push_cast
      rw [two_zpow_toNat_mul _ _ hd]
      congr 1
      ring
    -- lower bound for `roundF32 y`
    have hy1 : (2 : ℚ) ^ Int.log 2 y ≤ y := by
      simpa using Int.zpow_log_le_self (b := 2) (by norm_num) hy
    have hy3 : (((2 : ℤ) ^ 23 : ℤ) : ℚ) ≤ y / 2 ^ ulpExponent y := by
      rw [le_div_iff₀ (two_zpow_pos _), hyu]
      have : (((2 : ℤ) ^ 23 : ℤ) : ℚ) * 2 ^ (Int.log 2 y - 23) = 2 ^ Int.log 2 y := by
        rw [zpow_sub₀ (by norm_num : (2 : ℚ) ≠ 0)]
        norm_num
        field_simp
      rw [this]; exact hy1
    have hy4 := roundHalfEven_mono hy3
    rw [roundHalfEven_intCast] at hy4
    have hy5 : (2 : ℚ) ^ Int.log 2 y ≤ roundF32 y := by
      unfold roundF32
      have : (((2 : ℤ) ^ 23 : ℤ) : ℚ) * 2 ^ ulpExponent y
          ≤ ((roundHalfEven (y / 2 ^ ulpExponent y) : ℤ) : ℚ) * 2 ^ ulpExponent y :=
        mul_le_mul_of_nonneg_right (by exact_mod_cast hy4) (le_of_lt (two_zpow_pos _))
      refine le_trans (le_of_eq ?_) this
      rw [hyu, zpow_sub₀ (by norm_num : (2 : ℚ) ≠ 0)]
      norm_num
      field_simp
    exact le_trans hx5 hy5

/-- Rounding to binary32 is monotone. -/
theorem roundF32_mono {x y : ℚ} (hxy : x ≤ y) : roundF32 x ≤ roundF32 y := by
  rcases lt_or_le 0 x with hx | hx
  · exact roundF32_mono_pos hx hxy
  · rcases le_or_lt 0 y with hy | hy
    · exact le_trans (roundF32_nonpos hx) (roundF32_nonneg hy)
    · have h := roundF32_mono_pos (neg_pos.mpr hy) (neg_le_neg hxy)
      rw [roundF32_neg, roundF32_neg] at h
      linarith


/-- A binary32 value is an integer multiple of every power of two up to its
unit in the last place. -/
theorem grid_of_roundF32_eq (x : ℚ) (h : roundF32 x = x) (g : ℤ) (hg : g ≤ ulpExponent x) :
    ∃ m : ℤ, x = m * 2 ^ g := by
  obtain ⟨n, u, hu, e⟩ : ∃ (n u : ℤ), g ≤ u ∧ x = n * 2 ^ u :=
    ⟨roundHalfEven (x / 2 ^ ulpExponent x), ulpExponent x, hg, h.symm⟩
  have hd : 0 ≤ u - g := by omega
  refine ⟨n * 2 ^ (u - g).toNat, ?_⟩
  push_cast
  rw [e, mul_assoc, two_zpow_toNat_mul _ _ hd]
  congr 2
  ring

/-- A binary32 value of magnitude at least `2^k` is an integer multiple of
`2^(k-23)`. -/
theorem grid_of_le_abs (x : ℚ) (h : roundF32 x = x) (k : ℤ) (hk : (2 : ℚ) ^ k ≤ |x|) :
    ∃ m : ℤ, x = m * 2 ^ (k - 23) := by
  apply grid_of_roundF32_eq x h
  have hpos : 0 < |x| := lt_of_lt_of_le (two_zpow_pos k) hk
  have a : k ≤ Int.log 2 |x| :=
    (Int.zpow_le_iff_le_log (by norm_num) hpos).mp (by simpa using hk)
  unfold ulpExponent
  exact le_trans (by omega) (le_max_left _ _)

/-- The difference of two distinct binary32 values does not round to zero. -/
theorem roundF32_sub_pos (a b : ℚ) (ha : roundF32 a = a) (hb : roundF32 b = b) (hab : a < b) :
    0 < roundF32 (b - a) := by
  obtain ⟨ma, ea⟩ := grid_of_roundF32_eq a ha (-149) (ulpExponent_ge a)
  obtain ⟨mb, eb⟩ := grid_of_roundF32_eq b hb (-149) (ulpExponent_ge b)
  have hp := two_zpow_pos (-149)
  have hm : ma < mb := by
    by_contra hc
    have : (mb : ℚ) ≤ ma := by exact_mod_cast not_lt.mp hc
    have := mul_le_mul_of_nonneg_right this (le_of_lt hp)
    rw [← ea, ← eb] at this
    linarith
  have h1 : (1 : ℚ) ≤ (mb : ℚ) - ma := by
    have : (1 : ℤ) ≤ mb - ma := by omega
    exact_mod_cast this
  have h2 : (2 : ℚ) ^ (-149 : ℤ) ≤ b - a := by
    rw [ea, eb, ← sub_mul]
    calc (2 : ℚ) ^ (-149 : ℤ) = 1 * 2 ^ (-149 : ℤ) := by ring
      _ ≤ ((mb : ℚ) - ma) * 2 ^ (-149 : ℤ) := mul_le_mul_of_nonneg_right h1 (le_of_lt hp)
  have h3 := roundF32_mono h2
  rw [roundF32_of_repr ((2 : ℚ) ^ (-149 : ℤ)) 1 (-149) (by simp) (by norm_num) le_rfl] at h3
  linarith

/-- A sum on the grid of its larger operand that stays inside the binade is
computed exactly. -/
theorem roundF32_add_exact (x c : ℚ) (k mc : ℤ) (hx : roundF32 x = x) (hk : -126 ≤ k)
    (h1 : (2 : ℚ) ^ k ≤ |x|) (hc : c = mc * 2 ^ (k - 23)) (h2 : |x + c| < 2 ^ (k + 1)) :
    roundF32 (x + c) = x + c := by
  obtain ⟨m, em⟩ := grid_of_le_abs x hx k h1
  have hs : x + c = ((m + mc : ℤ) : ℚ) * 2 ^ (k - 23) := by
    rw [em, hc]; push_cast; ring
  refine roundF32_of_repr _ (m + mc) (k - 23) hs ?_ (by omega)
  have hp := two_zpow_pos (k - 23)
  rw [hs, abs_mul, abs_of_pos hp] at h2
  have e : (2 : ℚ) ^ (k + 1) = 16777216 * 2 ^ (k - 23) := by
    rw [show k + 1 = 24 + (k - 23) by ring, zpow_add₀ (by norm_num : (2 : ℚ) ≠ 0)]
    norm_num
  rw [e] at h2
  have h3 : |((m + mc : ℤ) : ℚ)| < 16777216 := lt_of_mul_lt_mul_right h2 (le_of_lt hp)
  have h4 : ((|m + mc| : ℤ) : ℚ) < ((16777216 : ℤ) : ℚ) := by
    rw [Int.cast_abs]; exact_mod_cast h3
  have h5 : |m + mc| < 16777216 := by exact_mod_cast h4
  norm_num
  exact h5

/-- The value of `roundF32` in a known binade. -/
theorem roundF32_of_binade (x : ℚ) (k : ℤ) (hk : -126 ≤ k) (h1 : (2 : ℚ) ^ k ≤ |x|)
    (h2 : |x| < 2 ^ (k + 1)) :
    roundF32 x = (roundHalfEven (x / 2 ^ (k - 23)) : ℚ) * 2 ^ (k - 23) := by
  unfold roundF32
  rw [ulpExponent_of_bounds x k h1 h2, max_eq_left (by omega)]


/-- A natural number below `2^24` is a binary32 value. -/
theorem roundF32_natCast (n : ℕ) (h : n < 2 ^ 24) : roundF32 (n : ℚ) = n := by
  have := roundF32_intCast (n : ℤ) (by rw [abs_of_nonneg (by positivity)]; exact_mod_cast h)
  simpa using this

/-- A numeral below `2^24` is a binary32 value. -/
theorem roundF32_ofNat (n : ℕ) [n.AtLeastTwo] (h : n < 2 ^ 24) :
    roundF32 (no_index (OfNat.ofNat n) : ℚ) = OfNat.ofNat n :=
  roundF32_natCast n h

/-- The number `1` is a binary32 value. -/
theorem roundF32_one : roundF32 1 = 1 := by
  simpa using roundF32_natCast 1 (by norm_num)

/-- A `float` sum does not exceed a binary32 bound of the exact sum. -/
theorem fadd_le_of_le (a b c : ℚ) (h : a + b ≤ c) (hc : roundF32 c = c) : fadd a b ≤ c := by
  have := roundF32_mono h
  rwa [hc] at this

/-- A `float` sum is at least a binary32 bound of the exact sum. -/
theorem le_fadd_of_le (a b c : ℚ) (h : c ≤ a + b) (hc : roundF32 c = c) : c ≤ fadd a b := by
  have := roundF32_mono h
  rwa [hc] at this

/-- A `float` sum above a binary32 value comes from an exact sum above it. -/
theorem lt_of_lt_fadd (a b c : ℚ) (hc : roundF32 c = c) (h : c < fadd a b) : c < a + b := by
  by_contra k
  exact absurd (fadd_le_of_le a b c (not_lt.mp k) hc) (not_le.mpr h)

/-- A `float` sum below a binary32 value comes from an exact sum below it. -/
theorem lt_of_fadd_lt (a b c : ℚ) (hc : roundF32 c = c) (h : fadd a b < c) : a + b < c := by
  by_contra k
  exact absurd (le_fadd_of_le a b c (not_lt.mp k) hc) (not_le.mpr h)

/-- Every `float` sum is a binary32 value. -/
theorem roundF32_fadd (a b : ℚ) : roundF32 (fadd a b) = fadd a b := roundF32_idem _

/-- Every `float` difference is a binary32 value. -/
theorem roundF32_fsub (a b : ℚ) : roundF32 (fsub a b) = fsub a b := roundF32_idem _

/-! ## Unfolding lemmas for `CheckPaddleCollision` -/

/-- Any of the four early returns yields the value-initialised contact. -/
theorem checkPaddle_of_disjoint (ball : Ball) (paddle : Paddle)
    (h : ball.position.x ≥ fadd paddle.position.x PADDLE_WIDTH
        ∨ fadd ball.position.x BALL_WIDTH ≤ paddle.position.x
        ∨ ball.position.y ≥ fadd paddle.position.y PADDLE_HEIGHT
        ∨ fadd ball.position.y BALL_HEIGHT ≤ paddle.position.y) :
    CheckPaddleCollision ball paddle = Contact.init := by
  by_cases h1 : ball.position.x ≥ fadd paddle.position.x PADDLE_WIDTH
  · simp only [CheckPaddleCollision, if_pos h1]
  by_cases h2 : fadd ball.position.x BALL_WIDTH ≤ paddle.position.x
  · simp only [CheckPaddleCollision, if_neg h1, if_pos h2]
  by_cases h3 : ball.position.y ≥ fadd paddle.position.y PADDLE_HEIGHT
  · simp only [CheckPaddleCollision, if_neg h1, if_neg h2, if_pos h3]
  by_cases h4 : fadd ball.position.y BALL_HEIGHT ≤ paddle.position.y
  · simp only [CheckPaddleCollision, if_neg h1, if_neg h2, if_neg h3, if_pos h4]
  · exact absurd h (by tauto)

/-- Past the four early returns the type is the zone chosen by `ballBottom`. -/
theorem checkPaddle_type_of_overlap (ball : Ball) (paddle : Paddle)
    (h1 : ¬ ball.position.x ≥ fadd paddle.position.x PADDLE_WIDTH)
    (h2 : ¬ fadd ball.position.x BALL_WIDTH ≤ paddle.position.x)
    (h3 : ¬ ball.position.y ≥ fadd paddle.position.y PADDLE_HEIGHT)
    (h4 : ¬ fadd ball.position.y BALL_HEIGHT ≤ paddle.position.y) :
    (CheckPaddleCollision ball paddle).type =
      if fadd ball.position.y BALL_HEIGHT > paddle.position.y
          ∧ fadd ball.position.y BALL_HEIGHT
              < fsub (fadd paddle.position.y PADDLE_HEIGHT) (2 * PADDLE_HEIGHT / 3) then
        CollisionType.Top
      else if fadd ball.position.y BALL_HEIGHT
              > fsub (fadd paddle.position.y PADDLE_HEIGHT) (2 * PADDLE_HEIGHT / 3)
          ∧ fadd ball.position.y BALL_HEIGHT
              < fsub (fadd paddle.position.y PADDLE_HEIGHT) (PADDLE_HEIGHT / 3) then
        CollisionType.Middle
      else CollisionType.Bottom := by
  simp only [CheckPaddleCollision, if_neg h1, if_neg h2, if_neg h3, if_neg h4]
  split_ifs <;> rfl

/-- Past the four early returns the penetration is chosen by the sign of the
ball's horizontal velocity. -/
theorem checkPaddle_penetration_of_overlap (ball : Ball) (paddle : Paddle)
    (h1 : ¬ ball.position.x ≥ fadd paddle.position.x PADDLE_WIDTH)
    (h2 : ¬ fadd ball.position.x BALL_WIDTH ≤ paddle.position.x)
    (h3 : ¬ ball.position.y ≥ fadd paddle.position.y PADDLE_HEIGHT)
    (h4 : ¬ fadd ball.position.y BALL_HEIGHT ≤ paddle.position.y) :
    (CheckPaddleCollision ball paddle).penetration =
      if ball.velocity.x < 0 then fsub (fadd paddle.position.x PADDLE_WIDTH) ball.position.x
      else if ball.velocity.x > 0 then fsub paddle.position.x (fadd ball.position.x BALL_WIDTH)
      else 0 := by
  simp only [CheckPaddleCollision, if_neg h1, if_neg h2, if_neg h3, if_neg h4]
  split_ifs <;> rfl

/-- Past the four early returns the type is never `None`. -/
theorem checkPaddle_type_ne_none_of_overlap (ball : Ball) (paddle : Paddle)
    (h1 : ¬ ball.position.x ≥ fadd paddle.position.x PADDLE_WIDTH)
    (h2 : ¬ fadd ball.position.x BALL_WIDTH ≤ paddle.position.x)
    (h3 : ¬ ball.position.y ≥ fadd paddle.position.y PADDLE_HEIGHT)
    (h4 : ¬ fadd ball.position.y BALL_HEIGHT ≤ paddle.position.y) :
    (CheckPaddleCollision ball paddle).type = CollisionType.Top
      ∨ (CheckPaddleCollision ball paddle).type = CollisionType.Middle
      ∨ (CheckPaddleCollision ball paddle).type = CollisionType.Bottom := by
  rw [checkPaddle_type_of_overlap ball paddle h1 h2 h3 h4]
  split_ifs <;> simp

/-! ## Unfolding lemmas for `CheckWallCollision` -/

/-- A `Top` result: the first two tests failed, the third fired. -/
theorem checkWall_top_inv (ball : Ball)
    (h : (CheckWallCollision ball).type = CollisionType.Top) :
    CheckWallCollision ball = ⟨CollisionType.Top, -ball.position.y⟩
    ∧ ¬ ball.position.x < 0 ∧ ¬ fadd ball.position.x BALL_WIDTH > WINDOW_WIDTH
    ∧ ball.position.y < 0 := by
  by_cases h1 : ball.position.x < 0
  · simp only [CheckWallCollision, Contact.init, if_pos h1] at h
    exact absurd h (by decide)
  by_cases h2 : fadd ball.position.x BALL_WIDTH > WINDOW_WIDTH
  · simp only [CheckWallCollision, Contact.init, if_neg h1, if_pos h2] at h
    exact absurd h (by decide)
  by_cases h3 : ball.position.y < 0
  · refine ⟨?_, h1, h2, h3⟩
    simp only [CheckWallCollision, if_neg h1, if_neg h2, if_pos h3]
  by_cases h4 : fadd ball.position.y BALL_HEIGHT > WINDOW_HEIGHT
  · simp only [CheckWallCollision, if_neg h1, if_neg h2, if_neg h3, if_pos h4] at h
    exact absurd h (by decide)
  · simp only [CheckWallCollision, Contact.init, if_neg h1, if_neg h2, if_neg h3, if_neg h4] at h
    exact absurd h (by decide)

/-- A `Bottom` result: the first three tests failed, the fourth fired. -/
theorem checkWall_bottom_inv (ball : Ball)
    (h : (CheckWallCollision ball).type = CollisionType.Bottom) :
    CheckWallCollision ball
      = ⟨CollisionType.Bottom, fsub WINDOW_HEIGHT (fadd ball.position.y BALL_HEIGHT)⟩
    ∧ ¬ ball.position.x < 0 ∧ ¬ fadd ball.position.x BALL_WIDTH > WINDOW_WIDTH
    ∧ ¬ ball.position.y < 0 ∧ fadd ball.position.y BALL_HEIGHT > WINDOW_HEIGHT := by
  by_cases h1 : ball.position.x < 0
  · simp only [CheckWallCollision, Contact.init, if_pos h1] at h
    exact absurd h (by decide)
  by_cases h2 : fadd ball.position.x BALL_WIDTH > WINDOW_WIDTH
  · simp only [CheckWallCollision, Contact.init, if_neg h1, if_pos h2] at h
    exact absurd h (by decide)
  by_cases h3 : ball.position.y < 0
  · simp only [CheckWallCollision, if_neg h1, if_neg h2, if_pos h3] at h
    exact absurd h (by decide)
  by_cases h4 : fadd ball.position.y BALL_HEIGHT > WINDOW_HEIGHT
  · refine ⟨?_, h1, h2, h3, h4⟩
    simp only [CheckWallCollision, if_neg h1, if_neg h2, if_neg h3, if_pos h4]
  · simp only [CheckWallCollision, Contact.init, if_neg h1, if_neg h2, if_neg h3, if_neg h4] at h
    exact absurd h (by decide)

/-- When none of the four tests fires the contact stays value-initialised. -/
theorem checkWall_none_of_inside (ball : Ball)
    (h1 : ¬ ball.position.x < 0) (h2 : ¬ fadd ball.position.x BALL_WIDTH > WINDOW_WIDTH)
    (h3 : ¬ ball.position.y < 0) (h4 : ¬ fadd ball.position.y BALL_HEIGHT > WINDOW_HEIGHT) :
    CheckWallCollision ball = ⟨CollisionType.None, 0⟩ := by
  simp only [CheckWallCollision, Contact.init, if_neg h1, if_neg h2, if_neg h3, if_neg h4]

/-- The contact `CheckWallCollision` returns, by the first test that fires. -/
theorem checkWall_cases (ball : Ball) :
    (ball.position.x < 0 ∧ CheckWallCollision ball = ⟨CollisionType.Left, 0⟩)
    ∨ (¬ ball.position.x < 0 ∧ fadd ball.position.x BALL_WIDTH > WINDOW_WIDTH
        ∧ CheckWallCollision ball = ⟨CollisionType.Right, 0⟩)
    ∨ (¬ ball.position.x < 0 ∧ ¬ fadd ball.position.x BALL_WIDTH > WINDOW_WIDTH
        ∧ (CheckWallCollision ball).type ≠ CollisionType.Left
        ∧ (CheckWallCollision ball).type ≠ CollisionType.Right) := by
  by_cases h1 : ball.position.x < 0
  · left
    refine ⟨h1, ?_⟩
    simp only [CheckWallCollision, Contact.init, if_pos h1]
  by_cases h2 : fadd ball.position.x BALL_WIDTH > WINDOW_WIDTH
  · right; left
    refine ⟨h1, h2, ?_⟩
    simp only [CheckWallCollision, Contact.init, if_neg h1, if_pos h2]
  right; right
  refine ⟨h1, h2, ?_⟩
  by_cases h3 : ball.position.y < 0
  · have e : CheckWallCollision ball = ⟨CollisionType.Top, -ball.position.y⟩ := by
      simp only [CheckWallCollision, if_neg h1, if_neg h2, if_pos h3]
    rw [e]
    exact ⟨fun k => by simp at k, fun k => by simp at k⟩
  by_cases h4 : fadd ball.position.y BALL_HEIGHT > WINDOW_HEIGHT
  · have e : CheckWallCollision ball
        = ⟨CollisionType.Bottom, fsub WINDOW_HEIGHT (fadd ball.position.y BALL_HEIGHT)⟩ := by
      simp only [CheckWallCollision, if_neg h1, if_neg h2, if_neg h3, if_pos h4]
    rw [e]
    exact ⟨fun k => by simp at k, fun k => by simp at k⟩
  · rw [checkWall_none_of_inside ball h1 h2 h3 h4]
    exact ⟨by decide, by decide⟩

/-- The wall contact is `Left` exactly when the ball's left edge is beyond the
left wall. -/
theorem checkWall_left_iff (ball : Ball) :
    (CheckWallCollision ball).type = CollisionType.Left ↔ ball.position.x < 0 := by
  rcases checkWall_cases ball with ⟨h1, e⟩ | ⟨h1, _, e⟩ | ⟨h1, _, n, _⟩
  · rw [e]; exact ⟨fun _ => h1, fun _ => rfl⟩
  · rw [e]; exact ⟨fun k => by simp at k, fun k => absurd k h1⟩
  · exact ⟨fun k => absurd k n, fun k => absurd k h1⟩

/-- The wall contact is `Right` exactly when the ball's left edge is inside
and its right edge is beyond the right wall. -/
theorem checkWall_right_iff (ball : Ball) :
    (CheckWallCollision ball).type = CollisionType.Right ↔
      ¬ ball.position.x < 0 ∧ fadd ball.position.x BALL_WIDTH > WINDOW_WIDTH := by
  rcases checkWall_cases ball with ⟨h1, e⟩ | ⟨h1, h2, e⟩ | ⟨_, h2, _, n⟩
  · rw [e]; exact ⟨fun k => by simp at k, fun k => absurd h1 k.1⟩
  · rw [e]; exact ⟨fun _ => ⟨h1, h2⟩, fun _ => rfl⟩
  · exact ⟨fun k => absurd k n, fun k => absurd k.2 h2⟩

/-! ## Unfolding lemmas for the responses -/

/-- Resolving a `Left` contact: the re-serve assignments of the second branch. -/
theorem collideWithWall_left (b : Ball) (pen : ℚ) :
    b.CollideWithWall ⟨CollisionType.Left, pen⟩
      = ⟨⟨(WINDOW_WIDTH : ℚ) / 2, (WINDOW_HEIGHT : ℚ) / 2⟩, ⟨BALL_SPEED, 0.2 * BALL_SPEED⟩⟩ := by
  simp [Ball.CollideWithWall]

/-- Resolving a `Right` contact: the re-serve assignments of the third branch. -/
theorem collideWithWall_right (b : Ball) (pen : ℚ) :
    b.CollideWithWall ⟨CollisionType.Right, pen⟩
      = ⟨⟨(WINDOW_WIDTH : ℚ) / 2, (WINDOW_HEIGHT : ℚ) / 2⟩, ⟨-BALL_SPEED, 0.2 * BALL_SPEED⟩⟩ := by
  simp [Ball.CollideWithWall]

/-- Resolving a `Top` contact: the bounce of the first branch. -/
theorem collideWithWall_top (b : Ball) (pen : ℚ) :
    b.CollideWithWall ⟨CollisionType.Top, pen⟩
      = ⟨⟨b.position.x, fadd b.position.y pen⟩, ⟨b.velocity.x, -b.velocity.y⟩⟩ := by
  simp [Ball.CollideWithWall]

/-- Resolving a `Bottom` contact: the bounce of the first branch. -/
theorem collideWithWall_bottom (b : Ball) (pen : ℚ) :
    b.CollideWithWall ⟨CollisionType.Bottom, pen⟩
      = ⟨⟨b.position.x, fadd b.position.y pen⟩, ⟨b.velocity.x, -b.velocity.y⟩⟩ := by
  simp [Ball.CollideWithWall]

/-- The ball `Ball::CollideWithPaddle` returns, field by field. -/
theorem collideWithPaddle_eq (b : Ball) (c : Contact) :
    b.CollideWithPaddle c =
      ⟨⟨fadd b.position.x c.penetration, b.position.y⟩,
       ⟨-b.velocity.x,
        if c.type = CollisionType.Top then -0.75 * BALL_SPEED
        else if c.type = CollisionType.Bottom then 0.75 * BALL_SPEED
        else b.velocity.y⟩⟩ := by
  simp only [Ball.CollideWithPaddle]
  split_ifs <;> rfl

/-- A contact of type `None` leaves the ball as it is in `Ball::CollideWithWall`. -/
theorem collideWithWall_none (b : Ball) (c : Contact) (h : c.type = CollisionType.None) :
    b.CollideWithWall c = b := by
  simp [Ball.CollideWithWall, h]

/-- Resolving any contact of type `Left`. -/
theorem collideWithWall_of_left (b : Ball) (c : Contact) (h : c.type = CollisionType.Left) :
    b.CollideWithWall c
      = ⟨⟨(WINDOW_WIDTH : ℚ) / 2, (WINDOW_HEIGHT : ℚ) / 2⟩, ⟨BALL_SPEED, 0.2 * BALL_SPEED⟩⟩ := by
  obtain ⟨t, pen⟩ := c
  simp only at h
  rw [h]
  exact collideWithWall_left b pen

/-- Resolving any contact of type `Right`. -/
theorem collideWithWall_of_right (b : Ball) (c : Contact) (h : c.type = CollisionType.Right) :
    b.CollideWithWall c
      = ⟨⟨(WINDOW_WIDTH : ℚ) / 2, (WINDOW_HEIGHT : ℚ) / 2⟩, ⟨-BALL_SPEED, 0.2 * BALL_SPEED⟩⟩ := by
  obtain ⟨t, pen⟩ := c
  simp only at h
  rw [h]
  exact collideWithWall_right b pen

/-! ## Unfolding lemmas for the frame step -/

/-- The first branch of the collision block: paddle one is hit. -/
theorem checkCollisions_paddleOne (s : LoopState)
    (h : (CheckPaddleCollision s.ball s.paddleOne).type ≠ CollisionType.None) :
    checkCollisions s =
      ({ s with ball := s.ball.CollideWithPaddle (CheckPaddleCollision s.ball s.paddleOne) },
        some Sound.paddleHitSound) := by
  simp only [checkCollisions, if_pos h]

/-- The second branch of the collision block: paddle one is missed, paddle
two is hit. -/
theorem checkCollisions_paddleTwo (s : LoopState)
    (h1 : (CheckPaddleCollision s.ball s.paddleOne).type = CollisionType.None)
    (h2 : (CheckPaddleCollision s.ball s.paddleTwo).type ≠ CollisionType.None) :
    checkCollisions s =
      ({ s with ball := s.ball.CollideWithPaddle (CheckPaddleCollision s.ball s.paddleTwo) },
        some Sound.paddleHitSound) := by
  simp only [checkCollisions, if_neg (not_not.mpr h1), if_pos h2]

/-- The third branch of the collision block: both paddles are missed and the
wall contact is `Left`. -/
theorem checkCollisions_wall_left (s : LoopState)
    (h1 : (CheckPaddleCollision s.ball s.paddleOne).type = CollisionType.None)
    (h2 : (CheckPaddleCollision s.ball s.paddleTwo).type = CollisionType.None)
    (h3 : (CheckWallCollision s.ball).type = CollisionType.Left) :
    checkCollisions s =
      ({ s with ball := s.ball.CollideWithWall (CheckWallCollision s.ball),
                playerTwoScore := s.playerTwoScore + 1 }, none) := by
  have h3n : (CheckWallCollision s.ball).type ≠ CollisionType.None := by
    rw [h3]; decide
  simp only [checkCollisions, if_neg (not_not.mpr h1), if_neg (not_not.mpr h2), if_pos h3n,
    if_pos h3]

/-- The third branch of the collision block: both paddles are missed and the
wall contact is `Right`. -/
theorem checkCollisions_wall_right (s : LoopState)
    (h1 : (CheckPaddleCollision s.ball s.paddleOne).type = CollisionType.None)
    (h2 : (CheckPaddleCollision s.ball s.paddleTwo).type = CollisionType.None)
    (h3 : (CheckWallCollision s.ball).type = CollisionType.Right) :
    checkCollisions s =
      ({ s with ball := s.ball.CollideWithWall (CheckWallCollision s.ball),
                playerOneScore := s.playerOneScore + 1 }, none) := by
  have h3n : (CheckWallCollision s.ball).type ≠ CollisionType.None := by
    rw [h3]; decide
  have h3l : (CheckWallCollision s.ball).type ≠ CollisionType.Left := by
    rw [h3]; decide
  simp only [checkCollisions, if_neg (not_not.mpr h1), if_neg (not_not.mpr h2), if_pos h3n,
    if_neg h3l, if_pos h3]

/-- The third branch of the collision block: both paddles are missed and the
wall contact is neither `None`, `Left` nor `Right`. -/
theorem checkCollisions_wall_bounce (s : LoopState)
    (h1 : (CheckPaddleCollision s.ball s.paddleOne).type = CollisionType.None)
    (h2 : (CheckPaddleCollision s.ball s.paddleTwo).type = CollisionType.None)
    (h3n : (CheckWallCollision s.ball).type ≠ CollisionType.None)
    (h3l : (CheckWallCollision s.ball).type ≠ CollisionType.Left)
    (h3r : (CheckWallCollision s.ball).type ≠ CollisionType.Right) :
    checkCollisions s =
      ({ s with ball := s.ball.CollideWithWall (CheckWallCollision s.ball) },
        some Sound.wallHitSound) := by
  simp only [checkCollisions, if_neg (not_not.mpr h1), if_neg (not_not.mpr h2), if_pos h3n,
    if_neg h3l, if_neg h3r]

/-- No branch of the collision block fires: nothing is hit. -/
theorem checkCollisions_nothing (s : LoopState)
    (h1 : (CheckPaddleCollision s.ball s.paddleOne).type = CollisionType.None)
    (h2 : (CheckPaddleCollision s.ball s.paddleTwo).type = CollisionType.None)
    (h3 : (CheckWallCollision s.ball).type = CollisionType.None) :
    checkCollisions s = (s, none) := by
  simp only [checkCollisions, if_neg (not_not.mpr h1), if_neg (not_not.mpr h2),
    if_neg (not_not.mpr h3)]

/-- The collision block never touches the paddles. -/
theorem checkCollisions_paddles (s : LoopState) :
    (checkCollisions s).1.paddleOne = s.paddleOne
    ∧ (checkCollisions s).1.paddleTwo = s.paddleTwo := by
  by_cases h1 : (CheckPaddleCollision s.ball s.paddleOne).type = CollisionType.None
  · by_cases h2 : (CheckPaddleCollision s.ball s.paddleTwo).type = CollisionType.None
    · by_cases h3n : (CheckWallCollision s.ball).type = CollisionType.None
      · rw [checkCollisions_nothing s h1 h2 h3n]; exact ⟨rfl, rfl⟩
      by_cases h3l : (CheckWallCollision s.ball).type = CollisionType.Left
      · rw [checkCollisions_wall_left s h1 h2 h3l]; exact ⟨rfl, rfl⟩
      by_cases h3r : (CheckWallCollision s.ball).type = CollisionType.Right
      · rw [checkCollisions_wall_right s h1 h2 h3r]; exact ⟨rfl, rfl⟩
      · rw [checkCollisions_wall_bounce s h1 h2 h3n h3l h3r]; exact ⟨rfl, rfl⟩
    · rw [checkCollisions_paddleTwo s h1 h2]; exact ⟨rfl, rfl⟩
  · rw [checkCollisions_paddleOne s h1]; exact ⟨rfl, rfl⟩

/-- The scores after the collision block: player two gains one exactly when
both paddles are missed and the wall contact is `Left`, player one exactly
when both are missed and it is `Right`. -/
theorem checkCollisions_scores (s : LoopState) :
    (checkCollisions s).1.playerOneScore = s.playerOneScore +
      (if (CheckPaddleCollision s.ball s.paddleOne).type = CollisionType.None
          ∧ (CheckPaddleCollision s.ball s.paddleTwo).type = CollisionType.None
          ∧ (CheckWallCollision s.ball).type = CollisionType.Right then 1 else 0)
    ∧ (checkCollisions s).1.playerTwoScore = s.playerTwoScore +
      (if (CheckPaddleCollision s.ball s.paddleOne).type = CollisionType.None
          ∧ (CheckPaddleCollision s.ball s.paddleTwo).type = CollisionType.None
          ∧ (CheckWallCollision s.ball).type = CollisionType.Left then 1 else 0) := by
  by_cases h1 : (CheckPaddleCollision s.ball s.paddleOne).type = CollisionType.None
  · by_cases h2 : (CheckPaddleCollision s.ball s.paddleTwo).type = CollisionType.None
    · by_cases h3n : (CheckWallCollision s.ball).type = CollisionType.None
      · rw [checkCollisions_nothing s h1 h2 h3n]
        simp [h3n]
      by_cases h3l : (CheckWallCollision s.ball).type = CollisionType.Left
      · rw [checkCollisions_wall_left s h1 h2 h3l]
        simp [h1, h2, h3l]
      by_cases h3r : (CheckWallCollision s.ball).type = CollisionType.Right
      · rw [checkCollisions_wall_right s h1 h2 h3r]
        simp [h1, h2, h3r]
      · rw [checkCollisions_wall_bounce s h1 h2 h3n h3l h3r]
        simp [h3l, h3r]
    · rw [checkCollisions_paddleTwo s h1 h2]
      simp [h2]
  · rw [checkCollisions_paddleOne s h1]
    simp [h1]

/-- The paddle velocity block and the advance leave both scores alone. -/
theorem updatePositions_scores (buttons : Buttons → Bool) (dt : ℚ) (s : LoopState) :
    (updatePositions dt (updatePaddleVelocity buttons s)).playerOneScore = s.playerOneScore
    ∧ (updatePositions dt (updatePaddleVelocity buttons s)).playerTwoScore
        = s.playerTwoScore := ⟨rfl, rfl⟩

/-- `Paddle::Update` never writes the velocity. -/
theorem paddle_update_velocity (p : Paddle) (dt : ℚ) : (p.Update dt).velocity = p.velocity := by
  simp only [Paddle.Update]
  split_ifs <;> rfl

/-- `Paddle::Update` advances `position.x` by `velocity.x * dt`. -/
theorem paddle_update_x (p : Paddle) (dt : ℚ) :
    (p.Update dt).position.x = fadd p.position.x (fmul p.velocity.x dt) := by
  simp only [Paddle.Update, Vec2.addAssign, Vec2.mul]
  split_ifs <;> rfl

/-- The value `Paddle::Update` leaves in `position.y`, branch by branch. -/
theorem paddle_update_y (p : Paddle) (dt : ℚ) :
    (p.Update dt).position.y =
      if fadd p.position.y (fmul p.velocity.y dt) < 0 then 0
      else if fadd p.position.y (fmul p.velocity.y dt) > ((WINDOW_HEIGHT - PADDLE_HEIGHT : ℤ) : ℚ) then
        ((WINDOW_HEIGHT - PADDLE_HEIGHT : ℤ) : ℚ)
      else fadd p.position.y (fmul p.velocity.y dt) := by
  simp only [Paddle.Update, Vec2.addAssign, Vec2.mul]
  split_ifs <;> rfl

/-- The paddle velocities at the end of a frame are the ones the velocity
block assigned from the button pair of that paddle. -/
theorem frameStep_velocity_y_eq (buttons : Buttons → Bool) (dt : ℚ) (s : LoopState) :
    (frameStep buttons dt s).1.paddleOne.velocity.y =
      (if buttons Buttons.PaddleOneUp then -PADDLE_SPEED
       else if buttons Buttons.PaddleOneDown then PADDLE_SPEED else 0)
    ∧ (frameStep buttons dt s).1.paddleTwo.velocity.y =
      (if buttons Buttons.PaddleTwoUp then -PADDLE_SPEED
       else if buttons Buttons.PaddleTwoDown then PADDLE_SPEED else 0) := by
  unfold frameStep
  rw [(checkCollisions_paddles _).1, (checkCollisions_paddles _).2]
  simp only [updatePositions, paddle_update_velocity, updatePaddleVelocity]
  constructor <;> split_ifs <;> rfl

/-- The scores at the end of a frame, from the checks on the advanced bodies. -/
theorem frameStep_scores (buttons : Buttons → Bool) (dt : ℚ) (s : LoopState) :
    (frameStep buttons dt s).1.playerOneScore = s.playerOneScore +
      (if (CheckPaddleCollision (updatePositions dt (updatePaddleVelocity buttons s)).ball
              (updatePositions dt (updatePaddleVelocity buttons s)).paddleOne).type
            = CollisionType.None
          ∧ (CheckPaddleCollision (updatePositions dt (updatePaddleVelocity buttons s)).ball
              (updatePositions dt (updatePaddleVelocity buttons s)).paddleTwo).type
            = CollisionType.None
          ∧ (CheckWallCollision (updatePositions dt (updatePaddleVelocity buttons s)).ball).type
            = CollisionType.Right then 1 else 0)
    ∧ (frameStep buttons dt s).1.playerTwoScore = s.playerTwoScore +
      (if (CheckPaddleCollision (updatePositions dt (updatePaddleVelocity buttons s)).ball
              (updatePositions dt (updatePaddleVelocity buttons s)).paddleOne).type
            = CollisionType.None
          ∧ (CheckPaddleCollision (updatePositions dt (updatePaddleVelocity buttons s)).ball
              (updatePositions dt (updatePaddleVelocity buttons s)).paddleTwo).type
            = CollisionType.None
          ∧ (CheckWallCollision (updatePositions dt (updatePaddleVelocity buttons s)).ball).type
            = CollisionType.Left then 1 else 0) := by
  unfold frameStep
  have h := checkCollisions_scores (updatePositions dt (updatePaddleVelocity buttons s))
  rw [(updatePositions_scores buttons dt s).1, (updatePositions_scores buttons dt s).2] at h
  exact h

/-- In one frame neither score decreases and the sum grows by at most one. -/
theorem frameStep_scores_mono (buttons : Buttons → Bool) (dt : ℚ) (s : LoopState) :
    s.playerOneScore ≤ (frameStep buttons dt s).1.playerOneScore
    ∧ s.playerTwoScore ≤ (frameStep buttons dt s).1.playerTwoScore
    ∧ (frameStep buttons dt s).1.playerOneScore + (frameStep buttons dt s).1.playerTwoScore
        ≤ s.playerOneScore + s.playerTwoScore + 1 := by
  obtain ⟨h1, h2⟩ := frameStep_scores buttons dt s
  rw [h1, h2]
  generalize (CheckWallCollision
    (updatePositions dt (updatePaddleVelocity buttons s)).ball).type = w
  generalize (CheckPaddleCollision (updatePositions dt (updatePaddleVelocity buttons s)).ball
    (updatePositions dt (updatePaddleVelocity buttons s)).paddleOne).type = c1
  generalize (CheckPaddleCollision (updatePositions dt (updatePaddleVelocity buttons s)).ball
    (updatePositions dt (updatePaddleVelocity buttons s)).paddleTwo).type = c2
  clear h1 h2
  cases w <;> simp only [reduceCtorEq, and_false, and_true, if_false] <;> omega

/-- Over any list of frames neither score decreases and the sum grows by at
most the number of frames. -/
theorem runFrames_scores_mono (frames : List ((Buttons → Bool) × ℚ)) (s : LoopState) :
    s.playerOneScore ≤ (runFrames frames s).playerOneScore
    ∧ s.playerTwoScore ≤ (runFrames frames s).playerTwoScore
    ∧ (runFrames frames s).playerOneScore + (runFrames frames s).playerTwoScore
        ≤ s.playerOneScore + s.playerTwoScore + frames.length := by
  induction frames generalizing s with
  | nil => simp [runFrames]
  | cons f rest ih =>
    obtain ⟨buttons, dt⟩ := f
    obtain ⟨a1, a2, a3⟩ := frameStep_scores_mono buttons dt s
    obtain ⟨b1, b2, b3⟩ := ih (frameStep buttons dt s).1
    simp only [runFrames, List.length_cons, Nat.cast_add, Nat.cast_one]
    refine ⟨le_trans a1 b1, le_trans a2 b2, ?_⟩
    linarith

/-- When both paddles are missed the ball of the collision block is the ball
as `Ball::CollideWithWall` resolves the wall contact (a `None` contact leaves
it as it is). -/
theorem checkCollisions_wall_ball (s : LoopState)
    (h1 : (CheckPaddleCollision s.ball s.paddleOne).type = CollisionType.None)
    (h2 : (CheckPaddleCollision s.ball s.paddleTwo).type = CollisionType.None) :
    (checkCollisions s).1.ball = s.ball.CollideWithWall (CheckWallCollision s.ball) := by
  by_cases h3n : (CheckWallCollision s.ball).type = CollisionType.None
  · rw [checkCollisions_nothing s h1 h2 h3n, collideWithWall_none _ _ h3n]
  by_cases h3l : (CheckWallCollision s.ball).type = CollisionType.Left
  · rw [checkCollisions_wall_left s h1 h2 h3l]
  by_cases h3r : (CheckWallCollision s.ball).type = CollisionType.Right
  · rw [checkCollisions_wall_right s h1 h2 h3r]
  · rw [checkCollisions_wall_bounce s h1 h2 h3n h3l h3r]

/-- The velocity block and the advance move a paddle horizontally by
`velocity.x * dt` and keep its `velocity.x`. -/
theorem updatePositions_paddle_x (buttons : Buttons → Bool) (dt : ℚ) (s : LoopState) :
    ((updatePositions dt (updatePaddleVelocity buttons s)).paddleOne.position.x
        = fadd s.paddleOne.position.x (fmul s.paddleOne.velocity.x dt)
      ∧ (updatePositions dt (updatePaddleVelocity buttons s)).paddleOne.velocity.x
        = s.paddleOne.velocity.x)
    ∧ ((updatePositions dt (updatePaddleVelocity buttons s)).paddleTwo.position.x
        = fadd s.paddleTwo.position.x (fmul s.paddleTwo.velocity.x dt)
      ∧ (updatePositions dt (updatePaddleVelocity buttons s)).paddleTwo.velocity.x
        = s.paddleTwo.velocity.x) := by
  simp only [updatePositions, paddle_update_x, paddle_update_velocity, updatePaddleVelocity]
  refine ⟨⟨?_, ?_⟩, ⟨?_, ?_⟩⟩ <;> split_ifs <;> rfl

/-- A frame keeps paddles with `velocity.x = 0` at their `position.x`, when
that is a binary32 value. -/
theorem frameStep_paddles_in_place (buttons : Buttons → Bool) (dt a b : ℚ) (s : LoopState)
    (ha : roundF32 a = a) (hb : roundF32 b = b)
    (h1 : s.paddleOne.position.x = a ∧ s.paddleOne.velocity.x = 0)
    (h2 : s.paddleTwo.position.x = b ∧ s.paddleTwo.velocity.x = 0) :
    ((frameStep buttons dt s).1.paddleOne.position.x = a
      ∧ (frameStep buttons dt s).1.paddleOne.velocity.x = 0)
    ∧ ((frameStep buttons dt s).1.paddleTwo.position.x = b
      ∧ (frameStep buttons dt s).1.paddleTwo.velocity.x = 0) := by
  obtain ⟨⟨p1, v1⟩, ⟨p2, v2⟩⟩ := updatePositions_paddle_x buttons dt s
  unfold frameStep
  rw [(checkCollisions_paddles _).1, (checkCollisions_paddles _).2, p1, v1, p2, v2,
    h1.1, h1.2, h2.1, h2.2]
  simp [fadd, fmul, roundF32_zero, ha, hb]

/-- Over any list of frames paddles with `velocity.x = 0` stay at their
`position.x`, when that is a binary32 value. -/
theorem runFrames_paddles_in_place (frames : List ((Buttons → Bool) × ℚ)) (a b : ℚ)
    (s : LoopState) (ha : roundF32 a = a) (hb : roundF32 b = b)
    (h1 : s.paddleOne.position.x = a ∧ s.paddleOne.velocity.x = 0)
    (h2 : s.paddleTwo.position.x = b ∧ s.paddleTwo.velocity.x = 0) :
    ((runFrames frames s).paddleOne.position.x = a
      ∧ (runFrames frames s).paddleOne.velocity.x = 0)
    ∧ ((runFrames frames s).paddleTwo.position.x = b
      ∧ (runFrames frames s).paddleTwo.velocity.x = 0) := by
  induction frames generalizing s with
  | nil => exact ⟨h1, h2⟩
  | cons f rest ih =>
    obtain ⟨buttons, dt⟩ := f
    obtain ⟨k1, k2⟩ := frameStep_paddles_in_place buttons dt a b s ha hb h1 h2
    exact ih (frameStep buttons dt s).1 k1 k2

/-- With the paddles at `x = 50` and `x = 750`, a ball whose wall contact is
`Left` or `Right` overlaps neither paddle. -/
theorem checkPaddle_none_of_wall_exit (ball : Ball) (p1 p2 : Paddle)
    (h1 : p1.position.x = 50) (h2 : p2.position.x = 750)
    (hw : (CheckWallCollision ball).type = CollisionType.Left
      ∨ (CheckWallCollision ball).type = CollisionType.Right) :
    CheckPaddleCollision ball p1 = Contact.init
    ∧ CheckPaddleCollision ball p2 = Contact.init := by
  rcases hw with hw | hw
  · have hx := (checkWall_left_iff ball).mp hw
    have hr : fadd ball.position.x BALL_WIDTH ≤ 15 :=
      fadd_le_of_le _ _ 15 (by norm_num [BALL_WIDTH]; linarith)
        (roundF32_ofNat 15 (by norm_num))
    constructor
    · apply checkPaddle_of_disjoint
      right; left
      rw [h1]; linarith
    · apply checkPaddle_of_disjoint
      right; left
      rw [h2]; linarith
  · have hx := lt_of_lt_fadd _ _ 800 (roundF32_ofNat 800 (by norm_num))
      (by simpa [WINDOW_WIDTH] using ((checkWall_right_iff ball).mp hw).2)
    norm_num [BALL_WIDTH] at hx
    constructor
    · apply checkPaddle_of_disjoint
      left
      rw [h1, show fadd (50 : ℚ) (PADDLE_WIDTH : ℚ) = 60 by
        norm_num [fadd, PADDLE_WIDTH, roundF32_ofNat 60 (by norm_num)]]
      linarith
    · apply checkPaddle_of_disjoint
      left
      rw [h2, show fadd (750 : ℚ) (PADDLE_WIDTH : ℚ) = 760 by
        norm_num [fadd, PADDLE_WIDTH, roundF32_ofNat 760 (by norm_num)]]
      linarith

/-! ## Binary32 values used in the examples -/

/-- The sum `8 + 2^-20 + 120` rounds down to `128`: the unit in the last
place is `2^-16` there. -/
theorem roundF32_example_128 : roundF32 (128 + 1 / 2 ^ 20) = 128 := by
  rw [roundF32_of_binade _ 7 (by norm_num) (by norm_num [abs_of_pos]) (by norm_num [abs_of_pos]),
    roundHalfEven_of_lt_half _ (2 ^ 23) (by norm_num) (by norm_num)]
  norm_num

/-- For a paddle inside the field, `0 <= position.y <= 380` (the range to
which `Paddle::Update` clamps), the band bounds are computed from the `float`
`paddleBottom` without rounding error: `paddleRangeUpper = paddleBottom - 80`
and `paddleRangeMiddle = paddleBottom - 40`. -/
theorem paddleRange_exact (py : ℚ) (h0 : 0 ≤ py) (h1 : py ≤ 380) :
    fsub (fadd py 120) 80 = fadd py 120 - 80 ∧ fsub (fadd py 120) 40 = fadd py 120 - 40 := by
  have hB : roundF32 (fadd py 120) = fadd py 120 := roundF32_fadd py 120
  have lo : (120 : ℚ) ≤ fadd py 120 :=
    le_fadd_of_le py 120 120 (by linarith) (roundF32_ofNat 120 (by norm_num))
  have hi : fadd py 120 ≤ 500 :=
    fadd_le_of_le py 120 500 (by linarith) (roundF32_ofNat 500 (by norm_num))
  generalize fadd py 120 = B at hB lo hi
  unfold fsub
  rw [sub_eq_add_neg B 80, sub_eq_add_neg B 40]
  rcases lt_or_le B 128 with c1 | c1
  · exact ⟨roundF32_add_exact B (-80) 6 (-80 * 2 ^ 17) hB (by norm_num)
        (by rw [abs_of_pos (by linarith)]; norm_num; linarith) (by norm_num)
        (by rw [abs_of_pos (by linarith)]; norm_num; linarith),
      roundF32_add_exact B (-40) 6 (-40 * 2 ^ 17) hB (by norm_num)
        (by rw [abs_of_pos (by linarith)]; norm_num; linarith) (by norm_num)
        (by rw [abs_of_pos (by linarith)]; norm_num; linarith)⟩
  rcases lt_or_le B 256 with c2 | c2
  · exact ⟨roundF32_add_exact B (-80) 7 (-80 * 2 ^ 16) hB (by norm_num)
        (by rw [abs_of_pos (by linarith)]; norm_num; linarith) (by norm_num)
        (by rw [abs_of_pos (by linarith)]; norm_num; linarith),
      roundF32_add_exact B (-40) 7 (-40 * 2 ^ 16) hB (by norm_num)
        (by rw [abs_of_pos (by linarith)]; norm_num; linarith) (by norm_num)
        (by rw [abs_of_pos (by linarith)]; norm_num; linarith)⟩
  · exact ⟨roundF32_add_exact B (-80) 8 (-80 * 2 ^ 15) hB (by norm_num)
        (by rw [abs_of_pos (by linarith)]; norm_num; linarith) (by norm_num)
        (by rw [abs_of_pos (by linarith)]; norm_num; linarith),
      roundF32_add_exact B (-40) 8 (-40 * 2 ^ 15) hB (by norm_num)
        (by rw [abs_of_pos (by linarith)]; norm_num; linarith) (by norm_num)
        (by rw [abs_of_pos (by linarith)]; norm_num; linarith)⟩

/-! ## Claims about `CheckPaddleCollision` -/

/-- For a binary32 `x`, the test `ballRight > 800` on the rounded sum agrees
with the exact one: the sum is exact below `1024`. -/
theorem ballRight_gt_iff (x : ℚ) (hx : roundF32 x = x) :
    fadd x BALL_WIDTH > WINDOW_WIDTH ↔ x + BALL_WIDTH > WINDOW_WIDTH := by
  have h800 : roundF32 (800 : ℚ) = 800 := roundF32_ofNat 800 (by norm_num)
  have hW : (WINDOW_WIDTH : ℚ) = 800 := by norm_num [WINDOW_WIDTH]
  have hB : (BALL_WIDTH : ℚ) = 15 := by norm_num [BALL_WIDTH]
  rw [hW, hB]
  constructor
  · exact fun h => lt_of_lt_fadd x 15 800 h800 h
  · intro h
    rcases le_or_lt (1024 : ℚ) (x + 15) with hbig | hsmall
    · have := le_fadd_of_le x 15 1024 hbig (roundF32_ofNat 1024 (by norm_num))
      linarith
    · have hxpos : 0 < x := by linarith
      have e : fadd x 15 = x + 15 :=
        roundF32_add_exact x 15 9 (15 * 2 ^ 14) hx (by norm_num)
          (by rw [abs_of_pos hxpos]; norm_num; linarith) (by norm_num)
          (by rw [abs_of_pos (by linarith)]; norm_num; linarith)
      rw [e]; exact h

/-- For a binary32 `y`, the test `ballBottom > 500` on the rounded sum agrees
with the exact one: the sum is exact below `512`. -/
theorem ballBottom_gt_iff (y : ℚ) (hy : roundF32 y = y) :
    fadd y BALL_HEIGHT > WINDOW_HEIGHT ↔ y + BALL_HEIGHT > WINDOW_HEIGHT := by
  have h500 : roundF32 (500 : ℚ) = 500 := roundF32_ofNat 500 (by norm_num)
  have hW : (WINDOW_HEIGHT : ℚ) = 500 := by norm_num [WINDOW_HEIGHT]
  have hB : (BALL_HEIGHT : ℚ) = 15 := by norm_num [BALL_HEIGHT]
  rw [hW, hB]
  constructor
  · exact fun h => lt_of_lt_fadd y 15 500 h500 h
  · intro h
    rcases le_or_lt (512 : ℚ) (y + 15) with hbig | hsmall
    · have := le_fadd_of_le y 15 512 hbig (roundF32_ofNat 512 (by norm_num))
      linarith
    · have hypos : 0 < y := by linarith
      have e : fadd y 15 = y + 15 :=
        roundF32_add_exact y 15 8 (15 * 2 ^ 15) hy (by norm_num)
          (by rw [abs_of_pos hypos]; norm_num; linarith) (by norm_num)
          (by rw [abs_of_pos (by linarith)]; norm_num; linarith)
      rw [e]; exact h

/-- For a binary32 `y` with `500 < y + 15 < 512`, `ballBottom` and the
`Bottom` penetration `500 - ballBottom` are computed without rounding error. -/
theorem ballBottom_exact (y : ℚ) (hy : roundF32 y = y) (h0 : 500 < y + 15)
    (h1 : y + 15 < 512) :
    fadd y 15 = y + 15 ∧ fsub 500 (fadd y 15) = 500 - (y + 15) := by
  have hypos : 0 < y := by linarith
  have e : fadd y 15 = y + 15 :=
    roundF32_add_exact y 15 8 (15 * 2 ^ 15) hy (by norm_num)
      (by rw [abs_of_pos hypos]; norm_num; linarith) (by norm_num)
      (by rw [abs_of_pos (by linarith)]; norm_num; linarith)
  have fb : roundF32 (y + 15) = y + 15 := by
    rw [← e]; exact roundF32_fadd y 15
  have d : roundF32 (y + 15 + -500) = y + 15 + -500 :=
    roundF32_add_exact (y + 15) (-500) 8 (-500 * 2 ^ 15) fb (by norm_num)
      (by rw [abs_of_pos (by linarith)]; norm_num; linarith) (by norm_num)
      (by rw [abs_of_pos (by linarith)]; norm_num; linarith)
  refine ⟨e, ?_⟩
  rw [e]
  unfold fsub
  rw [show (500 : ℚ) - (y + 15) = -(y + 15 + -500) by ring, roundF32_neg, d]

/-- C3: `CheckWallCollision` is the fixed-priority cascade on the 800x500
field with the 15x15 ball: `ballLeft < 0` gives `(Left, 0)`, else
`ballRight > 800` gives `(Right, 0)`, else `ballTop < 0` gives
`(Top, -ballTop)`, else `ballBottom > 500` gives `(Bottom, 500 - ballBottom)`,
else `(None, 0)`, with `ballRight`, `ballBottom` and the difference as the
code computes them in binary32. A ball with `ballLeft < 0` and `ballTop < 0`
is `Left`, not `Top`, and a ball at `x = -1` yields `(Left, 0)`. For a
binary32 position the four tests agree with the tests on the exact sums
`x + 15` and `y + 15`, and when moreover `y + 15 < 512` the whole result,
penetration included, is that of the cascade in exact arithmetic. -/
theorem checkWallCollision_cascade (ball : Ball) :
    CheckWallCollision ball =
      (if ball.position.x < 0 then ⟨CollisionType.Left, 0⟩
       else if fadd ball.position.x 15 > 800 then ⟨CollisionType.Right, 0⟩
       else if ball.position.y < 0 then ⟨CollisionType.Top, -ball.position.y⟩
       else if fadd ball.position.y 15 > 500 then
         ⟨CollisionType.Bottom, fsub 500 (fadd ball.position.y 15)⟩
       else ⟨CollisionType.None, 0⟩)
    ∧ (ball.position.x < 0 → ball.position.y < 0 →
        (CheckWallCollision ball).type = CollisionType.Left
        ∧ (CheckWallCollision ball).type ≠ CollisionType.Top)
    ∧ (ball.position.x = -1 → CheckWallCollision ball = ⟨CollisionType.Left, 0⟩)
    ∧ (roundF32 ball.position.x = ball.position.x →
        roundF32 ball.position.y = ball.position.y →
        (CheckWallCollision ball).type =
          (if ball.position.x < 0 then CollisionType.Left
           else if ball.position.x + 15 > 800 then CollisionType.Right
           else if ball.position.y < 0 then CollisionType.Top
           else if ball.position.y + 15 > 500 then CollisionType.Bottom
           else CollisionType.None))
    ∧ (roundF32 ball.position.x = ball.position.x →
        roundF32 ball.position.y = ball.position.y →
        ball.position.y + 15 < 512 →
        CheckWallCollision ball =
          (if ball.position.x < 0 then ⟨CollisionType.Left, 0⟩
           else if ball.position.x + 15 > 800 then ⟨CollisionType.Right, 0⟩
           else if ball.position.y < 0 then ⟨CollisionType.Top, -ball.position.y⟩
           else if ball.position.y + 15 > 500 then
             ⟨CollisionType.Bottom, 500 - (ball.position.y + 15)⟩
           else ⟨CollisionType.None, 0⟩)) := by
  have c : CheckWallCollision ball =
      (if ball.position.x < 0 then ⟨CollisionType.Left, 0⟩
       else if fadd ball.position.x 15 > 800 then ⟨CollisionType.Right, 0⟩
       else if ball.position.y < 0 then ⟨CollisionType.Top, -ball.position.y⟩
       else if fadd ball.position.y 15 > 500 then
         ⟨CollisionType.Bottom, fsub 500 (fadd ball.position.y 15)⟩
       else ⟨CollisionType.None, 0⟩) := by
    simp only [CheckWallCollision, Contact.init]
    norm_num [WINDOW_WIDTH, WINDOW_HEIGHT, BALL_WIDTH, BALL_HEIGHT]
  refine ⟨c, ?_, ?_, ?_, ?_⟩
  · intro hx _
    have e : CheckWallCollision ball = ⟨CollisionType.Left, 0⟩ := by
      simp only [CheckWallCollision, Contact.init, if_pos hx]
    rw [e]
    exact ⟨rfl, by decide⟩
  · intro hx
    have hx0 : ball.position.x < 0 := by rw [hx]; norm_num
    simp only [CheckWallCollision, Contact.init, if_pos hx0]
  · intro fx fy
    have rx := ballRight_gt_iff ball.position.x fx
    have ry := ballBottom_gt_iff ball.position.y fy
    norm_num [WINDOW_WIDTH, BALL_WIDTH] at rx
    norm_num [WINDOW_HEIGHT, BALL_HEIGHT] at ry
    rw [c]
    by_cases h1 : ball.position.x < 0
    · rw [if_pos h1, if_pos h1]
    by_cases h2 : 800 < ball.position.x + 15
    · rw [if_neg h1, if_neg h1, if_pos (rx.mpr h2), if_pos h2]
    by_cases h3 : ball.position.y < 0
    · rw [if_neg h1, if_neg h1, if_neg (fun k => h2 (rx.mp k)), if_neg h2, if_pos h3, if_pos h3]
    by_cases h4 : 500 < ball.position.y + 15
    · rw [if_neg h1, if_neg h1, if_neg (fun k => h2 (rx.mp k)), if_neg h2, if_neg h3,
        if_neg h3, if_pos (ry.mpr h4), if_pos h4]
    · rw [if_neg h1, if_neg h1, if_neg (fun k => h2 (rx.mp k)), if_neg h2, if_neg h3,
        if_neg h3, if_neg (fun k => h4 (ry.mp k)), if_neg h4]
  · intro fx fy hlt
    have rx := ballRight_gt_iff ball.position.x fx
    have ry := ballBottom_gt_iff ball.position.y fy
    norm_num [WINDOW_WIDTH, BALL_WIDTH] at rx
    norm_num [WINDOW_HEIGHT, BALL_HEIGHT] at ry
    rw [c]
    by_cases h1 : ball.position.x < 0
    · rw [if_pos h1, if_pos h1]
    by_cases h2 : 800 < ball.position.x + 15
    · rw [if_neg h1, if_neg h1, if_pos (rx.mpr h2), if_pos h2]
    by_cases h3 : ball.position.y < 0
    · rw [if_neg h1, if_neg h1, if_neg (fun k => h2 (rx.mp k)), if_neg h2, if_pos h3, if_pos h3]
    by_cases h4 : 500 < ball.position.y + 15
    · obtain ⟨e1, e2⟩ := ballBottom_exact ball.position.y fy h4 hlt
      rw [if_neg h1, if_neg h1, if_neg (fun k => h2 (rx.mp k)), if_neg h2, if_neg h3,
        if_neg h3, if_pos (ry.mpr h4), if_pos h4, e2]
    · rw [if_neg h1, if_neg h1, if_neg (fun k => h2 (rx.mp k)), if_neg h2, if_neg h3,
        if_neg h3, if_neg (fun k => h4 (ry.mp k)), if_neg h4]

/-- Witness for C3: the ball at `(-1, -3)` is beyond the left and the top edge
at once and is classified `Left` with penetration `0`; the ball at the
binary32 position `(790, 200)` is classified by the exact tests, and the ball
at `(100, 490)` gets the exact contact `(Bottom, -5)`. -/
theorem checkWallCollision_cascade_witness :
    ((-1 : ℚ) < 0 ∧ (-3 : ℚ) < 0)
    ∧ (CheckWallCollision ⟨⟨-1, -3⟩, ⟨-1/2, -1/10⟩⟩).type = CollisionType.Left
    ∧ (CheckWallCollision ⟨⟨-1, -3⟩, ⟨-1/2, -1/10⟩⟩).type ≠ CollisionType.Top
    ∧ CheckWallCollision ⟨⟨-1, -3⟩, ⟨-1/2, -1/10⟩⟩ = ⟨CollisionType.Left, 0⟩
    ∧ (roundF32 (790 : ℚ) = 790 ∧ roundF32 (200 : ℚ) = 200)
    ∧ (CheckWallCollision ⟨⟨790, 200⟩, ⟨1/2, 1/10⟩⟩).type = CollisionType.Right
    ∧ CheckWallCollision ⟨⟨100, 490⟩, ⟨1/2, 3/8⟩⟩ = ⟨CollisionType.Bottom, -5⟩ :=
  ⟨⟨by norm_num, by norm_num⟩,
   ((checkWallCollision_cascade ⟨⟨-1, -3⟩, ⟨-1/2, -1/10⟩⟩).2.1
      (by norm_num) (by norm_num)).1,
   ((checkWallCollision_cascade ⟨⟨-1, -3⟩, ⟨-1/2, -1/10⟩⟩).2.1
      (by norm_num) (by norm_num)).2,
   (checkWallCollision_cascade ⟨⟨-1, -3⟩, ⟨-1/2, -1/10⟩⟩).2.2.1 rfl,
   ⟨roundF32_ofNat 790 (by norm_num), roundF32_ofNat 200 (by norm_num)⟩,
   ((checkWallCollision_cascade ⟨⟨790, 200⟩, ⟨1/2, 1/10⟩⟩).2.2.2.1
      (roundF32_ofNat 790 (by norm_num)) (roundF32_ofNat 200 (by norm_num))).trans
      (by norm_num),
   ((checkWallCollision_cascade ⟨⟨100, 490⟩, ⟨1/2, 3/8⟩⟩).2.2.2.2
      (roundF32_ofNat 100 (by norm_num)) (roundF32_ofNat 490 (by norm_num))
      (by norm_num)).trans (by norm_num)⟩

/-! ## Claims about `Paddle::Update` -/

/-- C4: for every starting paddle position, velocity and `dt`, after
`Paddle::Update(dt)` the paddle's `position.y` lies in `[0, 500 - 120]`,
that is `0 <= position.y <= 380`. -/
theorem paddle_update_clamped (p : Paddle) (dt : ℚ) :
    0 ≤ (p.Update dt).position.y
    ∧ (p.Update dt).position.y ≤ (WINDOW_HEIGHT : ℚ) - (PADDLE_HEIGHT : ℚ)
    ∧ (p.Update dt).position.y ≤ 380 := by
  have hc : (((WINDOW_HEIGHT - PADDLE_HEIGHT : ℤ)) : ℚ) = 380 := by
    norm_num [WINDOW_HEIGHT, PADDLE_HEIGHT]
  have hd : (WINDOW_HEIGHT : ℚ) - (PADDLE_HEIGHT : ℚ) = 380 := by
    norm_num [WINDOW_HEIGHT, PADDLE_HEIGHT]
  rw [hd]
  simp only [Paddle.Update, hc]
  split_ifs with h1 h2
  · norm_num
  · norm_num
  · exact ⟨not_lt.mp h1, not_lt.mp h2, not_lt.mp h2⟩

/-! ## Claims about `Ball::CollideWithWall` on a scored point -/

/-- C5: evaluation of the code at the ball `(-1, 200)`: the wall check yields
`(Left, 0)` and resolving it puts the ball's position at `(400, 250)`, not at
`(392.5, 242.5)` where `main` first creates the ball; the centre of the
re-served 15x15 box is `(407.5, 257.5)`, not the playfield centre. -/
theorem collideWithWall_left_position_at_failing_input :
    CheckWallCollision ⟨⟨-1, 200⟩, ⟨-1/2, 1/10⟩⟩ = ⟨CollisionType.Left, 0⟩
    ∧ (Ball.CollideWithWall ⟨⟨-1, 200⟩, ⟨-1/2, 1/10⟩⟩
        (CheckWallCollision ⟨⟨-1, 200⟩, ⟨-1/2, 1/10⟩⟩)).position = ⟨400, 250⟩
    ∧ (Ball.CollideWithWall ⟨⟨-1, 200⟩, ⟨-1/2, 1/10⟩⟩
        (CheckWallCollision ⟨⟨-1, 200⟩, ⟨-1/2, 1/10⟩⟩)).position ≠ ⟨392.5, 242.5⟩
    ∧ initialBall.position = ⟨392.5, 242.5⟩
    ∧ (Ball.CollideWithWall ⟨⟨-1, 200⟩, ⟨-1/2, 1/10⟩⟩
        (CheckWallCollision ⟨⟨-1, 200⟩, ⟨-1/2, 1/10⟩⟩)).position.x + (BALL_WIDTH : ℚ) / 2
          = 407.5
    ∧ (Ball.CollideWithWall ⟨⟨-1, 200⟩, ⟨-1/2, 1/10⟩⟩
        (CheckWallCollision ⟨⟨-1, 200⟩, ⟨-1/2, 1/10⟩⟩)).position.y + (BALL_HEIGHT : ℚ) / 2
          = 257.5 := by
  have e : CheckWallCollision ⟨⟨-1, 200⟩, ⟨-1/2, 1/10⟩⟩ = ⟨CollisionType.Left, 0⟩ := by
    norm_num [CheckWallCollision, Contact.init]
  rw [e, collideWithWall_left]
  norm_num [initialBall, WINDOW_WIDTH, WINDOW_HEIGHT, BALL_WIDTH, BALL_HEIGHT]

/-- C6: for every prior ball state and every penetration value,
`Ball::CollideWithWall` with a `Left` contact sets the position to
`(800/2, 500/2) = (400, 250)` and the velocity to
`(BALL_SPEED, 0.2*BALL_SPEED) = (0.5, 0.1)`; with a `Right` contact it sets
the position to `(400, 250)` and the velocity to `(-0.5, 0.1)`. The
horizontal sign flips between the two cases and the `Left` case serves
rightward. -/
theorem collideWithWall_reserve (b : Ball) (pen : ℚ) :
    b.CollideWithWall ⟨CollisionType.Left, pen⟩ = ⟨⟨400, 250⟩, ⟨0.5, 0.1⟩⟩
    ∧ b.CollideWithWall ⟨CollisionType.Right, pen⟩ = ⟨⟨400, 250⟩, ⟨-0.5, 0.1⟩⟩
    ∧ (b.CollideWithWall ⟨CollisionType.Left, pen⟩).position
        = ⟨(WINDOW_WIDTH : ℚ) / 2, (WINDOW_HEIGHT : ℚ) / 2⟩
    ∧ (b.CollideWithWall ⟨CollisionType.Right, pen⟩).position
        = ⟨(WINDOW_WIDTH : ℚ) / 2, (WINDOW_HEIGHT : ℚ) / 2⟩
    ∧ (b.CollideWithWall ⟨CollisionType.Left, pen⟩).velocity
        = ⟨BALL_SPEED, 0.2 * BALL_SPEED⟩
    ∧ (b.CollideWithWall ⟨CollisionType.Right, pen⟩).velocity
        = ⟨-BALL_SPEED, 0.2 * BALL_SPEED⟩
    ∧ (b.CollideWithWall ⟨CollisionType.Right, pen⟩).velocity.x
        = -(b.CollideWithWall ⟨CollisionType.Left, pen⟩).velocity.x
    ∧ 0 < (b.CollideWithWall ⟨CollisionType.Left, pen⟩).velocity.x := by
  rw [collideWithWall_left, collideWithWall_right]
  norm_num [WINDOW_WIDTH, WINDOW_HEIGHT, BALL_SPEED]

/-- Counterexample for C7: after a `Left` contact is resolved the squared
magnitude of the velocity is `0.26`, not `BALL_SPEED^2 = 0.25`. -/
theorem collideWithWall_speed_counterexample :
    BALL_SPEED ^ 2 = 0.25
    ∧ (Ball.CollideWithWall ⟨⟨-1, 200⟩, ⟨-1/2, 1/10⟩⟩ ⟨CollisionType.Left, 0⟩).velocity.x ^ 2
      + (Ball.CollideWithWall ⟨⟨-1, 200⟩, ⟨-1/2, 1/10⟩⟩ ⟨CollisionType.Left, 0⟩).velocity.y ^ 2
      ≠ BALL_SPEED ^ 2 := by
  rw [collideWithWall_left]
  norm_num [BALL_SPEED]

/-- C7 (amended): for every prior ball state and every penetration value,
after `Ball::CollideWithWall` resolves a `Left` or `Right` contact the
horizontal component of the velocity has magnitude `BALL_SPEED`
(`velocity.x^2 = BALL_SPEED^2 = 0.25`), the vertical component is
`0.2*BALL_SPEED`, and so the squared magnitude is
`1.04 * BALL_SPEED^2 = 0.26`. -/
theorem collideWithWall_reserve_speed (b : Ball) (pen : ℚ) :
    ((b.CollideWithWall ⟨CollisionType.Left, pen⟩).velocity.x ^ 2 = BALL_SPEED ^ 2
      ∧ (b.CollideWithWall ⟨CollisionType.Left, pen⟩).velocity.y = 0.2 * BALL_SPEED
      ∧ (b.CollideWithWall ⟨CollisionType.Left, pen⟩).velocity.x ^ 2
          + (b.CollideWithWall ⟨CollisionType.Left, pen⟩).velocity.y ^ 2
          = 1.04 * BALL_SPEED ^ 2)
    ∧ ((b.CollideWithWall ⟨CollisionType.Right, pen⟩).velocity.x ^ 2 = BALL_SPEED ^ 2
      ∧ (b.CollideWithWall ⟨CollisionType.Right, pen⟩).velocity.y = 0.2 * BALL_SPEED
      ∧ (b.CollideWithWall ⟨CollisionType.Right, pen⟩).velocity.x ^ 2
          + (b.CollideWithWall ⟨CollisionType.Right, pen⟩).velocity.y ^ 2
          = 1.04 * BALL_SPEED ^ 2)
    ∧ BALL_SPEED ^ 2 = 0.25 ∧ 1.04 * BALL_SPEED ^ 2 = 0.26 := by
  rw [collideWithWall_left, collideWithWall_right]
  norm_num [BALL_SPEED]

/-! ## Claims about `Ball::CollideWithPaddle` -/

/-- Against paddle one of `main` (`paddleLeft = 50`, `paddleRight = 60`) the
penetration of an overlapping ball at a binary32 position, `60 - ballLeft`, is
computed without rounding error. -/
theorem paddleOne_penetration_exact (x : ℚ) (hx : roundF32 x = x) (h1 : x < 60)
    (h2 : 50 < fadd x 15) : fsub 60 x = 60 - x := by
  have h3 : (50 : ℚ) < x + 15 := lt_of_lt_fadd x 15 50 (roundF32_ofNat 50 (by norm_num)) h2
  have d : roundF32 (x + -60) = x + -60 :=
    roundF32_add_exact x (-60) 5 (-60 * 2 ^ 18) hx (by norm_num)
      (by rw [abs_of_pos (by linarith)]; norm_num; linarith) (by norm_num)
      (by rw [abs_of_neg (by linarith)]; norm_num; linarith)
  unfold fsub
  rw [show (60 : ℚ) - x = -(x + -60) by ring, roundF32_neg, d]

/-- Against paddle two of `main` (`paddleLeft = 750`, `paddleRight = 760`)
the `ballRight` of an overlapping ball at a binary32 position and the
penetration `750 - ballRight` are computed without rounding error. -/
theorem paddleTwo_penetration_exact (x : ℚ) (hx : roundF32 x = x) (h1 : x < 760)
    (h2 : 750 < fadd x 15) :
    fadd x 15 = x + 15 ∧ fsub 750 (fadd x 15) = 750 - fadd x 15 := by
  have h3 : (750 : ℚ) < x + 15 :=
    lt_of_lt_fadd x 15 750 (roundF32_ofNat 750 (by norm_num)) h2
  have e : fadd x 15 = x + 15 :=
    roundF32_add_exact x 15 9 (15 * 2 ^ 14) hx (by norm_num)
      (by rw [abs_of_pos (by linarith)]; norm_num; linarith) (by norm_num)
      (by rw [abs_of_pos (by linarith)]; norm_num; linarith)
  have fb : roundF32 (x + 15) = x + 15 := by
    rw [← e]; exact roundF32_fadd x 15
  have d : roundF32 (x + 15 + -750) = x + 15 + -750 :=
    roundF32_add_exact (x + 15) (-750) 9 (-750 * 2 ^ 14) fb (by norm_num)
      (by rw [abs_of_pos (by linarith)]; norm_num; linarith) (by norm_num)
      (by rw [abs_of_pos (by linarith)]; norm_num; linarith)
  refine ⟨e, ?_⟩
  rw [e]
  unfold fsub
  rw [show (750 : ℚ) - (x + 15) = -(x + 15 + -750) by ring, roundF32_neg, d]

/-- The difference `10 - (-15 + 3 * 2^-20)` is a tie between two binary32
values and rounds to the even one, `25 - 2^-18`. -/
theorem roundF32_example_25 : roundF32 (25 - 3 / 2 ^ 20) = 25 - 1 / 2 ^ 18 := by
  rw [roundF32_of_binade _ 4 (by norm_num) (by norm_num [abs_of_pos]) (by norm_num [abs_of_pos]),
    roundHalfEven_of_tie _ (25 * 2 ^ 19 - 2) (by norm_num)]
  norm_num

/-- Counterexample for C8. First, a ball with `velocity.x = 0` overlapping the
paddle at `(50, 190)` gets a non-`None` contact, and after
`Ball::CollideWithPaddle` its box still overlaps the paddle's on the x-axis.
Second, the leftward ball at the binary32 position `(-15 + 3 * 2^-20, 200)`
overlaps the paddle at `(0, 190)`; its penetration rounds to `25 - 2^-18`, the
resolved `position.x` is `10 - 2^-20`, and the boxes still overlap on the
x-axis. -/
theorem collideWithPaddle_separation_counterexample :
    (((52 : ℚ) < 50 + PADDLE_WIDTH ∧ (50 : ℚ) < 52 + BALL_WIDTH
        ∧ (200 : ℚ) < 190 + PADDLE_HEIGHT ∧ (190 : ℚ) < 200 + BALL_HEIGHT)
      ∧ (CheckPaddleCollision ⟨⟨52, 200⟩, ⟨0, 1/10⟩⟩ ⟨⟨50, 190⟩, ⟨0, 0⟩⟩).type
          ≠ CollisionType.None
      ∧ ¬ ((Ball.CollideWithPaddle ⟨⟨52, 200⟩, ⟨0, 1/10⟩⟩
              (CheckPaddleCollision ⟨⟨52, 200⟩, ⟨0, 1/10⟩⟩ ⟨⟨50, 190⟩, ⟨0, 0⟩⟩)).position.x
            ≥ 50 + PADDLE_WIDTH
          ∨ (Ball.CollideWithPaddle ⟨⟨52, 200⟩, ⟨0, 1/10⟩⟩
              (CheckPaddleCollision ⟨⟨52, 200⟩, ⟨0, 1/10⟩⟩ ⟨⟨50, 190⟩, ⟨0, 0⟩⟩)).position.x
              + BALL_WIDTH ≤ 50))
    ∧ (roundF32 (-15 + 3 / 2 ^ 20) = -15 + 3 / 2 ^ 20
      ∧ ((-15 + 3 / 2 ^ 20 : ℚ) < 0 + PADDLE_WIDTH ∧ (0 : ℚ) < -15 + 3 / 2 ^ 20 + BALL_WIDTH
        ∧ (200 : ℚ) < 190 + PADDLE_HEIGHT ∧ (190 : ℚ) < 200 + BALL_HEIGHT)
      ∧ (CheckPaddleCollision ⟨⟨-15 + 3 / 2 ^ 20, 200⟩, ⟨-1/2, 1/10⟩⟩
            ⟨⟨0, 190⟩, ⟨0, 0⟩⟩).type ≠ CollisionType.None
      ∧ (Ball.CollideWithPaddle ⟨⟨-15 + 3 / 2 ^ 20, 200⟩, ⟨-1/2, 1/10⟩⟩
            (CheckPaddleCollision ⟨⟨-15 + 3 / 2 ^ 20, 200⟩, ⟨-1/2, 1/10⟩⟩
              ⟨⟨0, 190⟩, ⟨0, 0⟩⟩)).position.x = 10 - 1 / 2 ^ 20
      ∧ ¬ ((10 - 1 / 2 ^ 20 : ℚ) ≥ 0 + PADDLE_WIDTH
          ∨ (10 - 1 / 2 ^ 20 : ℚ) + BALL_WIDTH ≤ 0)) := by
  constructor
  · have e : CheckPaddleCollision ⟨⟨52, 200⟩, ⟨0, 1/10⟩⟩ ⟨⟨50, 190⟩, ⟨0, 0⟩⟩
        = ⟨CollisionType.Top, 0⟩ := by
      norm_num [CheckPaddleCollision, Contact.init, BALL_WIDTH, BALL_HEIGHT, PADDLE_WIDTH,
        PADDLE_HEIGHT, fadd, fsub, roundF32_ofNat 60 (by norm_num),
        roundF32_ofNat 67 (by norm_num), roundF32_ofNat 310 (by norm_num),
        roundF32_ofNat 215 (by norm_num), roundF32_ofNat 230 (by norm_num),
        roundF32_ofNat 270 (by norm_num)]
    rw [e, collideWithPaddle_eq]
    refine ⟨by norm_num [BALL_WIDTH, BALL_HEIGHT, PADDLE_WIDTH, PADDLE_HEIGHT], by decide, ?_⟩
    norm_num [BALL_WIDTH, PADDLE_WIDTH, fadd, roundF32_ofNat 52 (by norm_num)]
  · have fx : roundF32 (-15 + 3 / 2 ^ 20) = -15 + 3 / 2 ^ 20 :=
      roundF32_of_repr _ (-15 * 2 ^ 20 + 3) (-20) (by norm_num)
        (by rw [abs_lt]; constructor <;> norm_num) (by norm_num)
    have eR : fadd (0 : ℚ) (PADDLE_WIDTH : ℚ) = 10 := by
      norm_num [fadd, PADDLE_WIDTH, roundF32_ofNat 10 (by norm_num)]
    have eb : fadd (-15 + 3 / 2 ^ 20 : ℚ) (BALL_WIDTH : ℚ) = 3 / 2 ^ 20 := by
      unfold fadd
      rw [show (-15 + 3 / 2 ^ 20 : ℚ) + (BALL_WIDTH : ℚ) = 3 / 2 ^ 20 by norm_num [BALL_WIDTH]]
      exact roundF32_of_repr _ 3 (-20) (by norm_num) (by norm_num) (by norm_num)
    have eB : fadd (190 : ℚ) (PADDLE_HEIGHT : ℚ) = 310 := by
      norm_num [fadd, PADDLE_HEIGHT, roundF32_ofNat 310 (by norm_num)]
    have ebb : fadd (200 : ℚ) (BALL_HEIGHT : ℚ) = 215 := by
      norm_num [fadd, BALL_HEIGHT, roundF32_ofNat 215 (by norm_num)]
    have o1 : ¬ (-15 + 3 / 2 ^ 20 : ℚ) ≥ fadd (0 : ℚ) (PADDLE_WIDTH : ℚ) := by
      rw [eR]; norm_num
    have o2 : ¬ fadd (-15 + 3 / 2 ^ 20 : ℚ) (BALL_WIDTH : ℚ) ≤ 0 := by
      rw [eb]; norm_num
    have o3 : ¬ (200 : ℚ) ≥ fadd (190 : ℚ) (PADDLE_HEIGHT : ℚ) := by rw [eB]; norm_num
    have o4 : ¬ fadd (200 : ℚ) (BALL_HEIGHT : ℚ) ≤ 190 := by rw [ebb]; norm_num
    have p := checkPaddle_penetration_of_overlap ⟨⟨-15 + 3 / 2 ^ 20, 200⟩, ⟨-1/2, 1/10⟩⟩
      ⟨⟨0, 190⟩, ⟨0, 0⟩⟩ o1 o2 o3 o4
    have z := checkPaddle_type_ne_none_of_overlap ⟨⟨-15 + 3 / 2 ^ 20, 200⟩, ⟨-1/2, 1/10⟩⟩
      ⟨⟨0, 190⟩, ⟨0, 0⟩⟩ o1 o2 o3 o4
    have hv : ((-1 / 2 : ℚ) < 0) := by norm_num
    rw [if_pos hv] at p
    have ep : fsub (fadd (0 : ℚ) (PADDLE_WIDTH : ℚ)) (-15 + 3 / 2 ^ 20) = 25 - 1 / 2 ^ 18 := by
      rw [eR]
      unfold fsub
      rw [show (10 : ℚ) - (-15 + 3 / 2 ^ 20) = 25 - 3 / 2 ^ 20 by norm_num]
      exact roundF32_example_25
    refine ⟨fx, by norm_num [PADDLE_WIDTH, BALL_WIDTH, PADDLE_HEIGHT, BALL_HEIGHT], ?_, ?_,
      by norm_num [PADDLE_WIDTH, BALL_WIDTH]⟩
    · intro k
      rcases z with z | z | z <;> rw [k] at z <;> exact absurd z (by decide)
    · rw [collideWithPaddle_eq, p]
      show fadd (-15 + 3 / 2 ^ 20 : ℚ)
          (fsub (fadd (0 : ℚ) (PADDLE_WIDTH : ℚ)) (-15 + 3 / 2 ^ 20)) = 10 - 1 / 2 ^ 20
      rw [ep]
      unfold fadd
      rw [show (-15 + 3 / 2 ^ 20 : ℚ) + (25 - 1 / 2 ^ 18) = 10 - 1 / 2 ^ 20 by norm_num]
      exact roundF32_of_repr _ (10 * 2 ^ 20 - 1) (-20) (by norm_num) (by norm_num)
        (by norm_num)

/-- C8 (amended): for every ball whose box overlaps the paddle's box on both
axes, on the edges as computed, `CheckPaddleCollision` returns a non-`None`
contact. For binary32 positions its penetration is strictly positive when
`velocity.x < 0` and strictly negative when `velocity.x > 0`. When
`velocity.x` is not zero and the `float` operations involved are computed
without rounding error (the penetration; for `velocity.x > 0` also
`ballRight` and `paddleLeft - 15`), after `Ball::CollideWithPaddle` with that
contact the boxes no longer overlap on the x-axis (new
`ballLeft >= paddleRight` or new `ballRight <= paddleLeft`). That is so for
every binary32 ball position when a leftward ball hits paddle one of `main`
(`x = 50`) and when a rightward ball hits paddle two (`x = 750`). -/
theorem collideWithPaddle_separation (ball : Ball) (paddle : Paddle)
    (hx1 : ball.position.x < fadd paddle.position.x PADDLE_WIDTH)
    (hx2 : paddle.position.x < fadd ball.position.x BALL_WIDTH)
    (hy1 : ball.position.y < fadd paddle.position.y PADDLE_HEIGHT)
    (hy2 : paddle.position.y < fadd ball.position.y BALL_HEIGHT) :
    (CheckPaddleCollision ball paddle).type ≠ CollisionType.None
    ∧ (ball.velocity.x < 0 → roundF32 ball.position.x = ball.position.x →
        0 < (CheckPaddleCollision ball paddle).penetration)
    ∧ (ball.velocity.x > 0 → roundF32 paddle.position.x = paddle.position.x →
        (CheckPaddleCollision ball paddle).penetration < 0)
    ∧ (ball.velocity.x < 0 →
        fsub (fadd paddle.position.x PADDLE_WIDTH) ball.position.x
          = fadd paddle.position.x PADDLE_WIDTH - ball.position.x →
        (ball.CollideWithPaddle (CheckPaddleCollision ball paddle)).position.x
            ≥ fadd paddle.position.x PADDLE_WIDTH)
    ∧ (ball.velocity.x > 0 → roundF32 paddle.position.x = paddle.position.x →
        fadd ball.position.x BALL_WIDTH = ball.position.x + BALL_WIDTH →
        fsub paddle.position.x (fadd ball.position.x BALL_WIDTH)
          = paddle.position.x - fadd ball.position.x BALL_WIDTH →
        fsub paddle.position.x BALL_WIDTH = paddle.position.x - BALL_WIDTH →
        fadd (ball.CollideWithPaddle (CheckPaddleCollision ball paddle)).position.x BALL_WIDTH
            ≤ paddle.position.x)
    ∧ (paddle.position.x = 50 → ball.velocity.x < 0 →
        roundF32 ball.position.x = ball.position.x →
        (ball.CollideWithPaddle (CheckPaddleCollision ball paddle)).position.x
            ≥ fadd paddle.position.x PADDLE_WIDTH)
    ∧ (paddle.position.x = 750 → ball.velocity.x > 0 →
        roundF32 ball.position.x = ball.position.x →
        fadd (ball.CollideWithPaddle (CheckPaddleCollision ball paddle)).position.x BALL_WIDTH
            ≤ paddle.position.x) := by
  have z := checkPaddle_type_ne_none_of_overlap ball paddle (not_le.mpr hx1) (not_le.mpr hx2)
    (not_le.mpr hy1) (not_le.mpr hy2)
  have p := checkPaddle_penetration_of_overlap ball paddle (not_le.mpr hx1) (not_le.mpr hx2)
    (not_le.mpr hy1) (not_le.mpr hy2)
  have hBW : (BALL_WIDTH : ℚ) = 15 := by norm_num [BALL_WIDTH]
  have hPW : (PADDLE_WIDTH : ℚ) = 10 := by norm_num [PADDLE_WIDTH]
  have L : ball.velocity.x < 0 →
      fsub (fadd paddle.position.x PADDLE_WIDTH) ball.position.x
        = fadd paddle.position.x PADDLE_WIDTH - ball.position.x →
      (ball.CollideWithPaddle (CheckPaddleCollision ball paddle)).position.x
          ≥ fadd paddle.position.x PADDLE_WIDTH := by
    intro hv he
    rw [collideWithPaddle_eq, p, if_pos hv]
    show fadd ball.position.x (fsub (fadd paddle.position.x PADDLE_WIDTH) ball.position.x)
      ≥ fadd paddle.position.x PADDLE_WIDTH
    rw [he]
    unfold fadd
    rw [show ball.position.x
        + (roundF32 (paddle.position.x + PADDLE_WIDTH) - ball.position.x)
        = roundF32 (paddle.position.x + PADDLE_WIDTH) by ring, roundF32_idem]
  have R : ball.velocity.x > 0 → roundF32 paddle.position.x = paddle.position.x →
      fadd ball.position.x BALL_WIDTH = ball.position.x + BALL_WIDTH →
      fsub paddle.position.x (fadd ball.position.x BALL_WIDTH)
        = paddle.position.x - fadd ball.position.x BALL_WIDTH →
      fsub paddle.position.x BALL_WIDTH = paddle.position.x - BALL_WIDTH →
      fadd (ball.CollideWithPaddle (CheckPaddleCollision ball paddle)).position.x BALL_WIDTH
          ≤ paddle.position.x := by
    intro hv fp h1 h2 h3
    rw [collideWithPaddle_eq, p, if_neg (not_lt.mpr (le_of_lt hv)), if_pos hv]
    show fadd (fadd ball.position.x (fsub paddle.position.x (fadd ball.position.x BALL_WIDTH)))
      BALL_WIDTH ≤ paddle.position.x
    rw [h2, h1]
    have e1 : fadd ball.position.x (paddle.position.x - (ball.position.x + BALL_WIDTH))
        = paddle.position.x - BALL_WIDTH := by
      unfold fadd
      rw [show ball.position.x + (paddle.position.x - (ball.position.x + BALL_WIDTH))
        = paddle.position.x - BALL_WIDTH by ring]
      exact h3
    rw [e1]
    unfold fadd
    rw [show paddle.position.x - (BALL_WIDTH : ℚ) + BALL_WIDTH = paddle.position.x by ring, fp]
  refine ⟨?_, ?_, ?_, L, R, ?_, ?_⟩
  · intro k
    rcases z with z | z | z <;> rw [k] at z <;> exact absurd z (by decide)
  · intro hv fx
    rw [p, if_pos hv]
    exact roundF32_sub_pos _ _ fx (roundF32_fadd _ _) hx1
  · intro hv fp
    rw [p, if_neg (not_lt.mpr (le_of_lt hv)), if_pos hv]
    have h := roundF32_sub_pos _ _ fp (roundF32_fadd ball.position.x BALL_WIDTH) hx2
    have e : fsub paddle.position.x (fadd ball.position.x BALL_WIDTH)
        = -roundF32 (fadd ball.position.x BALL_WIDTH - paddle.position.x) := by
      unfold fsub
      rw [← roundF32_neg]
      congr 1
      ring
    rw [e]
    linarith
  · intro hp hneg fx
    have eR : fadd paddle.position.x PADDLE_WIDTH = 60 := by
      rw [hp, hPW]
      norm_num [fadd, roundF32_ofNat 60 (by norm_num)]
    rw [eR] at hx1 L ⊢
    rw [hp, hBW] at hx2
    exact L hneg (paddleOne_penetration_exact ball.position.x fx hx1 hx2)
  · intro hp hpos fx
    have eR : fadd paddle.position.x PADDLE_WIDTH = 760 := by
      rw [hp, hPW]
      norm_num [fadd, roundF32_ofNat 760 (by norm_num)]
    rw [eR] at hx1
    rw [hp, hBW] at hx2 R
    obtain ⟨e1, e2⟩ := paddleTwo_penetration_exact ball.position.x fx hx1 hx2
    rw [hp, hBW]
    exact R hpos (roundF32_ofNat 750 (by norm_num)) e1 e2
      (by norm_num [fsub, roundF32_ofNat 735 (by norm_num)])

/-- Witness for C8 (amended): a leftward ball at `(52, 200)` overlapping the
paddle at `(50, 190)`; the penetration `60 - 52 = 8` is exact. And a rightward
ball at the binary32 position `(740 + 2^-10, 200)` overlapping paddle two at
`(750, 190)` is separated from it. -/
theorem collideWithPaddle_separation_witness :
    (CheckPaddleCollision ⟨⟨52, 200⟩, ⟨-1/2, 1/10⟩⟩ ⟨⟨50, 190⟩, ⟨0, 0⟩⟩).type
        ≠ CollisionType.None
    ∧ 0 < (CheckPaddleCollision ⟨⟨52, 200⟩, ⟨-1/2, 1/10⟩⟩ ⟨⟨50, 190⟩, ⟨0, 0⟩⟩).penetration
    ∧ (Ball.CollideWithPaddle ⟨⟨52, 200⟩, ⟨-1/2, 1/10⟩⟩
          (CheckPaddleCollision ⟨⟨52, 200⟩, ⟨-1/2, 1/10⟩⟩ ⟨⟨50, 190⟩, ⟨0, 0⟩⟩)).position.x
        ≥ fadd 50 PADDLE_WIDTH
    ∧ fadd (Ball.CollideWithPaddle ⟨⟨740 + 1 / 2 ^ 10, 200⟩, ⟨1/2, 1/10⟩⟩
          (CheckPaddleCollision ⟨⟨740 + 1 / 2 ^ 10, 200⟩, ⟨1/2, 1/10⟩⟩
            ⟨⟨750, 190⟩, ⟨0, 0⟩⟩)).position.x BALL_WIDTH ≤ 750 :=
  have eR : fadd (50 : ℚ) (PADDLE_WIDTH : ℚ) = 60 := by
    norm_num [fadd, PADDLE_WIDTH, roundF32_ofNat 60 (by norm_num)]
  have eb : fadd (52 : ℚ) (BALL_WIDTH : ℚ) = 67 := by
    norm_num [fadd, BALL_WIDTH, roundF32_ofNat 67 (by norm_num)]
  have eB : fadd (190 : ℚ) (PADDLE_HEIGHT : ℚ) = 310 := by
    norm_num [fadd, PADDLE_HEIGHT, roundF32_ofNat 310 (by norm_num)]
  have ebb : fadd (200 : ℚ) (BALL_HEIGHT : ℚ) = 215 := by
    norm_num [fadd, BALL_HEIGHT, roundF32_ofNat 215 (by norm_num)]
  have o1 : (52 : ℚ) < fadd (50 : ℚ) (PADDLE_WIDTH : ℚ) := by rw [eR]; norm_num
  have o2 : (50 : ℚ) < fadd (52 : ℚ) (BALL_WIDTH : ℚ) := by rw [eb]; norm_num
  have o3 : (200 : ℚ) < fadd (190 : ℚ) (PADDLE_HEIGHT : ℚ) := by rw [eB]; norm_num
  have o4 : (190 : ℚ) < fadd (200 : ℚ) (BALL_HEIGHT : ℚ) := by rw [ebb]; norm_num
  ⟨(collideWithPaddle_separation ⟨⟨52, 200⟩, ⟨-1/2, 1/10⟩⟩ ⟨⟨50, 190⟩, ⟨0, 0⟩⟩
      o1 o2 o3 o4).1,
   (collideWithPaddle_separation ⟨⟨52, 200⟩, ⟨-1/2, 1/10⟩⟩ ⟨⟨50, 190⟩, ⟨0, 0⟩⟩
      o1 o2 o3 o4).2.1 (by norm_num) (roundF32_ofNat 52 (by norm_num)),
   (collideWithPaddle_separation ⟨⟨52, 200⟩, ⟨-1/2, 1/10⟩⟩ ⟨⟨50, 190⟩, ⟨0, 0⟩⟩
      o1 o2 o3 o4).2.2.2.1 (by norm_num)
      (by show fsub (fadd (50 : ℚ) (PADDLE_WIDTH : ℚ)) 52
            = fadd (50 : ℚ) (PADDLE_WIDTH : ℚ) - 52
          rw [eR]; norm_num [fsub, roundF32_ofNat 8 (by norm_num)]),
   (collideWithPaddle_separation ⟨⟨740 + 1 / 2 ^ 10, 200⟩, ⟨1/2, 1/10⟩⟩
      ⟨⟨750, 190⟩, ⟨0, 0⟩⟩
      (by show (740 + 1 / 2 ^ 10 : ℚ) < fadd (750 : ℚ) (PADDLE_WIDTH : ℚ)
          rw [show fadd (750 : ℚ) (PADDLE_WIDTH : ℚ) = 760 by
            norm_num [fadd, PADDLE_WIDTH, roundF32_ofNat 760 (by norm_num)]]
          norm_num)
      (lt_of_lt_of_le (by norm_num : (750 : ℚ) < 755)
        (le_fadd_of_le _ _ 755 (by norm_num [BALL_WIDTH]) (roundF32_ofNat 755 (by norm_num))))
      o3 o4).2.2.2.2.2.2 rfl (by norm_num)
      (roundF32_of_repr _ (740 * 2 ^ 10 + 1) (-10) (by norm_num) (by norm_num)
        (by norm_num))⟩

/-- C9: for every ball state and every contact, `Ball::CollideWithPaddle`
negates `velocity.x`, adds `contact.penetration` to `position.x` (a `float`
addition) and leaves `position.y` unchanged; `velocity.y` becomes
`-0.75*BALL_SPEED = -0.375` (negative) for a `Top` contact,
`0.75*BALL_SPEED = 0.375` (positive) for a `Bottom` contact, and is unchanged
for a `Middle` contact. -/
theorem collideWithPaddle_response (b : Ball) (c : Contact) (pen : ℚ) :
    (b.CollideWithPaddle c).velocity.x = -b.velocity.x
    ∧ (b.CollideWithPaddle c).position.x = fadd b.position.x c.penetration
    ∧ (b.CollideWithPaddle c).position.y = b.position.y
    ∧ ((b.CollideWithPaddle ⟨CollisionType.Top, pen⟩).velocity.y = -0.75 * BALL_SPEED
        ∧ (b.CollideWithPaddle ⟨CollisionType.Top, pen⟩).velocity.y = -0.375
        ∧ (b.CollideWithPaddle ⟨CollisionType.Top, pen⟩).velocity.y < 0)
    ∧ ((b.CollideWithPaddle ⟨CollisionType.Bottom, pen⟩).velocity.y = 0.75 * BALL_SPEED
        ∧ (b.CollideWithPaddle ⟨CollisionType.Bottom, pen⟩).velocity.y = 0.375
        ∧ 0 < (b.CollideWithPaddle ⟨CollisionType.Bottom, pen⟩).velocity.y)
    ∧ (b.CollideWithPaddle ⟨CollisionType.Middle, pen⟩).velocity.y = b.velocity.y := by
  simp only [collideWithPaddle_eq, reduceCtorEq, if_true, if_false, true_and]
  norm_num [BALL_SPEED]

/-! ## Claims about `Ball::CollideWithWall` on a bounce -/

/-- The sum `497 + 2^-15 + 15` is a tie between two binary32 values and
rounds to the even one, `512`. -/
theorem roundF32_example_512 : roundF32 (512 + 1 / 2 ^ 15) = 512 := by
  rw [roundF32_of_binade _ 9 (by norm_num) (by norm_num [abs_of_pos]) (by norm_num [abs_of_pos]),
    roundHalfEven_of_tie _ (2 ^ 23) (by norm_num)]
  norm_num

/-- Counterexample for C10: the ball at the binary32 position
`(100, 497 + 2^-15)`. Its `ballBottom` rounds to `512`, the contact is
`(Bottom, -12)`, the resolved `position.y` is `485 + 2^-15`, not `485`, and
`CheckWallCollision` on the resolved ball returns `Bottom` again, not `None`. -/
theorem collideWithWall_bounce_counterexample :
    roundF32 (497 + 1 / 2 ^ 15) = 497 + 1 / 2 ^ 15
    ∧ CheckWallCollision ⟨⟨100, 497 + 1 / 2 ^ 15⟩, ⟨1/2, 3/8⟩⟩ = ⟨CollisionType.Bottom, -12⟩
    ∧ (Ball.CollideWithWall ⟨⟨100, 497 + 1 / 2 ^ 15⟩, ⟨1/2, 3/8⟩⟩
        (CheckWallCollision ⟨⟨100, 497 + 1 / 2 ^ 15⟩, ⟨1/2, 3/8⟩⟩)).position.y
        = 485 + 1 / 2 ^ 15
    ∧ (Ball.CollideWithWall ⟨⟨100, 497 + 1 / 2 ^ 15⟩, ⟨1/2, 3/8⟩⟩
        (CheckWallCollision ⟨⟨100, 497 + 1 / 2 ^ 15⟩, ⟨1/2, 3/8⟩⟩)).position.y ≠ 485
    ∧ (CheckWallCollision (Ball.CollideWithWall ⟨⟨100, 497 + 1 / 2 ^ 15⟩, ⟨1/2, 3/8⟩⟩
        (CheckWallCollision ⟨⟨100, 497 + 1 / 2 ^ 15⟩, ⟨1/2, 3/8⟩⟩))).type
        = CollisionType.Bottom := by
  have fy : roundF32 (497 + 1 / 2 ^ 15) = 497 + 1 / 2 ^ 15 :=
    roundF32_of_repr _ (497 * 2 ^ 15 + 1) (-15) (by norm_num) (by norm_num) (by norm_num)
  have er : fadd (100 : ℚ) (BALL_WIDTH : ℚ) = 115 := by
    norm_num [fadd, BALL_WIDTH, roundF32_ofNat 115 (by norm_num)]
  have eb : fadd (497 + 1 / 2 ^ 15 : ℚ) (BALL_HEIGHT : ℚ) = 512 := by
    unfold fadd
    rw [show (497 + 1 / 2 ^ 15 : ℚ) + (BALL_HEIGHT : ℚ) = 512 + 1 / 2 ^ 15 by
      norm_num [BALL_HEIGHT]]
    exact roundF32_example_512
  have ep : fsub (WINDOW_HEIGHT : ℚ) 512 = -12 := by
    norm_num [fsub, WINDOW_HEIGHT, roundF32_neg, roundF32_ofNat 12 (by norm_num)]
  have c1 : CheckWallCollision ⟨⟨100, 497 + 1 / 2 ^ 15⟩, ⟨1/2, 3/8⟩⟩
      = ⟨CollisionType.Bottom, -12⟩ := by
    simp only [CheckWallCollision, er, eb, ep]
    norm_num [WINDOW_WIDTH, WINDOW_HEIGHT]
  have ey : fadd (497 + 1 / 2 ^ 15 : ℚ) (-12) = 485 + 1 / 2 ^ 15 := by
    unfold fadd
    rw [show (497 + 1 / 2 ^ 15 : ℚ) + (-12) = 485 + 1 / 2 ^ 15 by norm_num]
    exact roundF32_of_repr _ (485 * 2 ^ 15 + 1) (-15) (by norm_num) (by norm_num)
      (by norm_num)
  have eb2 : fadd (485 + 1 / 2 ^ 15 : ℚ) (BALL_HEIGHT : ℚ) = 500 + 1 / 2 ^ 15 := by
    unfold fadd
    rw [show (485 + 1 / 2 ^ 15 : ℚ) + (BALL_HEIGHT : ℚ) = 500 + 1 / 2 ^ 15 by
      norm_num [BALL_HEIGHT]]
    exact roundF32_of_repr _ (500 * 2 ^ 15 + 1) (-15) (by norm_num) (by norm_num)
      (by norm_num)
  have r : Ball.CollideWithWall ⟨⟨100, 497 + 1 / 2 ^ 15⟩, ⟨1/2, 3/8⟩⟩ ⟨CollisionType.Bottom, -12⟩
      = ⟨⟨100, 485 + 1 / 2 ^ 15⟩, ⟨1/2, -(3/8)⟩⟩ := by
    rw [collideWithWall_bottom]
    simp only [ey]
  rw [c1, r]
  refine ⟨fy, rfl, rfl, by norm_num, ?_⟩
  simp only [CheckWallCollision, er, eb2]
  norm_num [WINDOW_WIDTH, WINDOW_HEIGHT]

/-- C10 (amended): for every ball for which `CheckWallCollision` returns a
`Top` or `Bottom` contact, `Ball::CollideWithWall` with that contact negates
`velocity.y` and leaves `position.x` and `velocity.x` unchanged. After a `Top`
contact the ball is exactly flush (new `ballTop = 0`) and
`CheckWallCollision` on the resolved ball returns `None`. After a `Bottom`
contact the new `position.y` is `y + (500 - ballBottom)` in `float`
arithmetic; when `ballBottom = y + 15` and `500 - ballBottom` are computed
without rounding error it is `485`, the new `ballBottom` is `500`, and
`CheckWallCollision` on the resolved ball returns `None`. That is so for
every binary32 `position.y` with `y + 15 < 512`, a ball less than 12 below
the bottom wall. -/
theorem collideWithWall_bounce (ball : Ball)
    (h : (CheckWallCollision ball).type = CollisionType.Top
      ∨ (CheckWallCollision ball).type = CollisionType.Bottom) :
    (ball.CollideWithWall (CheckWallCollision ball)).velocity.y = -ball.velocity.y
    ∧ (ball.CollideWithWall (CheckWallCollision ball)).position.x = ball.position.x
    ∧ (ball.CollideWithWall (CheckWallCollision ball)).velocity.x = ball.velocity.x
    ∧ ((CheckWallCollision ball).type = CollisionType.Top →
        (ball.CollideWithWall (CheckWallCollision ball)).position.y = 0
        ∧ CheckWallCollision (ball.CollideWithWall (CheckWallCollision ball))
            = ⟨CollisionType.None, 0⟩)
    ∧ ((CheckWallCollision ball).type = CollisionType.Bottom →
        (ball.CollideWithWall (CheckWallCollision ball)).position.y
          = fadd ball.position.y (fsub WINDOW_HEIGHT (fadd ball.position.y BALL_HEIGHT)))
    ∧ ((CheckWallCollision ball).type = CollisionType.Bottom →
        fadd ball.position.y BALL_HEIGHT = ball.position.y + BALL_HEIGHT →
        fsub WINDOW_HEIGHT (fadd ball.position.y BALL_HEIGHT)
          = WINDOW_HEIGHT - fadd ball.position.y BALL_HEIGHT →
        (ball.CollideWithWall (CheckWallCollision ball)).position.y = 485
        ∧ fadd (ball.CollideWithWall (CheckWallCollision ball)).position.y BALL_HEIGHT = 500
        ∧ CheckWallCollision (ball.CollideWithWall (CheckWallCollision ball))
            = ⟨CollisionType.None, 0⟩)
    ∧ ((CheckWallCollision ball).type = CollisionType.Bottom →
        roundF32 ball.position.y = ball.position.y →
        ball.position.y + BALL_HEIGHT < 512 →
        (ball.CollideWithWall (CheckWallCollision ball)).position.y = 485
        ∧ fadd (ball.CollideWithWall (CheckWallCollision ball)).position.y BALL_HEIGHT = 500
        ∧ CheckWallCollision (ball.CollideWithWall (CheckWallCollision ball))
            = ⟨CollisionType.None, 0⟩) := by
  have f15 : fadd (0 : ℚ) (BALL_HEIGHT : ℚ) = 15 := by
    norm_num [fadd, BALL_HEIGHT, roundF32_ofNat 15 (by norm_num)]
  have f500 : fadd (485 : ℚ) (BALL_HEIGHT : ℚ) = 500 := by
    norm_num [fadd, BALL_HEIGHT, roundF32_ofNat 500 (by norm_num)]
  rcases h with h | h
  · obtain ⟨e, h1, h2, h3⟩ := checkWall_top_inv ball h
    rw [e, collideWithWall_top]
    have y0 : fadd ball.position.y (-ball.position.y) = 0 := by
      unfold fadd
      rw [add_neg_cancel, roundF32_zero]
    refine ⟨rfl, rfl, rfl, fun _ => ⟨y0, ?_⟩, fun k => by simp at k, fun k => by simp at k,
      fun k => by simp at k⟩
    apply checkWall_none_of_inside
    · exact h1
    · exact h2
    · show ¬ fadd ball.position.y (-ball.position.y) < 0
      rw [y0]; norm_num
    · show ¬ fadd (fadd ball.position.y (-ball.position.y)) BALL_HEIGHT > WINDOW_HEIGHT
      rw [y0, f15]; norm_num [WINDOW_HEIGHT]
  · obtain ⟨e, h1, h2, h3, h4⟩ := checkWall_bottom_inv ball h
    rw [e, collideWithWall_bottom]
    have core : fadd ball.position.y BALL_HEIGHT = ball.position.y + BALL_HEIGHT →
        fsub WINDOW_HEIGHT (fadd ball.position.y BALL_HEIGHT)
          = WINDOW_HEIGHT - fadd ball.position.y BALL_HEIGHT →
        fadd ball.position.y (fsub WINDOW_HEIGHT (fadd ball.position.y BALL_HEIGHT)) = 485
        ∧ fadd (fadd ball.position.y
            (fsub WINDOW_HEIGHT (fadd ball.position.y BALL_HEIGHT))) BALL_HEIGHT = 500
        ∧ CheckWallCollision
            ⟨⟨ball.position.x,
              fadd ball.position.y (fsub WINDOW_HEIGHT (fadd ball.position.y BALL_HEIGHT))⟩,
             ⟨ball.velocity.x, -ball.velocity.y⟩⟩ = ⟨CollisionType.None, 0⟩ := by
      intro k1 k2
      have y485 : fadd ball.position.y (fsub WINDOW_HEIGHT (fadd ball.position.y BALL_HEIGHT))
          = 485 := by
        rw [k2, k1]
        unfold fadd
        rw [show ball.position.y + ((WINDOW_HEIGHT : ℚ) - (ball.position.y + BALL_HEIGHT))
          = 485 by norm_num [WINDOW_HEIGHT, BALL_HEIGHT]; ring]
        exact roundF32_ofNat 485 (by norm_num)
      refine ⟨y485, ?_, ?_⟩
      · rw [y485, f500]
      · apply checkWall_none_of_inside
        · exact h1
        · exact h2
        · show ¬ fadd ball.position.y
            (fsub WINDOW_HEIGHT (fadd ball.position.y BALL_HEIGHT)) < 0
          rw [y485]; norm_num
        · show ¬ fadd (fadd ball.position.y
            (fsub WINDOW_HEIGHT (fadd ball.position.y BALL_HEIGHT))) BALL_HEIGHT > WINDOW_HEIGHT
          rw [y485, f500]; norm_num [WINDOW_HEIGHT]
    refine ⟨rfl, rfl, rfl, fun k => by simp at k, fun _ => rfl, fun _ k1 k2 => core k1 k2,
      fun _ fy hlt => ?_⟩
    have hB : (BALL_HEIGHT : ℚ) = 15 := by norm_num [BALL_HEIGHT]
    have hW : (WINDOW_HEIGHT : ℚ) = 500 := by norm_num [WINDOW_HEIGHT]
    have h5 : (500 : ℚ) < ball.position.y + 15 := by
      have := lt_of_lt_fadd ball.position.y 15 500 (roundF32_ofNat 500 (by norm_num))
        (by rw [hB, hW] at h4; exact h4)
      exact this
    rw [hB] at hlt
    obtain ⟨e1, e2⟩ := ballBottom_exact ball.position.y fy h5 hlt
    exact core (by rw [hB]; exact e1) (by rw [hB, hW, e2, e1])

/-- Witness for C10 (amended): the ball at `(100, -3)` gets a `Top` contact
and the ball at `(100, 490)` a `Bottom` contact with exact sums; both are
flush and clear after the bounce, and so is the ball at `(100, 496)`. -/
theorem collideWithWall_bounce_witness :
    (Ball.CollideWithWall ⟨⟨100, -3⟩, ⟨1/2, -3/8⟩⟩
        (CheckWallCollision ⟨⟨100, -3⟩, ⟨1/2, -3/8⟩⟩)).position.y = 0
    ∧ (Ball.CollideWithWall ⟨⟨100, 490⟩, ⟨1/2, 3/8⟩⟩
        (CheckWallCollision ⟨⟨100, 490⟩, ⟨1/2, 3/8⟩⟩)).position.y = 485
    ∧ CheckWallCollision (Ball.CollideWithWall ⟨⟨100, 490⟩, ⟨1/2, 3/8⟩⟩
        (CheckWallCollision ⟨⟨100, 490⟩, ⟨1/2, 3/8⟩⟩)) = ⟨CollisionType.None, 0⟩
    ∧ CheckWallCollision (Ball.CollideWithWall ⟨⟨100, 496⟩, ⟨1/2, 3/8⟩⟩
        (CheckWallCollision ⟨⟨100, 496⟩, ⟨1/2, 3/8⟩⟩)) = ⟨CollisionType.None, 0⟩ :=
  have er : fadd (100 : ℚ) (BALL_WIDTH : ℚ) = 115 := by
    norm_num [fadd, BALL_WIDTH, roundF32_ofNat 115 (by norm_num)]
  have eb : fadd (490 : ℚ) (BALL_HEIGHT : ℚ) = 505 := by
    norm_num [fadd, BALL_HEIGHT, roundF32_ofNat 505 (by norm_num)]
  have hT : (CheckWallCollision ⟨⟨100, -3⟩, ⟨1/2, -3/8⟩⟩).type = CollisionType.Top := by
    simp only [CheckWallCollision, er]
    norm_num [WINDOW_WIDTH]
  have hB : (CheckWallCollision ⟨⟨100, 490⟩, ⟨1/2, 3/8⟩⟩).type = CollisionType.Bottom := by
    simp only [CheckWallCollision, er, eb]
    norm_num [WINDOW_WIDTH, WINDOW_HEIGHT]
  have eb6 : fadd (496 : ℚ) (BALL_HEIGHT : ℚ) = 511 := by
    norm_num [fadd, BALL_HEIGHT, roundF32_ofNat 511 (by norm_num)]
  have hB6 : (CheckWallCollision ⟨⟨100, 496⟩, ⟨1/2, 3/8⟩⟩).type = CollisionType.Bottom := by
    simp only [CheckWallCollision, er, eb6]
    norm_num [WINDOW_WIDTH, WINDOW_HEIGHT]
  have k1 : fadd (490 : ℚ) (BALL_HEIGHT : ℚ) = 490 + (BALL_HEIGHT : ℚ) := by
    rw [eb]; norm_num [BALL_HEIGHT]
  have k2 : fsub (WINDOW_HEIGHT : ℚ) (fadd (490 : ℚ) (BALL_HEIGHT : ℚ))
      = (WINDOW_HEIGHT : ℚ) - fadd (490 : ℚ) (BALL_HEIGHT : ℚ) := by
    rw [eb]
    norm_num [fsub, WINDOW_HEIGHT, roundF32_neg, roundF32_ofNat 5 (by norm_num)]
  ⟨((collideWithWall_bounce ⟨⟨100, -3⟩, ⟨1/2, -3/8⟩⟩ (Or.inl hT)).2.2.2.1 hT).1,
   ((collideWithWall_bounce ⟨⟨100, 490⟩, ⟨1/2, 3/8⟩⟩ (Or.inr hB)).2.2.2.2.2.1 hB k1 k2).1,
   ((collideWithWall_bounce ⟨⟨100, 490⟩, ⟨1/2, 3/8⟩⟩ (Or.inr hB)).2.2.2.2.2.1 hB k1 k2).2.2,
   ((collideWithWall_bounce ⟨⟨100, 496⟩, ⟨1/2, 3/8⟩⟩ (Or.inr hB6)).2.2.2.2.2.2 hB6
      (roundF32_ofNat 496 (by norm_num)) (by norm_num [BALL_HEIGHT])).2.2⟩

/-! ## Further claims about `Paddle::Update` -/

/-- C11: for every paddle state and `dt`, `Paddle::Update(dt)` sets
`position.y` to `min(max(y + vy*dt, 0), 380)` and `position.x` to
`x + vx*dt`, the products and sums being `float` operations, and leaves the
velocity unchanged; the paddle at `y = 190` with `velocity.y = -0.8` and
`dt = 50` ends at `y = max(0, 190 - 40) = 150`. -/
theorem paddle_update_value (p : Paddle) (dt x vx : ℚ) :
    (p.Update dt).position.y
        = min (max (fadd p.position.y (fmul p.velocity.y dt)) 0) 380
    ∧ (p.Update dt).position.x = fadd p.position.x (fmul p.velocity.x dt)
    ∧ (p.Update dt).velocity = p.velocity
    ∧ (Paddle.Update ⟨⟨x, 190⟩, ⟨vx, -0.8⟩⟩ 50).position.y = max 0 (190 - 40)
    ∧ (Paddle.Update ⟨⟨x, 190⟩, ⟨vx, -0.8⟩⟩ 50).position.y = 150 := by
  have hc : (((WINDOW_HEIGHT - PADDLE_HEIGHT : ℤ)) : ℚ) = 380 := by
    norm_num [WINDOW_HEIGHT, PADDLE_HEIGHT]
  have ev : fadd (190 : ℚ) (fmul (-0.8) 50) = 150 := by
    norm_num [fadd, fmul, roundF32_neg, roundF32_ofNat 40 (by norm_num),
      roundF32_ofNat 150 (by norm_num)]
  refine ⟨?_, paddle_update_x p dt, paddle_update_velocity p dt, ?_, ?_⟩
  · rw [paddle_update_y, hc]
    split_ifs with h1 h2
    · rw [max_eq_right (le_of_lt h1), min_eq_left (by norm_num)]
    · rw [max_eq_left (not_lt.mp h1), min_eq_right (le_of_lt h2)]
    · rw [max_eq_left (not_lt.mp h1), min_eq_left (not_lt.mp h2)]
  · rw [paddle_update_y, hc]
    simp only [ev]
    norm_num
  · rw [paddle_update_y, hc]
    simp only [ev]
    norm_num

/-! ## Claims about the frame step -/

/-- C12: in one frame step, with the checks taken on the advanced bodies:
when neither paddle check yields a contact and the wall check yields `Left`,
player two's score grows by one and player one's is unchanged; when it yields
`Right`, player one's grows by one and player two's is unchanged; in every
other case both are unchanged. Over any list of frames the scores never
decrease, the sum grows by at most one per frame, and from the initial `0`
they stay `>= 0` and at most the number of frames played (so the `int`
counters of the source do not overflow in fewer than `2^31` frames). -/
theorem frameStep_scoring (buttons : Buttons → Bool) (dt : ℚ) (s : LoopState)
    (frames : List ((Buttons → Bool) × ℚ)) :
    ((CheckPaddleCollision (updatePositions dt (updatePaddleVelocity buttons s)).ball
          (updatePositions dt (updatePaddleVelocity buttons s)).paddleOne).type
        = CollisionType.None →
      (CheckPaddleCollision (updatePositions dt (updatePaddleVelocity buttons s)).ball
          (updatePositions dt (updatePaddleVelocity buttons s)).paddleTwo).type
        = CollisionType.None →
      (CheckWallCollision (updatePositions dt (updatePaddleVelocity buttons s)).ball).type
        = CollisionType.Left →
      (frameStep buttons dt s).1.playerTwoScore = s.playerTwoScore + 1
      ∧ (frameStep buttons dt s).1.playerOneScore = s.playerOneScore)
    ∧ ((CheckPaddleCollision (updatePositions dt (updatePaddleVelocity buttons s)).ball
          (updatePositions dt (updatePaddleVelocity buttons s)).paddleOne).type
        = CollisionType.None →
      (CheckPaddleCollision (updatePositions dt (updatePaddleVelocity buttons s)).ball
          (updatePositions dt (updatePaddleVelocity buttons s)).paddleTwo).type
        = CollisionType.None →
      (CheckWallCollision (updatePositions dt (updatePaddleVelocity buttons s)).ball).type
        = CollisionType.Right →
      (frameStep buttons dt s).1.playerOneScore = s.playerOneScore + 1
      ∧ (frameStep buttons dt s).1.playerTwoScore = s.playerTwoScore)
    ∧ (¬ ((CheckPaddleCollision (updatePositions dt (updatePaddleVelocity buttons s)).ball
            (updatePositions dt (updatePaddleVelocity buttons s)).paddleOne).type
          = CollisionType.None
        ∧ (CheckPaddleCollision (updatePositions dt (updatePaddleVelocity buttons s)).ball
            (updatePositions dt (updatePaddleVelocity buttons s)).paddleTwo).type
          = CollisionType.None
        ∧ ((CheckWallCollision (updatePositions dt (updatePaddleVelocity buttons s)).ball).type
            = CollisionType.Left
          ∨ (CheckWallCollision (updatePositions dt (updatePaddleVelocity buttons s)).ball).type
            = CollisionType.Right)) →
      (frameStep buttons dt s).1.playerOneScore = s.playerOneScore
      ∧ (frameStep buttons dt s).1.playerTwoScore = s.playerTwoScore)
    ∧ (s.playerOneScore ≤ (runFrames frames s).playerOneScore
      ∧ s.playerTwoScore ≤ (runFrames frames s).playerTwoScore
      ∧ (runFrames frames s).playerOneScore + (runFrames frames s).playerTwoScore
          ≤ s.playerOneScore + s.playerTwoScore + frames.length)
    ∧ (frameStep buttons dt s).1.playerOneScore + (frameStep buttons dt s).1.playerTwoScore
        ≤ s.playerOneScore + s.playerTwoScore + 1
    ∧ (initialState.playerOneScore = 0 ∧ initialState.playerTwoScore = 0
      ∧ 0 ≤ (runFrames frames initialState).playerOneScore
      ∧ 0 ≤ (runFrames frames initialState).playerTwoScore
      ∧ (runFrames frames initialState).playerOneScore ≤ frames.length
      ∧ (runFrames frames initialState).playerTwoScore ≤ frames.length) := by
  obtain ⟨e1, e2⟩ := frameStep_scores buttons dt s
  have z1 : initialState.playerOneScore = 0 := rfl
  have z2 : initialState.playerTwoScore = 0 := rfl
  obtain ⟨m1, m2, m3⟩ := runFrames_scores_mono frames initialState
  rw [z1] at m1 m3
  rw [z2] at m2 m3
  refine ⟨?_, ?_, ?_, runFrames_scores_mono frames s,
    (frameStep_scores_mono buttons dt s).2.2, rfl, rfl, m1, m2, by linarith, by linarith⟩
  · intro h1 h2 h3
    have h3r : ¬ (CheckWallCollision
        (updatePositions dt (updatePaddleVelocity buttons s)).ball).type
          = CollisionType.Right := by
      rw [h3]; decide
    rw [e1, e2, if_pos ⟨h1, h2, h3⟩, if_neg (fun k => h3r k.2.2)]
    exact ⟨rfl, add_zero _⟩
  · intro h1 h2 h3
    have h3l : ¬ (CheckWallCollision
        (updatePositions dt (updatePaddleVelocity buttons s)).ball).type
          = CollisionType.Left := by
      rw [h3]; decide
    rw [e1, e2, if_pos ⟨h1, h2, h3⟩, if_neg (fun k => h3l k.2.2)]
    exact ⟨rfl, add_zero _⟩
  · intro h
    rw [e1, e2, if_neg (fun k => h ⟨k.1, k.2.1, Or.inr k.2.2⟩),
      if_neg (fun k => h ⟨k.1, k.2.1, Or.inl k.2.2⟩)]
    exact ⟨add_zero _, add_zero _⟩

/-- Witness for C12: from `leftExitState` a frame with `dt = 0` gives player
two the point, from `rightExitState` it gives player one the point. -/
theorem frameStep_scoring_witness :
    ((frameStep noButtons 0 leftExitState).1.playerTwoScore = leftExitState.playerTwoScore + 1
      ∧ (frameStep noButtons 0 leftExitState).1.playerOneScore = leftExitState.playerOneScore)
    ∧ ((frameStep noButtons 0 rightExitState).1.playerOneScore
          = rightExitState.playerOneScore + 1
      ∧ (frameStep noButtons 0 rightExitState).1.playerTwoScore
          = rightExitState.playerTwoScore) :=
  ⟨(frameStep_scoring noButtons 0 leftExitState []).1
      (by rw [checkPaddle_of_disjoint _ _ (Or.inr (Or.inl (by
            norm_num [updatePositions, updatePaddleVelocity, noButtons, leftExitState,
              initialState, Ball.Update, Vec2.addAssign, Vec2.mul, paddle_update_x,
              BALL_WIDTH,
      fadd, fsub, fmul, roundF32_zero, roundF32_one, roundF32_neg, roundF32_ofNat])))]
          rfl)
      (by rw [checkPaddle_of_disjoint _ _ (Or.inr (Or.inl (by
            norm_num [updatePositions, updatePaddleVelocity, noButtons, leftExitState,
              initialState, Ball.Update, Vec2.addAssign, Vec2.mul, paddle_update_x,
              BALL_WIDTH, WINDOW_WIDTH,
      fadd, fsub, fmul, roundF32_zero, roundF32_one, roundF32_neg, roundF32_ofNat])))]
          rfl)
      (by norm_num [CheckWallCollision, Contact.init, updatePositions, updatePaddleVelocity,
            noButtons, leftExitState, initialState, Ball.Update, Vec2.addAssign, Vec2.mul,
      fadd, fsub, fmul, roundF32_zero, roundF32_one, roundF32_neg, roundF32_ofNat]),
   (frameStep_scoring noButtons 0 rightExitState []).2.1
      (by rw [checkPaddle_of_disjoint _ _ (Or.inl (by
            norm_num [updatePositions, updatePaddleVelocity, noButtons, rightExitState,
              initialState, Ball.Update, Vec2.addAssign, Vec2.mul, paddle_update_x,
              PADDLE_WIDTH,
      fadd, fsub, fmul, roundF32_zero, roundF32_one, roundF32_neg, roundF32_ofNat]))]
          rfl)
      (by rw [checkPaddle_of_disjoint _ _ (Or.inl (by
            norm_num [updatePositions, updatePaddleVelocity, noButtons, rightExitState,
              initialState, Ball.Update, Vec2.addAssign, Vec2.mul, paddle_update_x,
              PADDLE_WIDTH, WINDOW_WIDTH,
      fadd, fsub, fmul, roundF32_zero, roundF32_one, roundF32_neg, roundF32_ofNat]))]
          rfl)
      (by norm_num [CheckWallCollision, Contact.init, updatePositions, updatePaddleVelocity,
            noButtons, rightExitState, initialState, Ball.Update, Vec2.addAssign, Vec2.mul,
            BALL_WIDTH, WINDOW_WIDTH,
      fadd, fsub, fmul, roundF32_zero, roundF32_one, roundF32_neg, roundF32_ofNat])⟩

/-- Counterexample for C13: with both buttons of a paddle held the velocity
assigned in the frame step is `-PADDLE_SPEED = -0.8`, not `0`. -/
theorem frameStep_both_buttons_counterexample :
    (allButtons Buttons.PaddleOneUp = true ∧ allButtons Buttons.PaddleOneDown = true)
    ∧ (frameStep allButtons 0 initialState).1.paddleOne.velocity.y = -PADDLE_SPEED
    ∧ (frameStep allButtons 0 initialState).1.paddleOne.velocity.y ≠ 0 := by
  rw [(frameStep_velocity_y_eq allButtons 0 initialState).1]
  norm_num [allButtons, PADDLE_SPEED]

/-- C13 (amended): for each paddle and every combination of its up/down button
states, the `velocity.y` assigned in the frame step is `-PADDLE_SPEED` when up
is pressed and down is not, `+PADDLE_SPEED` when down is pressed and up is
not, `0` when neither button is pressed, and `-PADDLE_SPEED` when both are
pressed. -/
theorem frameStep_paddle_velocity (buttons : Buttons → Bool) (dt : ℚ) (s : LoopState) :
    ((buttons Buttons.PaddleOneUp = true → buttons Buttons.PaddleOneDown = false →
        (frameStep buttons dt s).1.paddleOne.velocity.y = -PADDLE_SPEED)
      ∧ (buttons Buttons.PaddleOneDown = true → buttons Buttons.PaddleOneUp = false →
        (frameStep buttons dt s).1.paddleOne.velocity.y = PADDLE_SPEED)
      ∧ (buttons Buttons.PaddleOneUp = false → buttons Buttons.PaddleOneDown = false →
        (frameStep buttons dt s).1.paddleOne.velocity.y = 0)
      ∧ (buttons Buttons.PaddleOneUp = true → buttons Buttons.PaddleOneDown = true →
        (frameStep buttons dt s).1.paddleOne.velocity.y = -PADDLE_SPEED))
    ∧ ((buttons Buttons.PaddleTwoUp = true → buttons Buttons.PaddleTwoDown = false →
        (frameStep buttons dt s).1.paddleTwo.velocity.y = -PADDLE_SPEED)
      ∧ (buttons Buttons.PaddleTwoDown = true → buttons Buttons.PaddleTwoUp = false →
        (frameStep buttons dt s).1.paddleTwo.velocity.y = PADDLE_SPEED)
      ∧ (buttons Buttons.PaddleTwoUp = false → buttons Buttons.PaddleTwoDown = false →
        (frameStep buttons dt s).1.paddleTwo.velocity.y = 0)
      ∧ (buttons Buttons.PaddleTwoUp = true → buttons Buttons.PaddleTwoDown = true →
        (frameStep buttons dt s).1.paddleTwo.velocity.y = -PADDLE_SPEED)) := by
  obtain ⟨e1, e2⟩ := frameStep_velocity_y_eq buttons dt s
  rw [e1, e2]
  refine ⟨⟨?_, ?_, ?_, ?_⟩, ⟨?_, ?_, ?_, ?_⟩⟩ <;> intro ha hb <;> simp [ha, hb]

/-- Witness for C13 (amended): from the initial locals, no button held gives
`0` and every button held gives `-PADDLE_SPEED`, for both paddles. -/
theorem frameStep_paddle_velocity_witness :
    ((frameStep noButtons 0 initialState).1.paddleOne.velocity.y = 0
      ∧ (frameStep noButtons 0 initialState).1.paddleTwo.velocity.y = 0)
    ∧ ((frameStep allButtons 0 initialState).1.paddleOne.velocity.y = -PADDLE_SPEED
      ∧ (frameStep allButtons 0 initialState).1.paddleTwo.velocity.y = -PADDLE_SPEED) :=
  ⟨⟨(frameStep_paddle_velocity noButtons 0 initialState).1.2.2.1 rfl rfl,
    (frameStep_paddle_velocity noButtons 0 initialState).2.2.2.1 rfl rfl⟩,
   ⟨(frameStep_paddle_velocity allButtons 0 initialState).1.2.2.2 rfl rfl,
    (frameStep_paddle_velocity allButtons 0 initialState).2.2.2.2 rfl rfl⟩⟩

/-- C14: up takes priority over down. For each paddle, whenever its up button
is held the `velocity.y` assigned in the frame step is
`-PADDLE_SPEED = -0.8`, whatever its down button; `+PADDLE_SPEED` is assigned
only when down is held and up is not, and `0` only when neither is held. The
velocity of a paddle is the same for any two button states that agree on that
paddle's own two buttons. -/
theorem frameStep_up_priority (buttons other : Buttons → Bool) (dt : ℚ) (s : LoopState) :
    ((buttons Buttons.PaddleOneUp = true →
        (frameStep buttons dt s).1.paddleOne.velocity.y = -PADDLE_SPEED
        ∧ (frameStep buttons dt s).1.paddleOne.velocity.y = -0.8)
      ∧ ((frameStep buttons dt s).1.paddleOne.velocity.y = PADDLE_SPEED →
        buttons Buttons.PaddleOneDown = true ∧ buttons Buttons.PaddleOneUp = false)
      ∧ ((frameStep buttons dt s).1.paddleOne.velocity.y = 0 →
        buttons Buttons.PaddleOneUp = false ∧ buttons Buttons.PaddleOneDown = false))
    ∧ ((buttons Buttons.PaddleTwoUp = true →
        (frameStep buttons dt s).1.paddleTwo.velocity.y = -PADDLE_SPEED
        ∧ (frameStep buttons dt s).1.paddleTwo.velocity.y = -0.8)
      ∧ ((frameStep buttons dt s).1.paddleTwo.velocity.y = PADDLE_SPEED →
        buttons Buttons.PaddleTwoDown = true ∧ buttons Buttons.PaddleTwoUp = false)
      ∧ ((frameStep buttons dt s).1.paddleTwo.velocity.y = 0 →
        buttons Buttons.PaddleTwoUp = false ∧ buttons Buttons.PaddleTwoDown = false))
    ∧ (buttons Buttons.PaddleOneUp = other Buttons.PaddleOneUp →
        buttons Buttons.PaddleOneDown = other Buttons.PaddleOneDown →
        (frameStep buttons dt s).1.paddleOne.velocity.y
          = (frameStep other dt s).1.paddleOne.velocity.y)
    ∧ (buttons Buttons.PaddleTwoUp = other Buttons.PaddleTwoUp →
        buttons Buttons.PaddleTwoDown = other Buttons.PaddleTwoDown →
        (frameStep buttons dt s).1.paddleTwo.velocity.y
          = (frameStep other dt s).1.paddleTwo.velocity.y) := by
  obtain ⟨e1, e2⟩ := frameStep_velocity_y_eq buttons dt s
  obtain ⟨o1, o2⟩ := frameStep_velocity_y_eq other dt s
  rw [e1, e2, o1, o2]
  refine ⟨⟨?_, ?_, ?_⟩, ⟨?_, ?_, ?_⟩, ?_, ?_⟩
  · intro h; norm_num [h, PADDLE_SPEED]
  · cases buttons Buttons.PaddleOneUp <;> cases buttons Buttons.PaddleOneDown <;>
      norm_num [PADDLE_SPEED]
  · cases buttons Buttons.PaddleOneUp <;> cases buttons Buttons.PaddleOneDown <;>
      norm_num [PADDLE_SPEED]
  · intro h; norm_num [h, PADDLE_SPEED]
  · cases buttons Buttons.PaddleTwoUp <;> cases buttons Buttons.PaddleTwoDown <;>
      norm_num [PADDLE_SPEED]
  · cases buttons Buttons.PaddleTwoUp <;> cases buttons Buttons.PaddleTwoDown <;>
      norm_num [PADDLE_SPEED]
  · intro ha hb; rw [ha, hb]
  · intro ha hb; rw [ha, hb]

/-- Witness for C14: with every button held both paddles move up, and the
velocity of paddle one is the same when only its own two buttons are held. -/
theorem frameStep_up_priority_witness :
    ((frameStep allButtons 0 initialState).1.paddleOne.velocity.y = -PADDLE_SPEED
      ∧ (frameStep allButtons 0 initialState).1.paddleOne.velocity.y = -0.8)
    ∧ (frameStep allButtons 0 initialState).1.paddleOne.velocity.y
        = (frameStep (fun b => decide (b = Buttons.PaddleOneUp ∨ b = Buttons.PaddleOneDown))
            0 initialState).1.paddleOne.velocity.y :=
  ⟨(frameStep_up_priority allButtons allButtons 0 initialState).1.1 rfl,
   (frameStep_up_priority allButtons
      (fun b => decide (b = Buttons.PaddleOneUp ∨ b = Buttons.PaddleOneDown))
      0 initialState).2.2.1 (by decide) (by decide)⟩

/-- Counterexample for C15: from `leftExitState` a frame with `dt = 0` finds
the wall contact `Left` and gives player two the point, and the re-served
ball's `velocity.x` is `+0.5`, not negative: it points away from player one's
paddle at `x = 50`. -/
theorem frameStep_serve_counterexample :
    (CheckWallCollision
        (updatePositions 0 (updatePaddleVelocity noButtons leftExitState)).ball).type
      = CollisionType.Left
    ∧ (frameStep noButtons 0 leftExitState).1.playerTwoScore
        = leftExitState.playerTwoScore + 1
    ∧ (frameStep noButtons 0 leftExitState).1.ball.velocity.x = 1 / 2
    ∧ ¬ (frameStep noButtons 0 leftExitState).1.ball.velocity.x < 0
    ∧ (frameStep noButtons 0 leftExitState).1.paddleOne.position.x = 50 := by
  have h1 : (CheckPaddleCollision
      (updatePositions 0 (updatePaddleVelocity noButtons leftExitState)).ball
      (updatePositions 0 (updatePaddleVelocity noButtons leftExitState)).paddleOne).type
        = CollisionType.None := by
    rw [checkPaddle_of_disjoint _ _ (Or.inr (Or.inl (by
      norm_num [updatePositions, updatePaddleVelocity, noButtons, leftExitState,
        initialState, Ball.Update, Vec2.addAssign, Vec2.mul, paddle_update_x, BALL_WIDTH,
      fadd, fsub, fmul, roundF32_zero, roundF32_one, roundF32_neg, roundF32_ofNat])))]
    rfl
  have h2 : (CheckPaddleCollision
      (updatePositions 0 (updatePaddleVelocity noButtons leftExitState)).ball
      (updatePositions 0 (updatePaddleVelocity noButtons leftExitState)).paddleTwo).type
        = CollisionType.None := by
    rw [checkPaddle_of_disjoint _ _ (Or.inr (Or.inl (by
      norm_num [updatePositions, updatePaddleVelocity, noButtons, leftExitState,
        initialState, Ball.Update, Vec2.addAssign, Vec2.mul, paddle_update_x, BALL_WIDTH,
        WINDOW_WIDTH,
      fadd, fsub, fmul, roundF32_zero, roundF32_one, roundF32_neg, roundF32_ofNat])))]
    rfl
  have h3 : (CheckWallCollision
      (updatePositions 0 (updatePaddleVelocity noButtons leftExitState)).ball).type
        = CollisionType.Left := by
    norm_num [CheckWallCollision, Contact.init, updatePositions, updatePaddleVelocity,
      noButtons, leftExitState, initialState, Ball.Update, Vec2.addAssign, Vec2.mul,
      fadd, fsub, fmul, roundF32_zero, roundF32_one, roundF32_neg, roundF32_ofNat]
  have e : frameStep noButtons 0 leftExitState
      = checkCollisions (updatePositions 0 (updatePaddleVelocity noButtons leftExitState)) :=
    rfl
  rw [e, checkCollisions_wall_left _ h1 h2 h3, collideWithWall_of_left _ _ h3]
  refine ⟨h3, rfl, ?_, ?_, ?_⟩
  · norm_num [BALL_SPEED]
  · norm_num [BALL_SPEED]
  · norm_num [updatePositions, updatePaddleVelocity, noButtons, leftExitState, initialState,
      paddle_update_x,
      fadd, fsub, fmul, roundF32_zero, roundF32_one, roundF32_neg, roundF32_ofNat]

/-- C15 (amended): in every frame step in which the wall check yields `Left`
or `Right`, the re-served ball's horizontal velocity is directed toward the
player who just scored: after a left exit (player two's score is incremented)
the new `velocity.x` is `+BALL_SPEED > 0`, pointing from the re-serve position
`x = 400` toward player two's paddle at `x = 750`; after a right exit (player
one's score is incremented) it is `-BALL_SPEED < 0`, pointing toward player
one's paddle at `x = 50`. -/
theorem frameStep_serve_direction (buttons : Buttons → Bool) (dt : ℚ) (s : LoopState)
    (h1 : (CheckPaddleCollision (updatePositions dt (updatePaddleVelocity buttons s)).ball
          (updatePositions dt (updatePaddleVelocity buttons s)).paddleOne).type
        = CollisionType.None)
    (h2 : (CheckPaddleCollision (updatePositions dt (updatePaddleVelocity buttons s)).ball
          (updatePositions dt (updatePaddleVelocity buttons s)).paddleTwo).type
        = CollisionType.None) :
    ((CheckWallCollision (updatePositions dt (updatePaddleVelocity buttons s)).ball).type
        = CollisionType.Left →
      (frameStep buttons dt s).1.playerTwoScore = s.playerTwoScore + 1
      ∧ (frameStep buttons dt s).1.ball.velocity.x = BALL_SPEED
      ∧ 0 < (frameStep buttons dt s).1.ball.velocity.x
      ∧ (frameStep buttons dt s).1.ball.position.x = 400
      ∧ (frameStep buttons dt s).1.ball.position.x < 750)
    ∧ ((CheckWallCollision (updatePositions dt (updatePaddleVelocity buttons s)).ball).type
        = CollisionType.Right →
      (frameStep buttons dt s).1.playerOneScore = s.playerOneScore + 1
      ∧ (frameStep buttons dt s).1.ball.velocity.x = -BALL_SPEED
      ∧ (frameStep buttons dt s).1.ball.velocity.x < 0
      ∧ (frameStep buttons dt s).1.ball.position.x = 400
      ∧ 50 < (frameStep buttons dt s).1.ball.position.x) := by
  have e : frameStep buttons dt s
      = checkCollisions (updatePositions dt (updatePaddleVelocity buttons s)) := rfl
  constructor
  · intro h3
    rw [e, checkCollisions_wall_left _ h1 h2 h3, collideWithWall_of_left _ _ h3]
    refine ⟨rfl, rfl, ?_, ?_, ?_⟩ <;> norm_num [BALL_SPEED, WINDOW_WIDTH]
  · intro h3
    rw [e, checkCollisions_wall_right _ h1 h2 h3, collideWithWall_of_right _ _ h3]
    refine ⟨rfl, rfl, ?_, ?_, ?_⟩ <;> norm_num [BALL_SPEED, WINDOW_WIDTH]

/-- Witness for C15 (amended): from `rightExitState` a frame with `dt = 0`
gives player one the point and serves with `velocity.x = -BALL_SPEED`. -/
theorem frameStep_serve_direction_witness :
    (frameStep noButtons 0 rightExitState).1.playerOneScore
        = rightExitState.playerOneScore + 1
    ∧ (frameStep noButtons 0 rightExitState).1.ball.velocity.x = -BALL_SPEED
    ∧ (frameStep noButtons 0 rightExitState).1.ball.velocity.x < 0
    ∧ (frameStep noButtons 0 rightExitState).1.ball.position.x = 400
    ∧ 50 < (frameStep noButtons 0 rightExitState).1.ball.position.x :=
  (frameStep_serve_direction noButtons 0 rightExitState
      (by rw [checkPaddle_of_disjoint _ _ (Or.inl (by
            norm_num [updatePositions, updatePaddleVelocity, noButtons, rightExitState,
              initialState, Ball.Update, Vec2.addAssign, Vec2.mul, paddle_update_x,
              PADDLE_WIDTH,
      fadd, fsub, fmul, roundF32_zero, roundF32_one, roundF32_neg, roundF32_ofNat]))]
          rfl)
      (by rw [checkPaddle_of_disjoint _ _ (Or.inl (by
            norm_num [updatePositions, updatePaddleVelocity, noButtons, rightExitState,
              initialState, Ball.Update, Vec2.addAssign, Vec2.mul, paddle_update_x,
              PADDLE_WIDTH, WINDOW_WIDTH,
      fadd, fsub, fmul, roundF32_zero, roundF32_one, roundF32_neg, roundF32_ofNat]))]
          rfl)).2
    (by norm_num [CheckWallCollision, Contact.init, updatePositions, updatePaddleVelocity,
          noButtons, rightExitState, initialState, Ball.Update, Vec2.addAssign, Vec2.mul,
          BALL_WIDTH, WINDOW_WIDTH,
      fadd, fsub, fmul, roundF32_zero, roundF32_one, roundF32_neg, roundF32_ofNat])

/-- C16: the frame step applies the collision block to the advanced bodies,
and in that block: if the paddle-one check is not `None` the ball is resolved
with exactly that contact by `Ball::CollideWithPaddle` and nothing else
changes (paddles and both scores are kept, `position.y` is not corrected);
otherwise, if the paddle-two check is not `None`, the same holds with that
contact; and when both paddle checks are `None` the ball is the one
`Ball::CollideWithWall` gives for the `CheckWallCollision` result. -/
theorem checkCollisions_priority (buttons : Buttons → Bool) (dt : ℚ) (s : LoopState) :
    frameStep buttons dt s
      = checkCollisions (updatePositions dt (updatePaddleVelocity buttons s))
    ∧ ((CheckPaddleCollision s.ball s.paddleOne).type ≠ CollisionType.None →
        (checkCollisions s).1
            = { s with ball :=
                  (s.ball.CollideWithPaddle (CheckPaddleCollision s.ball s.paddleOne)) }
        ∧ (checkCollisions s).1.playerOneScore = s.playerOneScore
        ∧ (checkCollisions s).1.playerTwoScore = s.playerTwoScore
        ∧ (checkCollisions s).1.ball.position.y = s.ball.position.y)
    ∧ ((CheckPaddleCollision s.ball s.paddleOne).type = CollisionType.None →
        (CheckPaddleCollision s.ball s.paddleTwo).type ≠ CollisionType.None →
        (checkCollisions s).1
            = { s with ball :=
                  (s.ball.CollideWithPaddle (CheckPaddleCollision s.ball s.paddleTwo)) }
        ∧ (checkCollisions s).1.playerOneScore = s.playerOneScore
        ∧ (checkCollisions s).1.playerTwoScore = s.playerTwoScore
        ∧ (checkCollisions s).1.ball.position.y = s.ball.position.y)
    ∧ ((CheckPaddleCollision s.ball s.paddleOne).type = CollisionType.None →
        (CheckPaddleCollision s.ball s.paddleTwo).type = CollisionType.None →
        (checkCollisions s).1.ball = s.ball.CollideWithWall (CheckWallCollision s.ball)
        ∧ (checkCollisions s).1.paddleOne = s.paddleOne
        ∧ (checkCollisions s).1.paddleTwo = s.paddleTwo) := by
  refine ⟨rfl, ?_, ?_, ?_⟩
  · intro h
    rw [checkCollisions_paddleOne s h]
    refine ⟨rfl, rfl, rfl, ?_⟩
    simp only [collideWithPaddle_eq]
  · intro h1 h2
    rw [checkCollisions_paddleTwo s h1 h2]
    refine ⟨rfl, rfl, rfl, ?_⟩
    simp only [collideWithPaddle_eq]
  · intro h1 h2
    exact ⟨checkCollisions_wall_ball s h1 h2, checkCollisions_paddles s⟩

/-- Witness for C16: in `paddleAtTopState` the ball overlaps paddle one and is
beyond the top wall; the block resolves the paddle hit only: the ball keeps
`position.y = -3` and no score changes. -/
theorem checkCollisions_priority_witness :
    (CheckPaddleCollision paddleAtTopState.ball paddleAtTopState.paddleOne).type
      ≠ CollisionType.None
    ∧ (CheckWallCollision paddleAtTopState.ball).type = CollisionType.Top
    ∧ (checkCollisions paddleAtTopState).1.ball.position.y = -3
    ∧ (checkCollisions paddleAtTopState).1.playerOneScore = 0
    ∧ (checkCollisions paddleAtTopState).1.playerTwoScore = 0 :=
  have h : (CheckPaddleCollision paddleAtTopState.ball paddleAtTopState.paddleOne).type
      ≠ CollisionType.None := by
    have e : CheckPaddleCollision paddleAtTopState.ball paddleAtTopState.paddleOne
        = ⟨CollisionType.Top, 8⟩ := by
      norm_num [CheckPaddleCollision, Contact.init, paddleAtTopState, initialState,
        BALL_WIDTH, BALL_HEIGHT, PADDLE_WIDTH, PADDLE_HEIGHT,
      fadd, fsub, fmul, roundF32_zero, roundF32_one, roundF32_neg, roundF32_ofNat]
    rw [e]
    decide
  have w : (CheckWallCollision paddleAtTopState.ball).type = CollisionType.Top := by
    norm_num [CheckWallCollision, Contact.init, paddleAtTopState, initialState, BALL_WIDTH,
      WINDOW_WIDTH,
      fadd, fsub, fmul, roundF32_zero, roundF32_one, roundF32_neg, roundF32_ofNat]
  ⟨h, w,
   ((checkCollisions_priority noButtons 0 paddleAtTopState).2.1 h).2.2.2,
   ((checkCollisions_priority noButtons 0 paddleAtTopState).2.1 h).2.1,
   ((checkCollisions_priority noButtons 0 paddleAtTopState).2.1 h).2.2.1⟩

/-! ## Further claims about `CheckPaddleCollision` -/

/-- Counterexample for C17: the paddle at `(50, 8 + 2^-20)` and the leftward
ball at `(55, 128)`. With exact edges the boxes overlap, but `paddleBottom`
rounds to `128`, the third early return fires, and the penetration is `0`,
not `paddleRight - ballLeft = 5`. -/
theorem checkPaddleCollision_penetration_counterexample :
    ((55 : ℚ) < 50 + PADDLE_WIDTH ∧ (50 : ℚ) < 55 + BALL_WIDTH
      ∧ (128 : ℚ) < 8 + 1 / 2 ^ 20 + PADDLE_HEIGHT
      ∧ (8 : ℚ) + 1 / 2 ^ 20 < 128 + BALL_HEIGHT)
    ∧ (-1 / 2 : ℚ) < 0
    ∧ (CheckPaddleCollision ⟨⟨55, 128⟩, ⟨-1/2, 1/10⟩⟩
          ⟨⟨50, 8 + 1 / 2 ^ 20⟩, ⟨0, 0⟩⟩).penetration = 0
    ∧ (CheckPaddleCollision ⟨⟨55, 128⟩, ⟨-1/2, 1/10⟩⟩
          ⟨⟨50, 8 + 1 / 2 ^ 20⟩, ⟨0, 0⟩⟩).penetration ≠ 50 + PADDLE_WIDTH - 55
    ∧ ¬ 0 < (CheckPaddleCollision ⟨⟨55, 128⟩, ⟨-1/2, 1/10⟩⟩
          ⟨⟨50, 8 + 1 / 2 ^ 20⟩, ⟨0, 0⟩⟩).penetration := by
  have e : fadd (8 + 1 / 2 ^ 20) (PADDLE_HEIGHT : ℚ) = 128 := by
    unfold fadd
    rw [show (8 : ℚ) + 1 / 2 ^ 20 + (PADDLE_HEIGHT : ℚ) = 128 + 1 / 2 ^ 20 by
      norm_num [PADDLE_HEIGHT]]
    exact roundF32_example_128
  have d : (128 : ℚ) ≥ fadd (8 + 1 / 2 ^ 20) (PADDLE_HEIGHT : ℚ) := le_of_eq e
  rw [checkPaddle_of_disjoint ⟨⟨55, 128⟩, ⟨-1/2, 1/10⟩⟩ ⟨⟨50, 8 + 1 / 2 ^ 20⟩, ⟨0, 0⟩⟩
    (Or.inr (Or.inr (Or.inl d)))]
  refine ⟨by norm_num [PADDLE_WIDTH, BALL_WIDTH, PADDLE_HEIGHT, BALL_HEIGHT], by norm_num,
    rfl, ?_, ?_⟩
  · show (0 : ℚ) ≠ 50 + PADDLE_WIDTH - 55
    norm_num [PADDLE_WIDTH]
  · show ¬ (0 : ℚ) < 0
    norm_num

/-- C17 (amended): for every ball and paddle overlapping on the edges as
computed in binary32, whichever paddle it is, the contact's penetration is
the `float` difference `paddleRight - ballLeft` when `ball.velocity.x < 0`,
the `float` difference `paddleLeft - ballRight` when `ball.velocity.x > 0`,
and `0` when `ball.velocity.x = 0`; for binary32 positions it is strictly
positive in the first case and strictly negative in the second; in the
zero-velocity case the zone is still classified: the type is `Top`, `Middle`
or `Bottom`, the same as for any other velocity. -/
theorem checkPaddleCollision_penetration (ball : Ball) (paddle : Paddle)
    (hx1 : ball.position.x < fadd paddle.position.x PADDLE_WIDTH)
    (hx2 : paddle.position.x < fadd ball.position.x BALL_WIDTH)
    (hy1 : ball.position.y < fadd paddle.position.y PADDLE_HEIGHT)
    (hy2 : paddle.position.y < fadd ball.position.y BALL_HEIGHT) :
    (ball.velocity.x < 0 →
      (CheckPaddleCollision ball paddle).penetration
          = fsub (fadd paddle.position.x PADDLE_WIDTH) ball.position.x
      ∧ 0 ≤ (CheckPaddleCollision ball paddle).penetration
      ∧ (roundF32 ball.position.x = ball.position.x →
          0 < (CheckPaddleCollision ball paddle).penetration))
    ∧ (ball.velocity.x > 0 →
      (CheckPaddleCollision ball paddle).penetration
          = fsub paddle.position.x (fadd ball.position.x BALL_WIDTH)
      ∧ (CheckPaddleCollision ball paddle).penetration ≤ 0
      ∧ (roundF32 paddle.position.x = paddle.position.x →
          (CheckPaddleCollision ball paddle).penetration < 0))
    ∧ (ball.velocity.x = 0 →
      (CheckPaddleCollision ball paddle).penetration = 0
      ∧ ((CheckPaddleCollision ball paddle).type = CollisionType.Top
        ∨ (CheckPaddleCollision ball paddle).type = CollisionType.Middle
        ∨ (CheckPaddleCollision ball paddle).type = CollisionType.Bottom)
      ∧ ∀ v : Vec2, (CheckPaddleCollision { ball with velocity := v } paddle).type
          = (CheckPaddleCollision ball paddle).type) := by
  have p := checkPaddle_penetration_of_overlap ball paddle (not_le.mpr hx1) (not_le.mpr hx2)
    (not_le.mpr hy1) (not_le.mpr hy2)
  have eneg : fsub paddle.position.x (fadd ball.position.x BALL_WIDTH)
      = -roundF32 (fadd ball.position.x BALL_WIDTH - paddle.position.x) := by
    unfold fsub
    rw [← roundF32_neg]
    congr 1
    ring
  refine ⟨?_, ?_, ?_⟩
  · intro hv
    rw [p, if_pos hv]
    refine ⟨rfl, roundF32_nonneg (by linarith), fun fx => ?_⟩
    exact roundF32_sub_pos _ _ fx (roundF32_fadd _ _) hx1
  · intro hv
    rw [p, if_neg (not_lt.mpr (le_of_lt hv)), if_pos hv]
    refine ⟨rfl, roundF32_nonpos (by linarith), fun fp => ?_⟩
    have h := roundF32_sub_pos _ _ fp (roundF32_fadd ball.position.x BALL_WIDTH) hx2
    rw [eneg]
    linarith
  · intro hv
    refine ⟨?_, checkPaddle_type_ne_none_of_overlap ball paddle (not_le.mpr hx1)
      (not_le.mpr hx2) (not_le.mpr hy1) (not_le.mpr hy2), ?_⟩
    · rw [p, hv, if_neg (lt_irrefl 0), if_neg (lt_irrefl 0)]
    · intro v
      rw [checkPaddle_type_of_overlap ball paddle (not_le.mpr hx1) (not_le.mpr hx2)
          (not_le.mpr hy1) (not_le.mpr hy2),
        checkPaddle_type_of_overlap { ball with velocity := v } paddle (not_le.mpr hx1)
          (not_le.mpr hx2) (not_le.mpr hy1) (not_le.mpr hy2)]

/-- Witness for C17 (amended): the ball at `(52, 200)` overlapping the paddle
at `(50, 190)`, moving left, moving right and with `velocity.x = 0`. -/
theorem checkPaddleCollision_penetration_witness :
    ((CheckPaddleCollision ⟨⟨52, 200⟩, ⟨-1/2, 1/10⟩⟩ ⟨⟨50, 190⟩, ⟨0, 0⟩⟩).penetration
        = fsub (fadd 50 PADDLE_WIDTH) 52
      ∧ 0 < (CheckPaddleCollision ⟨⟨52, 200⟩, ⟨-1/2, 1/10⟩⟩ ⟨⟨50, 190⟩, ⟨0, 0⟩⟩).penetration)
    ∧ ((CheckPaddleCollision ⟨⟨52, 200⟩, ⟨1/2, 1/10⟩⟩ ⟨⟨50, 190⟩, ⟨0, 0⟩⟩).penetration
        = fsub 50 (fadd 52 BALL_WIDTH)
      ∧ (CheckPaddleCollision ⟨⟨52, 200⟩, ⟨1/2, 1/10⟩⟩ ⟨⟨50, 190⟩, ⟨0, 0⟩⟩).penetration < 0)
    ∧ (CheckPaddleCollision ⟨⟨52, 200⟩, ⟨0, 1/10⟩⟩ ⟨⟨50, 190⟩, ⟨0, 0⟩⟩).penetration = 0 :=
  have eR : fadd (50 : ℚ) (PADDLE_WIDTH : ℚ) = 60 := by
    norm_num [fadd, PADDLE_WIDTH, roundF32_ofNat 60 (by norm_num)]
  have eb : fadd (52 : ℚ) (BALL_WIDTH : ℚ) = 67 := by
    norm_num [fadd, BALL_WIDTH, roundF32_ofNat 67 (by norm_num)]
  have eB : fadd (190 : ℚ) (PADDLE_HEIGHT : ℚ) = 310 := by
    norm_num [fadd, PADDLE_HEIGHT, roundF32_ofNat 310 (by norm_num)]
  have ebb : fadd (200 : ℚ) (BALL_HEIGHT : ℚ) = 215 := by
    norm_num [fadd, BALL_HEIGHT, roundF32_ofNat 215 (by norm_num)]
  have o1 : (52 : ℚ) < fadd (50 : ℚ) (PADDLE_WIDTH : ℚ) := by rw [eR]; norm_num
  have o2 : (50 : ℚ) < fadd (52 : ℚ) (BALL_WIDTH : ℚ) := by rw [eb]; norm_num
  have o3 : (200 : ℚ) < fadd (190 : ℚ) (PADDLE_HEIGHT : ℚ) := by rw [eB]; norm_num
  have o4 : (190 : ℚ) < fadd (200 : ℚ) (BALL_HEIGHT : ℚ) := by rw [ebb]; norm_num
  ⟨⟨((checkPaddleCollision_penetration ⟨⟨52, 200⟩, ⟨-1/2, 1/10⟩⟩ ⟨⟨50, 190⟩, ⟨0, 0⟩⟩
        o1 o2 o3 o4).1 (by norm_num)).1,
    ((checkPaddleCollision_penetration ⟨⟨52, 200⟩, ⟨-1/2, 1/10⟩⟩ ⟨⟨50, 190⟩, ⟨0, 0⟩⟩
        o1 o2 o3 o4).1 (by norm_num)).2.2 (roundF32_ofNat 52 (by norm_num))⟩,
   ⟨((checkPaddleCollision_penetration ⟨⟨52, 200⟩, ⟨1/2, 1/10⟩⟩ ⟨⟨50, 190⟩, ⟨0, 0⟩⟩
        o1 o2 o3 o4).2.1 (by norm_num)).1,
    ((checkPaddleCollision_penetration ⟨⟨52, 200⟩, ⟨1/2, 1/10⟩⟩ ⟨⟨50, 190⟩, ⟨0, 0⟩⟩
        o1 o2 o3 o4).2.1 (by norm_num)).2.2 (roundF32_ofNat 50 (by norm_num))⟩,
   ((checkPaddleCollision_penetration ⟨⟨52, 200⟩, ⟨0, 1/10⟩⟩ ⟨⟨50, 190⟩, ⟨0, 0⟩⟩
      o1 o2 o3 o4).2.2 rfl).1⟩

/-- The sum `49 + 2^-18 + 15` is a tie between two binary32 values and rounds
to the even one, `64`. -/
theorem roundF32_example_64 : roundF32 (64 + 1 / 2 ^ 18) = 64 := by
  rw [roundF32_of_binade _ 6 (by norm_num) (by norm_num [abs_of_pos]) (by norm_num [abs_of_pos]),
    roundHalfEven_of_tie _ (2 ^ 23) (by norm_num)]
  norm_num

/-- Counterexample for C18: the rightward ball at the binary32 position
`(49 + 2^-18, 200)` overlapping the paddle at `(50, 190)`. Its `ballRight`
rounds to `64`, the penetration is `-14`, the resolved `position.x` is
`35 + 2^-18`, whose right edge `50 + 2^-18` is beyond `paddleLeft = 50`: the
ball is not flush and `CheckPaddleCollision` of the resolved ball returns
`Top`, not `None`. -/
theorem collideWithPaddle_flush_counterexample :
    roundF32 (49 + 1 / 2 ^ 18) = 49 + 1 / 2 ^ 18
    ∧ ((49 + 1 / 2 ^ 18 : ℚ) < 50 + PADDLE_WIDTH ∧ (50 : ℚ) < 49 + 1 / 2 ^ 18 + BALL_WIDTH
      ∧ (200 : ℚ) < 190 + PADDLE_HEIGHT ∧ (190 : ℚ) < 200 + BALL_HEIGHT)
    ∧ (1 / 2 : ℚ) ≠ 0
    ∧ (Ball.CollideWithPaddle ⟨⟨49 + 1 / 2 ^ 18, 200⟩, ⟨1/2, 1/10⟩⟩
        (CheckPaddleCollision ⟨⟨49 + 1 / 2 ^ 18, 200⟩, ⟨1/2, 1/10⟩⟩
          ⟨⟨50, 190⟩, ⟨0, 0⟩⟩)).position.x = 35 + 1 / 2 ^ 18
    ∧ (35 + 1 / 2 ^ 18 : ℚ) + BALL_WIDTH ≠ 50
    ∧ fadd (35 + 1 / 2 ^ 18 : ℚ) BALL_WIDTH ≠ 50
    ∧ (CheckPaddleCollision (Ball.CollideWithPaddle ⟨⟨49 + 1 / 2 ^ 18, 200⟩, ⟨1/2, 1/10⟩⟩
        (CheckPaddleCollision ⟨⟨49 + 1 / 2 ^ 18, 200⟩, ⟨1/2, 1/10⟩⟩
          ⟨⟨50, 190⟩, ⟨0, 0⟩⟩)) ⟨⟨50, 190⟩, ⟨0, 0⟩⟩).type = CollisionType.Top := by
  have fx : roundF32 (49 + 1 / 2 ^ 18) = 49 + 1 / 2 ^ 18 :=
    roundF32_of_repr _ (49 * 2 ^ 18 + 1) (-18) (by norm_num) (by norm_num) (by norm_num)
  have eR : fadd (50 : ℚ) (PADDLE_WIDTH : ℚ) = 60 := by
    norm_num [fadd, PADDLE_WIDTH, roundF32_ofNat 60 (by norm_num)]
  have eb : fadd (49 + 1 / 2 ^ 18 : ℚ) (BALL_WIDTH : ℚ) = 64 := by
    unfold fadd
    rw [show (49 + 1 / 2 ^ 18 : ℚ) + (BALL_WIDTH : ℚ) = 64 + 1 / 2 ^ 18 by
      norm_num [BALL_WIDTH]]
    exact roundF32_example_64
  have eB : fadd (190 : ℚ) (PADDLE_HEIGHT : ℚ) = 310 := by
    norm_num [fadd, PADDLE_HEIGHT, roundF32_ofNat 310 (by norm_num)]
  have ebb : fadd (200 : ℚ) (BALL_HEIGHT : ℚ) = 215 := by
    norm_num [fadd, BALL_HEIGHT, roundF32_ofNat 215 (by norm_num)]
  have eU : fsub (310 : ℚ) (2 * (PADDLE_HEIGHT : ℚ) / 3) = 230 := by
    norm_num [fsub, PADDLE_HEIGHT, roundF32_ofNat 230 (by norm_num)]
  have ep : fsub (50 : ℚ) 64 = -14 := by
    norm_num [fsub, roundF32_neg, roundF32_ofNat 14 (by norm_num)]
  have ex : fadd (49 + 1 / 2 ^ 18 : ℚ) (-14) = 35 + 1 / 2 ^ 18 := by
    unfold fadd
    rw [show (49 + 1 / 2 ^ 18 : ℚ) + (-14) = 35 + 1 / 2 ^ 18 by norm_num]
    exact roundF32_of_repr _ (35 * 2 ^ 18 + 1) (-18) (by norm_num) (by norm_num)
      (by norm_num)
  have eb2 : fadd (35 + 1 / 2 ^ 18 : ℚ) (BALL_WIDTH : ℚ) = 50 + 1 / 2 ^ 18 := by
    unfold fadd
    rw [show (35 + 1 / 2 ^ 18 : ℚ) + (BALL_WIDTH : ℚ) = 50 + 1 / 2 ^ 18 by
      norm_num [BALL_WIDTH]]
    exact roundF32_of_repr _ (50 * 2 ^ 18 + 1) (-18) (by norm_num) (by norm_num)
      (by norm_num)
  have o1 : ¬ (49 + 1 / 2 ^ 18 : ℚ) ≥ fadd (50 : ℚ) (PADDLE_WIDTH : ℚ) := by
    rw [eR]; norm_num
  have o2 : ¬ fadd (49 + 1 / 2 ^ 18 : ℚ) (BALL_WIDTH : ℚ) ≤ 50 := by rw [eb]; norm_num
  have o3 : ¬ (200 : ℚ) ≥ fadd (190 : ℚ) (PADDLE_HEIGHT : ℚ) := by rw [eB]; norm_num
  have o4 : ¬ fadd (200 : ℚ) (BALL_HEIGHT : ℚ) ≤ 190 := by rw [ebb]; norm_num
  have p := checkPaddle_penetration_of_overlap ⟨⟨49 + 1 / 2 ^ 18, 200⟩, ⟨1/2, 1/10⟩⟩
    ⟨⟨50, 190⟩, ⟨0, 0⟩⟩ o1 o2 o3 o4
  have hv : ¬ ((1 / 2 : ℚ) < 0) := by norm_num
  have hv2 : ((1 / 2 : ℚ) > 0) := by norm_num
  rw [if_neg hv, if_pos hv2] at p
  have px : (Ball.CollideWithPaddle ⟨⟨49 + 1 / 2 ^ 18, 200⟩, ⟨1/2, 1/10⟩⟩
      (CheckPaddleCollision ⟨⟨49 + 1 / 2 ^ 18, 200⟩, ⟨1/2, 1/10⟩⟩
        ⟨⟨50, 190⟩, ⟨0, 0⟩⟩)).position.x = 35 + 1 / 2 ^ 18 := by
    rw [collideWithPaddle_eq, p]
    show fadd (49 + 1 / 2 ^ 18 : ℚ) (fsub (50 : ℚ) (fadd (49 + 1 / 2 ^ 18 : ℚ) BALL_WIDTH))
      = 35 + 1 / 2 ^ 18
    rw [eb, ep, ex]
  have py : (Ball.CollideWithPaddle ⟨⟨49 + 1 / 2 ^ 18, 200⟩, ⟨1/2, 1/10⟩⟩
      (CheckPaddleCollision ⟨⟨49 + 1 / 2 ^ 18, 200⟩, ⟨1/2, 1/10⟩⟩
        ⟨⟨50, 190⟩, ⟨0, 0⟩⟩)).position.y = 200 := by
    rw [collideWithPaddle_eq]
  refine ⟨fx, by norm_num [PADDLE_WIDTH, BALL_WIDTH, PADDLE_HEIGHT, BALL_HEIGHT], by norm_num,
    px, by norm_num [BALL_WIDTH], by rw [eb2]; norm_num, ?_⟩
  rw [checkPaddle_type_of_overlap _ ⟨⟨50, 190⟩, ⟨0, 0⟩⟩
    (by rw [px]; exact fun k => absurd (show (35 + 1 / 2 ^ 18 : ℚ) ≥ fadd 50 PADDLE_WIDTH from k)
          (by rw [eR]; norm_num))
    (by rw [px]; exact fun k => absurd (show fadd (35 + 1 / 2 ^ 18 : ℚ) BALL_WIDTH ≤ 50 from k)
          (by rw [eb2]; norm_num))
    (by rw [py]; exact o3) (by rw [py]; exact o4)]
  rw [py]
  simp only [eB, ebb, eU]
  norm_num

/-- C18 (amended): for every ball/paddle pair overlapping on the edges as
computed, with `ball.velocity.x != 0`, the resolved ball has the opposite
horizontal direction (`velocity.x` negated, the product of old and new is
negative). When the `float` operations of the resolution are computed without
rounding error (the penetration; for `velocity.x > 0` also `ballRight` and
`paddleLeft - 15`), the resolved ball is flush with the paddle edge (new
`ballLeft = paddleRight` if `velocity.x < 0`, new `ballRight = paddleLeft` if
`velocity.x > 0`) and `CheckPaddleCollision` of the resolved ball against the
same paddle returns the initial `None` contact. That is so for every binary32
ball position when a leftward ball hits paddle one of `main` (`x = 50`) and
when a rightward ball hits paddle two (`x = 750`). -/
theorem collideWithPaddle_flush (ball : Ball) (paddle : Paddle)
    (hx1 : ball.position.x < fadd paddle.position.x PADDLE_WIDTH)
    (hx2 : paddle.position.x < fadd ball.position.x BALL_WIDTH)
    (hy1 : ball.position.y < fadd paddle.position.y PADDLE_HEIGHT)
    (hy2 : paddle.position.y < fadd ball.position.y BALL_HEIGHT)
    (hv : ball.velocity.x ≠ 0) :
    (ball.CollideWithPaddle (CheckPaddleCollision ball paddle)).velocity.x = -ball.velocity.x
    ∧ (ball.CollideWithPaddle (CheckPaddleCollision ball paddle)).velocity.x
        * ball.velocity.x < 0
    ∧ (ball.velocity.x < 0 →
        fsub (fadd paddle.position.x PADDLE_WIDTH) ball.position.x
          = fadd paddle.position.x PADDLE_WIDTH - ball.position.x →
        (ball.CollideWithPaddle (CheckPaddleCollision ball paddle)).position.x
            = fadd paddle.position.x PADDLE_WIDTH
        ∧ CheckPaddleCollision (ball.CollideWithPaddle (CheckPaddleCollision ball paddle))
            paddle = Contact.init)
    ∧ (ball.velocity.x > 0 → roundF32 paddle.position.x = paddle.position.x →
        fadd ball.position.x BALL_WIDTH = ball.position.x + BALL_WIDTH →
        fsub paddle.position.x (fadd ball.position.x BALL_WIDTH)
          = paddle.position.x - fadd ball.position.x BALL_WIDTH →
        fsub paddle.position.x BALL_WIDTH = paddle.position.x - BALL_WIDTH →
        fadd (ball.CollideWithPaddle (CheckPaddleCollision ball paddle)).position.x BALL_WIDTH
            = paddle.position.x
        ∧ CheckPaddleCollision (ball.CollideWithPaddle (CheckPaddleCollision ball paddle))
            paddle = Contact.init)
    ∧ (paddle.position.x = 50 → ball.velocity.x < 0 →
        roundF32 ball.position.x = ball.position.x →
        (ball.CollideWithPaddle (CheckPaddleCollision ball paddle)).position.x = 60
        ∧ CheckPaddleCollision (ball.CollideWithPaddle (CheckPaddleCollision ball paddle))
            paddle = Contact.init)
    ∧ (paddle.position.x = 750 → ball.velocity.x > 0 →
        roundF32 ball.position.x = ball.position.x →
        fadd (ball.CollideWithPaddle (CheckPaddleCollision ball paddle)).position.x BALL_WIDTH
            = 750
        ∧ CheckPaddleCollision (ball.CollideWithPaddle (CheckPaddleCollision ball paddle))
            paddle = Contact.init) := by
  have p := checkPaddle_penetration_of_overlap ball paddle (not_le.mpr hx1) (not_le.mpr hx2)
    (not_le.mpr hy1) (not_le.mpr hy2)
  have evx : (ball.CollideWithPaddle (CheckPaddleCollision ball paddle)).velocity.x
      = -ball.velocity.x := by rw [collideWithPaddle_eq]
  have hBW : (BALL_WIDTH : ℚ) = 15 := by norm_num [BALL_WIDTH]
  have hPW : (PADDLE_WIDTH : ℚ) = 10 := by norm_num [PADDLE_WIDTH]
  have L : ball.velocity.x < 0 →
      fsub (fadd paddle.position.x PADDLE_WIDTH) ball.position.x
        = fadd paddle.position.x PADDLE_WIDTH - ball.position.x →
      (ball.CollideWithPaddle (CheckPaddleCollision ball paddle)).position.x
          = fadd paddle.position.x PADDLE_WIDTH
      ∧ CheckPaddleCollision (ball.CollideWithPaddle (CheckPaddleCollision ball paddle))
          paddle = Contact.init := by
    intro hneg he
    have ex : (ball.CollideWithPaddle (CheckPaddleCollision ball paddle)).position.x
        = fadd paddle.position.x PADDLE_WIDTH := by
      rw [collideWithPaddle_eq, p, if_pos hneg]
      show fadd ball.position.x (fsub (fadd paddle.position.x PADDLE_WIDTH) ball.position.x)
        = fadd paddle.position.x PADDLE_WIDTH
      rw [he]
      unfold fadd
      rw [show ball.position.x
          + (roundF32 (paddle.position.x + PADDLE_WIDTH) - ball.position.x)
          = roundF32 (paddle.position.x + PADDLE_WIDTH) by ring, roundF32_idem]
    exact ⟨ex, checkPaddle_of_disjoint _ _ (Or.inl (ge_of_eq ex))⟩
  have R : ball.velocity.x > 0 → roundF32 paddle.position.x = paddle.position.x →
      fadd ball.position.x BALL_WIDTH = ball.position.x + BALL_WIDTH →
      fsub paddle.position.x (fadd ball.position.x BALL_WIDTH)
        = paddle.position.x - fadd ball.position.x BALL_WIDTH →
      fsub paddle.position.x BALL_WIDTH = paddle.position.x - BALL_WIDTH →
      fadd (ball.CollideWithPaddle (CheckPaddleCollision ball paddle)).position.x BALL_WIDTH
          = paddle.position.x
      ∧ CheckPaddleCollision (ball.CollideWithPaddle (CheckPaddleCollision ball paddle))
          paddle = Contact.init := by
    intro hpos fp h1 h2 h3
    have ex : fadd (ball.CollideWithPaddle (CheckPaddleCollision ball paddle)).position.x
        BALL_WIDTH = paddle.position.x := by
      rw [collideWithPaddle_eq, p, if_neg (not_lt.mpr (le_of_lt hpos)), if_pos hpos]
      show fadd (fadd ball.position.x (fsub paddle.position.x (fadd ball.position.x BALL_WIDTH)))
        BALL_WIDTH = paddle.position.x
      rw [h2, h1]
      have e1 : fadd ball.position.x (paddle.position.x - (ball.position.x + BALL_WIDTH))
          = paddle.position.x - BALL_WIDTH := by
        unfold fadd
        rw [show ball.position.x + (paddle.position.x - (ball.position.x + BALL_WIDTH))
          = paddle.position.x - BALL_WIDTH by ring]
        exact h3
      rw [e1]
      unfold fadd
      rw [show paddle.position.x - (BALL_WIDTH : ℚ) + BALL_WIDTH = paddle.position.x by ring,
        fp]
    exact ⟨ex, checkPaddle_of_disjoint _ _ (Or.inr (Or.inl (le_of_eq ex)))⟩
  refine ⟨evx, ?_, L, R, ?_, ?_⟩
  · rw [evx]
    have := mul_self_pos.mpr hv
    linarith
  · intro hp hneg fx
    have eR : fadd paddle.position.x PADDLE_WIDTH = 60 := by
      rw [hp, hPW]
      norm_num [fadd, roundF32_ofNat 60 (by norm_num)]
    rw [eR] at hx1 L
    rw [hp, hBW] at hx2
    exact L hneg (paddleOne_penetration_exact ball.position.x fx hx1 hx2)
  · intro hp hpos fx
    have eR : fadd paddle.position.x PADDLE_WIDTH = 760 := by
      rw [hp, hPW]
      norm_num [fadd, roundF32_ofNat 760 (by norm_num)]
    rw [eR] at hx1
    rw [hp, hBW] at hx2 R
    obtain ⟨e1, e2⟩ := paddleTwo_penetration_exact ball.position.x fx hx1 hx2
    rw [hBW]
    exact R hpos (roundF32_ofNat 750 (by norm_num)) e1 e2
      (by norm_num [fsub, roundF32_ofNat 735 (by norm_num)])

/-- Witness for C18 (amended): the rightward ball at `(48, 200)` overlapping
the paddle at `(50, 190)`: `ballRight = 63`, penetration `-13`, resolved
`position.x = 35`, new `ballRight = 50 = paddleLeft`, and the re-check returns
`None`; and the leftward ball at the binary32 position `(52 + 2^-10, 200)`
ends at `position.x = 60 = paddleRight`. -/
theorem collideWithPaddle_flush_witness :
    (Ball.CollideWithPaddle ⟨⟨48, 200⟩, ⟨1/2, 1/10⟩⟩
        (CheckPaddleCollision ⟨⟨48, 200⟩, ⟨1/2, 1/10⟩⟩ ⟨⟨50, 190⟩, ⟨0, 0⟩⟩)).velocity.x
      = -(1/2)
    ∧ fadd (Ball.CollideWithPaddle ⟨⟨48, 200⟩, ⟨1/2, 1/10⟩⟩
        (CheckPaddleCollision ⟨⟨48, 200⟩, ⟨1/2, 1/10⟩⟩ ⟨⟨50, 190⟩, ⟨0, 0⟩⟩)).position.x
        BALL_WIDTH = 50
    ∧ CheckPaddleCollision (Ball.CollideWithPaddle ⟨⟨48, 200⟩, ⟨1/2, 1/10⟩⟩
        (CheckPaddleCollision ⟨⟨48, 200⟩, ⟨1/2, 1/10⟩⟩ ⟨⟨50, 190⟩, ⟨0, 0⟩⟩))
        ⟨⟨50, 190⟩, ⟨0, 0⟩⟩ = Contact.init
    ∧ (Ball.CollideWithPaddle ⟨⟨52 + 1 / 2 ^ 10, 200⟩, ⟨-1/2, 1/10⟩⟩
        (CheckPaddleCollision ⟨⟨52 + 1 / 2 ^ 10, 200⟩, ⟨-1/2, 1/10⟩⟩
          ⟨⟨50, 190⟩, ⟨0, 0⟩⟩)).position.x = 60 :=
  have eR : fadd (50 : ℚ) (PADDLE_WIDTH : ℚ) = 60 := by
    norm_num [fadd, PADDLE_WIDTH, roundF32_ofNat 60 (by norm_num)]
  have eb : fadd (48 : ℚ) (BALL_WIDTH : ℚ) = 63 := by
    norm_num [fadd, BALL_WIDTH, roundF32_ofNat 63 (by norm_num)]
  have eB : fadd (190 : ℚ) (PADDLE_HEIGHT : ℚ) = 310 := by
    norm_num [fadd, PADDLE_HEIGHT, roundF32_ofNat 310 (by norm_num)]
  have ebb : fadd (200 : ℚ) (BALL_HEIGHT : ℚ) = 215 := by
    norm_num [fadd, BALL_HEIGHT, roundF32_ofNat 215 (by norm_num)]
  have o1 : (48 : ℚ) < fadd (50 : ℚ) (PADDLE_WIDTH : ℚ) := by rw [eR]; norm_num
  have o2 : (50 : ℚ) < fadd (48 : ℚ) (BALL_WIDTH : ℚ) := by rw [eb]; norm_num
  have o3 : (200 : ℚ) < fadd (190 : ℚ) (PADDLE_HEIGHT : ℚ) := by rw [eB]; norm_num
  have o4 : (190 : ℚ) < fadd (200 : ℚ) (BALL_HEIGHT : ℚ) := by rw [ebb]; norm_num
  have t := (collideWithPaddle_flush ⟨⟨48, 200⟩, ⟨1/2, 1/10⟩⟩ ⟨⟨50, 190⟩, ⟨0, 0⟩⟩
      o1 o2 o3 o4 (by norm_num)).2.2.2.1 (by norm_num) (roundF32_ofNat 50 (by norm_num))
      (by show fadd (48 : ℚ) (BALL_WIDTH : ℚ) = 48 + (BALL_WIDTH : ℚ)
          rw [eb]; norm_num [BALL_WIDTH])
      (by show fsub (50 : ℚ) (fadd (48 : ℚ) (BALL_WIDTH : ℚ))
            = 50 - fadd (48 : ℚ) (BALL_WIDTH : ℚ)
          rw [eb]; norm_num [fsub, roundF32_neg, roundF32_ofNat 13 (by norm_num)])
      (by show fsub (50 : ℚ) (BALL_WIDTH : ℚ) = 50 - (BALL_WIDTH : ℚ)
          norm_num [fsub, BALL_WIDTH, roundF32_ofNat 35 (by norm_num)])
  have q1 : (52 + 1 / 2 ^ 10 : ℚ) < fadd (50 : ℚ) (PADDLE_WIDTH : ℚ) := by rw [eR]; norm_num
  have q2 : (50 : ℚ) < fadd (52 + 1 / 2 ^ 10 : ℚ) (BALL_WIDTH : ℚ) :=
    lt_of_lt_of_le (by norm_num : (50 : ℚ) < 67)
      (le_fadd_of_le _ _ 67 (by norm_num [BALL_WIDTH]) (roundF32_ofNat 67 (by norm_num)))
  ⟨(collideWithPaddle_flush ⟨⟨48, 200⟩, ⟨1/2, 1/10⟩⟩ ⟨⟨50, 190⟩, ⟨0, 0⟩⟩
      o1 o2 o3 o4 (by norm_num)).1, t.1, t.2,
   ((collideWithPaddle_flush ⟨⟨52 + 1 / 2 ^ 10, 200⟩, ⟨-1/2, 1/10⟩⟩ ⟨⟨50, 190⟩, ⟨0, 0⟩⟩
      q1 q2 o3 o4 (by norm_num)).2.2.2.2.1 rfl (by norm_num)
      (roundF32_of_repr _ (52 * 2 ^ 10 + 1) (-10) (by norm_num) (by norm_num)
        (by norm_num))).1⟩

/-! ## Paddle hits and scoring -/

/-- The advanced ball's `position.x` is the result of a `float` addition, so a
binary32 value. -/
theorem updatePositions_ball_x_binary32 (dt : ℚ) (s : LoopState) :
    roundF32 (updatePositions dt s).ball.position.x = (updatePositions dt s).ball.position.x := by
  simp only [updatePositions, Ball.Update, Vec2.addAssign]
  exact roundF32_fadd _ _

/-- C19: with paddle one at `x = 50` and paddle two at `x = 750`, for every
ball and every paddle `y` it is impossible that `CheckPaddleCollision`
against either paddle is not `None` while `CheckWallCollision` of the same
ball is `Left` or `Right`. The paddles of `main` start at `x = 50` and
`x = 750` with `velocity.x = 0` and stay there over any list of frames, so in
every frame from a state the loop reaches, an advanced ball with
`ballLeft < 0` gives player two the point and one with `ballRight > 800`
gives player one the point, both for `ballRight` as the exact sum and as the
`float` sum the code compares. -/
theorem paddleHit_never_masks_score (ball : Ball) (y1 y2 : ℚ) (v1 v2 : Vec2)
    (frames : List ((Buttons → Bool) × ℚ)) (buttons : Buttons → Bool) (dt : ℚ) :
    ¬ (((CheckPaddleCollision ball ⟨⟨50, y1⟩, v1⟩).type ≠ CollisionType.None
          ∨ (CheckPaddleCollision ball ⟨⟨750, y2⟩, v2⟩).type ≠ CollisionType.None)
        ∧ ((CheckWallCollision ball).type = CollisionType.Left
          ∨ (CheckWallCollision ball).type = CollisionType.Right))
    ∧ (initialState.paddleOne.position.x = 50 ∧ initialState.paddleOne.velocity.x = 0
      ∧ initialState.paddleTwo.position.x = 750 ∧ initialState.paddleTwo.velocity.x = 0)
    ∧ ((runFrames frames initialState).paddleOne.position.x = 50
      ∧ (runFrames frames initialState).paddleOne.velocity.x = 0
      ∧ (runFrames frames initialState).paddleTwo.position.x = 750
      ∧ (runFrames frames initialState).paddleTwo.velocity.x = 0)
    ∧ ((updatePositions dt
          (updatePaddleVelocity buttons (runFrames frames initialState))).ball.position.x < 0 →
        (frameStep buttons dt (runFrames frames initialState)).1.playerTwoScore
          = (runFrames frames initialState).playerTwoScore + 1)
    ∧ ((updatePositions dt
          (updatePaddleVelocity buttons (runFrames frames initialState))).ball.position.x
            + BALL_WIDTH > 800 →
        (frameStep buttons dt (runFrames frames initialState)).1.playerOneScore
          = (runFrames frames initialState).playerOneScore + 1)
    ∧ (¬ (updatePositions dt
          (updatePaddleVelocity buttons (runFrames frames initialState))).ball.position.x < 0 →
        fadd (updatePositions dt
          (updatePaddleVelocity buttons (runFrames frames initialState))).ball.position.x
            BALL_WIDTH > 800 →
        (frameStep buttons dt (runFrames frames initialState)).1.playerOneScore
          = (runFrames frames initialState).playerOneScore + 1) := by
  have i1 : initialState.paddleOne.position.x = 50 ∧ initialState.paddleOne.velocity.x = 0 :=
    ⟨rfl, rfl⟩
  have i2 : initialState.paddleTwo.position.x = 750
      ∧ initialState.paddleTwo.velocity.x = 0 := by
    norm_num [initialState, WINDOW_WIDTH]
  have f50 : roundF32 (50 : ℚ) = 50 := roundF32_ofNat 50 (by norm_num)
  have f750 : roundF32 (750 : ℚ) = 750 := roundF32_ofNat 750 (by norm_num)
  obtain ⟨⟨r1, r1v⟩, ⟨r2, r2v⟩⟩ :=
    runFrames_paddles_in_place frames 50 750 initialState f50 f750 i1 i2
  obtain ⟨⟨a1, _⟩, ⟨a2, _⟩⟩ :=
    updatePositions_paddle_x buttons dt (runFrames frames initialState)
  rw [r1, r1v] at a1
  rw [r2, r2v] at a2
  have b1 : (updatePositions dt
      (updatePaddleVelocity buttons (runFrames frames initialState))).paddleOne.position.x
        = 50 := by rw [a1]; simp [fadd, fmul, roundF32_zero, f50]
  have b2 : (updatePositions dt
      (updatePaddleVelocity buttons (runFrames frames initialState))).paddleTwo.position.x
        = 750 := by rw [a2]; simp [fadd, fmul, roundF32_zero, f750]
  obtain ⟨e1, e2⟩ := frameStep_scores buttons dt (runFrames frames initialState)
  have right : ¬ (updatePositions dt
        (updatePaddleVelocity buttons (runFrames frames initialState))).ball.position.x < 0 →
      fadd (updatePositions dt
        (updatePaddleVelocity buttons (runFrames frames initialState))).ball.position.x
          BALL_WIDTH > WINDOW_WIDTH →
      (frameStep buttons dt (runFrames frames initialState)).1.playerOneScore
        = (runFrames frames initialState).playerOneScore + 1 := by
    intro hx0 hx
    have hw := (checkWall_right_iff _).mpr ⟨hx0, hx⟩
    obtain ⟨n1, n2⟩ := checkPaddle_none_of_wall_exit _ _ _ b1 b2 (Or.inr hw)
    rw [e1, if_pos ⟨by rw [n1]; rfl, by rw [n2]; rfl, hw⟩]
  have hW : (WINDOW_WIDTH : ℚ) = 800 := by norm_num [WINDOW_WIDTH]
  refine ⟨?_, ⟨i1.1, i1.2, i2.1, i2.2⟩, ⟨r1, r1v, r2, r2v⟩, ?_, ?_, ?_⟩
  · rintro ⟨hp, hw⟩
    obtain ⟨n1, n2⟩ := checkPaddle_none_of_wall_exit ball ⟨⟨50, y1⟩, v1⟩ ⟨⟨750, y2⟩, v2⟩
      rfl rfl hw
    rw [n1, n2] at hp
    rcases hp with hp | hp <;> exact hp rfl
  · intro hx
    have hw := (checkWall_left_iff _).mpr hx
    obtain ⟨n1, n2⟩ := checkPaddle_none_of_wall_exit _ _ _ b1 b2 (Or.inl hw)
    rw [e2, if_pos ⟨by rw [n1]; rfl, by rw [n2]; rfl, hw⟩]
  · intro hx
    have hx0 : ¬ (updatePositions dt
        (updatePaddleVelocity buttons (runFrames frames initialState))).ball.position.x
          < 0 := by
      norm_num [BALL_WIDTH] at hx
      intro k
      linarith
    refine right hx0 ((ballRight_gt_iff _ (updatePositions_ball_x_binary32 dt _)).mpr ?_)
    rw [hW]
    exact hx
  · intro hx0 hx
    refine right hx0 ?_
    rw [hW]
    exact hx

/-- Witness for C19: from the initial locals one frame of `dt = 2000` carries
the ball past the right wall; the wall check is reached and player one gets
the point. -/
theorem paddleHit_never_masks_score_witness :
    (updatePositions 2000
        (updatePaddleVelocity noButtons (runFrames [] initialState))).ball.position.x
          + BALL_WIDTH > 800
    ∧ (frameStep noButtons 2000 (runFrames [] initialState)).1.playerOneScore
        = (runFrames [] initialState).playerOneScore + 1 :=
  have e : (updatePositions 2000
      (updatePaddleVelocity noButtons (runFrames [] initialState))).ball.position.x
        = 2785 / 2 := by
    have f : roundF32 (2785 / 2 : ℚ) = 2785 / 2 :=
      roundF32_of_repr _ 2785 (-1) (by norm_num) (by norm_num) (by norm_num)
    norm_num [updatePositions, updatePaddleVelocity, noButtons, runFrames, initialState,
      initialBall, Ball.Update, Vec2.addAssign, Vec2.mul, BALL_WIDTH, WINDOW_WIDTH,
      WINDOW_HEIGHT, BALL_SPEED, fadd, fmul, roundF32_ofNat, f]
  have h : (updatePositions 2000
      (updatePaddleVelocity noButtons (runFrames [] initialState))).ball.position.x
        + BALL_WIDTH > 800 := by
    rw [e]; norm_num [BALL_WIDTH]
  ⟨h, (paddleHit_never_masks_score initialBall 190 190 ⟨0, 0⟩ ⟨0, 0⟩ [] noButtons
    2000).2.2.2.2.1 h⟩

/-! ## Band boundaries of `CheckPaddleCollision` -/

/-- The sum `40 + 2^-17 + 120` is a tie between two binary32 values and rounds
to the even one, `160`. -/
theorem roundF32_example_160 : roundF32 (160 + 1 / 2 ^ 17) = 160 := by
  rw [roundF32_of_binade _ 7 (by norm_num) (by norm_num [abs_of_pos]) (by norm_num [abs_of_pos]),
    roundHalfEven_of_tie _ (160 * 2 ^ 16) (by norm_num)]
  norm_num

/-- Counterexample for C20: the paddle at the binary32 position
`(50, 40 + 2^-17)` and the ball at the binary32 position `(55, 65 + 2^-17)`.
The boxes overlap and `ballBottom = 80 + 2^-17` is exactly `paddleTop + 40`
and exactly the exact `paddleBottom - 2*120/3`, but the code's `paddleBottom`
is `160`, its `paddleRangeUpper` is `80`, and the contact is `Middle`, not
`Bottom`. -/
theorem checkPaddleCollision_boundary_counterexample :
    (roundF32 (40 + 1 / 2 ^ 17) = 40 + 1 / 2 ^ 17
      ∧ roundF32 (65 + 1 / 2 ^ 17) = 65 + 1 / 2 ^ 17)
    ∧ ((55 : ℚ) < 50 + PADDLE_WIDTH ∧ (50 : ℚ) < 55 + BALL_WIDTH
      ∧ (65 : ℚ) + 1 / 2 ^ 17 < 40 + 1 / 2 ^ 17 + PADDLE_HEIGHT
      ∧ (40 : ℚ) + 1 / 2 ^ 17 < 65 + 1 / 2 ^ 17 + BALL_HEIGHT)
    ∧ ((65 : ℚ) + 1 / 2 ^ 17 + BALL_HEIGHT = 40 + 1 / 2 ^ 17 + 40
      ∧ (65 : ℚ) + 1 / 2 ^ 17 + BALL_HEIGHT
          = 40 + 1 / 2 ^ 17 + PADDLE_HEIGHT - 2 * 120 / 3
      ∧ fadd (65 + 1 / 2 ^ 17) (BALL_HEIGHT : ℚ) = 40 + 1 / 2 ^ 17 + 40)
    ∧ (CheckPaddleCollision ⟨⟨55, 65 + 1 / 2 ^ 17⟩, ⟨-1/2, 0⟩⟩
        ⟨⟨50, 40 + 1 / 2 ^ 17⟩, ⟨0, 0⟩⟩).type = CollisionType.Middle
    ∧ (CheckPaddleCollision ⟨⟨55, 65 + 1 / 2 ^ 17⟩, ⟨-1/2, 0⟩⟩
        ⟨⟨50, 40 + 1 / 2 ^ 17⟩, ⟨0, 0⟩⟩).type ≠ CollisionType.Bottom := by
  have fp : roundF32 (40 + 1 / 2 ^ 17) = 40 + 1 / 2 ^ 17 :=
    roundF32_of_repr _ (40 * 2 ^ 17 + 1) (-17) (by norm_num) (by norm_num) (by norm_num)
  have fb : roundF32 (65 + 1 / 2 ^ 17) = 65 + 1 / 2 ^ 17 :=
    roundF32_of_repr _ (65 * 2 ^ 17 + 1) (-17) (by norm_num) (by norm_num) (by norm_num)
  have eB : fadd (40 + 1 / 2 ^ 17) (PADDLE_HEIGHT : ℚ) = 160 := by
    unfold fadd
    rw [show (40 : ℚ) + 1 / 2 ^ 17 + (PADDLE_HEIGHT : ℚ) = 160 + 1 / 2 ^ 17 by
      norm_num [PADDLE_HEIGHT]]
    exact roundF32_example_160
  have eR : fadd (50 : ℚ) (PADDLE_WIDTH : ℚ) = 60 := by
    norm_num [fadd, PADDLE_WIDTH, roundF32_ofNat 60 (by norm_num)]
  have eb : fadd (55 : ℚ) (BALL_WIDTH : ℚ) = 70 := by
    norm_num [fadd, BALL_WIDTH, roundF32_ofNat 70 (by norm_num)]
  have ebb : fadd (65 + 1 / 2 ^ 17) (BALL_HEIGHT : ℚ) = 80 + 1 / 2 ^ 17 := by
    unfold fadd
    rw [show (65 : ℚ) + 1 / 2 ^ 17 + (BALL_HEIGHT : ℚ) = 80 + 1 / 2 ^ 17 by
      norm_num [BALL_HEIGHT]]
    exact roundF32_of_repr _ (80 * 2 ^ 17 + 1) (-17) (by norm_num) (by norm_num)
      (by norm_num)
  have eU : fsub (160 : ℚ) (2 * (PADDLE_HEIGHT : ℚ) / 3) = 80 := by
    norm_num [fsub, PADDLE_HEIGHT, roundF32_ofNat 80 (by norm_num)]
  have eM : fsub (160 : ℚ) ((PADDLE_HEIGHT : ℚ) / 3) = 120 := by
    norm_num [fsub, PADDLE_HEIGHT, roundF32_ofNat 120 (by norm_num)]
  have o1 : ¬ (55 : ℚ) ≥ fadd (50 : ℚ) (PADDLE_WIDTH : ℚ) := by rw [eR]; norm_num
  have o2 : ¬ fadd (55 : ℚ) (BALL_WIDTH : ℚ) ≤ 50 := by rw [eb]; norm_num
  have o3 : ¬ (65 + 1 / 2 ^ 17 : ℚ) ≥ fadd (40 + 1 / 2 ^ 17) (PADDLE_HEIGHT : ℚ) := by
    rw [eB]; norm_num
  have o4 : ¬ fadd (65 + 1 / 2 ^ 17) (BALL_HEIGHT : ℚ) ≤ 40 + 1 / 2 ^ 17 := by
    rw [ebb]; norm_num
  have t : (CheckPaddleCollision ⟨⟨55, 65 + 1 / 2 ^ 17⟩, ⟨-1/2, 0⟩⟩
      ⟨⟨50, 40 + 1 / 2 ^ 17⟩, ⟨0, 0⟩⟩).type = CollisionType.Middle := by
    rw [checkPaddle_type_of_overlap ⟨⟨55, 65 + 1 / 2 ^ 17⟩, ⟨-1/2, 0⟩⟩
      ⟨⟨50, 40 + 1 / 2 ^ 17⟩, ⟨0, 0⟩⟩ o1 o2 o3 o4]
    simp only [eB, ebb, eU, eM]
    norm_num
  refine ⟨⟨fp, fb⟩, by norm_num [PADDLE_WIDTH, BALL_WIDTH, PADDLE_HEIGHT, BALL_HEIGHT],
    ⟨by norm_num [BALL_HEIGHT], by norm_num [BALL_HEIGHT, PADDLE_HEIGHT],
      by rw [ebb]; norm_num⟩, t, ?_⟩
  rw [t]
  decide

/-- C20 (amended): for every ball/paddle pair overlapping on the edges as
computed, a `ballBottom` exactly equal to the computed `paddleRangeUpper`
(the Top/Middle boundary) or exactly equal to the computed
`paddleRangeMiddle` is classified `Bottom`, while a `ballBottom` below
`paddleRangeUpper` is `Top` and one strictly between the two bounds is
`Middle`, so the zone is not monotone in `ballBottom`. When `paddleBottom`
and a band bound are computed without rounding error the bound is
`paddleTop + 40`, respectively `paddleTop + 80`, and when `ballBottom` is
exact too, a ball with `position.y + 15` equal to that value is `Bottom`. For
every paddle inside the field, `0 <= position.y <= 380`, the two bounds are
exactly `paddleBottom - 80` and `paddleBottom - 40` of the computed
`paddleBottom`, and a `ballBottom` equal to either is `Bottom`. -/
theorem checkPaddleCollision_boundary (ball : Ball) (paddle : Paddle)
    (hx1 : ball.position.x < fadd paddle.position.x PADDLE_WIDTH)
    (hx2 : paddle.position.x < fadd ball.position.x BALL_WIDTH)
    (hy1 : ball.position.y < fadd paddle.position.y PADDLE_HEIGHT)
    (hy2 : paddle.position.y < fadd ball.position.y BALL_HEIGHT) :
    (fadd ball.position.y BALL_HEIGHT
        = fsub (fadd paddle.position.y PADDLE_HEIGHT) (2 * PADDLE_HEIGHT / 3) →
      (CheckPaddleCollision ball paddle).type = CollisionType.Bottom)
    ∧ (fadd ball.position.y BALL_HEIGHT
        = fsub (fadd paddle.position.y PADDLE_HEIGHT) (PADDLE_HEIGHT / 3) →
      (CheckPaddleCollision ball paddle).type = CollisionType.Bottom)
    ∧ (fadd ball.position.y BALL_HEIGHT
        < fsub (fadd paddle.position.y PADDLE_HEIGHT) (2 * PADDLE_HEIGHT / 3) →
      (CheckPaddleCollision ball paddle).type = CollisionType.Top)
    ∧ (fsub (fadd paddle.position.y PADDLE_HEIGHT) (2 * PADDLE_HEIGHT / 3)
          < fadd ball.position.y BALL_HEIGHT →
        fadd ball.position.y BALL_HEIGHT
          < fsub (fadd paddle.position.y PADDLE_HEIGHT) (PADDLE_HEIGHT / 3) →
      (CheckPaddleCollision ball paddle).type = CollisionType.Middle)
    ∧ (fadd paddle.position.y PADDLE_HEIGHT = paddle.position.y + PADDLE_HEIGHT →
        fsub (fadd paddle.position.y PADDLE_HEIGHT) (2 * PADDLE_HEIGHT / 3)
          = fadd paddle.position.y PADDLE_HEIGHT - 2 * 120 / 3 →
        fsub (fadd paddle.position.y PADDLE_HEIGHT) (2 * PADDLE_HEIGHT / 3)
            = paddle.position.y + 40
        ∧ (fadd ball.position.y BALL_HEIGHT = ball.position.y + BALL_HEIGHT →
            ball.position.y + BALL_HEIGHT = paddle.position.y + 40 →
            (CheckPaddleCollision ball paddle).type = CollisionType.Bottom))
    ∧ (fadd paddle.position.y PADDLE_HEIGHT = paddle.position.y + PADDLE_HEIGHT →
        fsub (fadd paddle.position.y PADDLE_HEIGHT) (PADDLE_HEIGHT / 3)
          = fadd paddle.position.y PADDLE_HEIGHT - 120 / 3 →
        fsub (fadd paddle.position.y PADDLE_HEIGHT) (PADDLE_HEIGHT / 3)
            = paddle.position.y + 80
        ∧ (fadd ball.position.y BALL_HEIGHT = ball.position.y + BALL_HEIGHT →
            ball.position.y + BALL_HEIGHT = paddle.position.y + 80 →
            (CheckPaddleCollision ball paddle).type = CollisionType.Bottom))
    ∧ (0 ≤ paddle.position.y → paddle.position.y ≤ 380 →
        fsub (fadd paddle.position.y PADDLE_HEIGHT) (2 * PADDLE_HEIGHT / 3)
            = fadd paddle.position.y PADDLE_HEIGHT - 80
        ∧ fsub (fadd paddle.position.y PADDLE_HEIGHT) (PADDLE_HEIGHT / 3)
            = fadd paddle.position.y PADDLE_HEIGHT - 40
        ∧ (fadd ball.position.y BALL_HEIGHT = fadd paddle.position.y PADDLE_HEIGHT - 80 →
            (CheckPaddleCollision ball paddle).type = CollisionType.Bottom)
        ∧ (fadd ball.position.y BALL_HEIGHT = fadd paddle.position.y PADDLE_HEIGHT - 40 →
            (CheckPaddleCollision ball paddle).type = CollisionType.Bottom)) := by
  have e := checkPaddle_type_of_overlap ball paddle (not_le.mpr hx1) (not_le.mpr hx2)
    (not_le.mpr hy1) (not_le.mpr hy2)
  have hH : (PADDLE_HEIGHT : ℚ) = 120 := by norm_num [PADDLE_HEIGHT]
  have hUM : fsub (fadd paddle.position.y PADDLE_HEIGHT) (2 * PADDLE_HEIGHT / 3)
      ≤ fsub (fadd paddle.position.y PADDLE_HEIGHT) (PADDLE_HEIGHT / 3) := by
    apply roundF32_mono
    rw [hH]; linarith
  have bU : fadd ball.position.y BALL_HEIGHT
        = fsub (fadd paddle.position.y PADDLE_HEIGHT) (2 * PADDLE_HEIGHT / 3) →
      (CheckPaddleCollision ball paddle).type = CollisionType.Bottom := by
    intro k
    rw [e, if_neg (fun a => by linarith [a.2]), if_neg (fun a => by linarith [a.1])]
  have bM : fadd ball.position.y BALL_HEIGHT
        = fsub (fadd paddle.position.y PADDLE_HEIGHT) (PADDLE_HEIGHT / 3) →
      (CheckPaddleCollision ball paddle).type = CollisionType.Bottom := by
    intro k
    rw [e, if_neg (fun a => by linarith [a.2]), if_neg (fun a => by linarith [a.2])]
  refine ⟨bU, bM, ?_, ?_, ?_, ?_, ?_⟩
  · intro k
    rw [e, if_pos ⟨hy2, k⟩]
  · intro k1 k2
    rw [e, if_neg (fun a => by linarith [a.2]), if_pos ⟨k1, k2⟩]
  · intro kB kU
    have u : fsub (fadd paddle.position.y PADDLE_HEIGHT) (2 * PADDLE_HEIGHT / 3)
        = paddle.position.y + 40 := by
      rw [kU, kB, hH]; ring
    refine ⟨u, fun kb k => bU ?_⟩
    rw [kb, k, u]
  · intro kB kM
    have u : fsub (fadd paddle.position.y PADDLE_HEIGHT) (PADDLE_HEIGHT / 3)
        = paddle.position.y + 80 := by
      rw [kM, kB, hH]; ring
    refine ⟨u, fun kb k => bM ?_⟩
    rw [kb, k, u]
  · intro h0 h1
    obtain ⟨kU, kM⟩ := paddleRange_exact paddle.position.y h0 h1
    have eU : fsub (fadd paddle.position.y PADDLE_HEIGHT) (2 * PADDLE_HEIGHT / 3)
        = fadd paddle.position.y PADDLE_HEIGHT - 80 := by
      rw [hH, show (2 * 120 / 3 : ℚ) = 80 by norm_num]
      exact kU
    have eM : fsub (fadd paddle.position.y PADDLE_HEIGHT) (PADDLE_HEIGHT / 3)
        = fadd paddle.position.y PADDLE_HEIGHT - 40 := by
      rw [hH, show (120 / 3 : ℚ) = 40 by norm_num]
      exact kM
    exact ⟨eU, eM, fun k => bU (by rw [k, eU]), fun k => bM (by rw [k, eM])⟩

/-- Witness for C20 (amended): against the paddle at `(50, 190)`, a
`ballBottom` of `230` (the Top/Middle boundary) and of `270` are `Bottom`,
while `229` is `Top` and `231` is `Middle`; all sums are exact there. And
against the paddle at `(50, 40 + 2^-17)`, whose computed `paddleBottom` is
`160`, a `ballBottom` of `160 - 80 = 80` is `Bottom`. -/
theorem checkPaddleCollision_boundary_witness :
    (CheckPaddleCollision ⟨⟨55, 215⟩, ⟨-1/2, 0⟩⟩ ⟨⟨50, 190⟩, ⟨0, 0⟩⟩).type
        = CollisionType.Bottom
    ∧ (CheckPaddleCollision ⟨⟨55, 255⟩, ⟨-1/2, 0⟩⟩ ⟨⟨50, 190⟩, ⟨0, 0⟩⟩).type
        = CollisionType.Bottom
    ∧ (CheckPaddleCollision ⟨⟨55, 214⟩, ⟨-1/2, 0⟩⟩ ⟨⟨50, 190⟩, ⟨0, 0⟩⟩).type
        = CollisionType.Top
    ∧ (CheckPaddleCollision ⟨⟨55, 216⟩, ⟨-1/2, 0⟩⟩ ⟨⟨50, 190⟩, ⟨0, 0⟩⟩).type
        = CollisionType.Middle
    ∧ (CheckPaddleCollision ⟨⟨55, 65⟩, ⟨-1/2, 0⟩⟩ ⟨⟨50, 40 + 1 / 2 ^ 17⟩, ⟨0, 0⟩⟩).type
        = CollisionType.Bottom :=
  have eB4 : fadd (40 + 1 / 2 ^ 17) (PADDLE_HEIGHT : ℚ) = 160 := by
    unfold fadd
    rw [show (40 : ℚ) + 1 / 2 ^ 17 + (PADDLE_HEIGHT : ℚ) = 160 + 1 / 2 ^ 17 by
      norm_num [PADDLE_HEIGHT]]
    exact roundF32_example_160
  have e5 : fadd (65 : ℚ) (BALL_HEIGHT : ℚ) = 80 := by
    norm_num [fadd, BALL_HEIGHT, roundF32_ofNat 80 (by norm_num)]
  have eR : fadd (50 : ℚ) (PADDLE_WIDTH : ℚ) = 60 := by
    norm_num [fadd, PADDLE_WIDTH, roundF32_ofNat 60 (by norm_num)]
  have eb : fadd (55 : ℚ) (BALL_WIDTH : ℚ) = 70 := by
    norm_num [fadd, BALL_WIDTH, roundF32_ofNat 70 (by norm_num)]
  have eB : fadd (190 : ℚ) (PADDLE_HEIGHT : ℚ) = 310 := by
    norm_num [fadd, PADDLE_HEIGHT, roundF32_ofNat 310 (by norm_num)]
  have eU : fsub (310 : ℚ) (2 * (PADDLE_HEIGHT : ℚ) / 3) = 230 := by
    norm_num [fsub, PADDLE_HEIGHT, roundF32_ofNat 230 (by norm_num)]
  have eM : fsub (310 : ℚ) ((PADDLE_HEIGHT : ℚ) / 3) = 270 := by
    norm_num [fsub, PADDLE_HEIGHT, roundF32_ofNat 270 (by norm_num)]
  have e1 : fadd (215 : ℚ) (BALL_HEIGHT : ℚ) = 230 := by
    norm_num [fadd, BALL_HEIGHT, roundF32_ofNat 230 (by norm_num)]
  have e2 : fadd (255 : ℚ) (BALL_HEIGHT : ℚ) = 270 := by
    norm_num [fadd, BALL_HEIGHT, roundF32_ofNat 270 (by norm_num)]
  have e3 : fadd (214 : ℚ) (BALL_HEIGHT : ℚ) = 229 := by
    norm_num [fadd, BALL_HEIGHT, roundF32_ofNat 229 (by norm_num)]
  have e4 : fadd (216 : ℚ) (BALL_HEIGHT : ℚ) = 231 := by
    norm_num [fadd, BALL_HEIGHT, roundF32_ofNat 231 (by norm_num)]
  ⟨(checkPaddleCollision_boundary ⟨⟨55, 215⟩, ⟨-1/2, 0⟩⟩ ⟨⟨50, 190⟩, ⟨0, 0⟩⟩
      (by show (55 : ℚ) < fadd 50 PADDLE_WIDTH; rw [eR]; norm_num)
      (by show (50 : ℚ) < fadd 55 BALL_WIDTH; rw [eb]; norm_num)
      (by show (215 : ℚ) < fadd 190 PADDLE_HEIGHT; rw [eB]; norm_num)
      (by show (190 : ℚ) < fadd 215 BALL_HEIGHT; rw [e1]; norm_num)).1
      (by show fadd (215 : ℚ) BALL_HEIGHT
            = fsub (fadd (190 : ℚ) PADDLE_HEIGHT) (2 * PADDLE_HEIGHT / 3)
          rw [eB, eU, e1]),
   (checkPaddleCollision_boundary ⟨⟨55, 255⟩, ⟨-1/2, 0⟩⟩ ⟨⟨50, 190⟩, ⟨0, 0⟩⟩
      (by show (55 : ℚ) < fadd 50 PADDLE_WIDTH; rw [eR]; norm_num)
      (by show (50 : ℚ) < fadd 55 BALL_WIDTH; rw [eb]; norm_num)
      (by show (255 : ℚ) < fadd 190 PADDLE_HEIGHT; rw [eB]; norm_num)
      (by show (190 : ℚ) < fadd 255 BALL_HEIGHT; rw [e2]; norm_num)).2.1
      (by show fadd (255 : ℚ) BALL_HEIGHT
            = fsub (fadd (190 : ℚ) PADDLE_HEIGHT) (PADDLE_HEIGHT / 3)
          rw [eB, eM, e2]),
   (checkPaddleCollision_boundary ⟨⟨55, 214⟩, ⟨-1/2, 0⟩⟩ ⟨⟨50, 190⟩, ⟨0, 0⟩⟩
      (by show (55 : ℚ) < fadd 50 PADDLE_WIDTH; rw [eR]; norm_num)
      (by show (50 : ℚ) < fadd 55 BALL_WIDTH; rw [eb]; norm_num)
      (by show (214 : ℚ) < fadd 190 PADDLE_HEIGHT; rw [eB]; norm_num)
      (by show (190 : ℚ) < fadd 214 BALL_HEIGHT; rw [e3]; norm_num)).2.2.1
      (by show fadd (214 : ℚ) BALL_HEIGHT
            < fsub (fadd (190 : ℚ) PADDLE_HEIGHT) (2 * PADDLE_HEIGHT / 3)
          rw [eB, eU, e3]; norm_num),
   (checkPaddleCollision_boundary ⟨⟨55, 216⟩, ⟨-1/2, 0⟩⟩ ⟨⟨50, 190⟩, ⟨0, 0⟩⟩
      (by show (55 : ℚ) < fadd 50 PADDLE_WIDTH; rw [eR]; norm_num)
      (by show (50 : ℚ) < fadd 55 BALL_WIDTH; rw [eb]; norm_num)
      (by show (216 : ℚ) < fadd 190 PADDLE_HEIGHT; rw [eB]; norm_num)
      (by show (190 : ℚ) < fadd 216 BALL_HEIGHT; rw [e4]; norm_num)).2.2.2.1
      (by show fsub (fadd (190 : ℚ) PADDLE_HEIGHT) (2 * PADDLE_HEIGHT / 3)
            < fadd (216 : ℚ) BALL_HEIGHT
          rw [eB, eU, e4]; norm_num)
      (by show fadd (216 : ℚ) BALL_HEIGHT
            < fsub (fadd (190 : ℚ) PADDLE_HEIGHT) (PADDLE_HEIGHT / 3)
          rw [eB, eM, e4]; norm_num),
   ((checkPaddleCollision_boundary ⟨⟨55, 65⟩, ⟨-1/2, 0⟩⟩ ⟨⟨50, 40 + 1 / 2 ^ 17⟩, ⟨0, 0⟩⟩
      (by show (55 : ℚ) < fadd 50 PADDLE_WIDTH; rw [eR]; norm_num)
      (by show (50 : ℚ) < fadd 55 BALL_WIDTH; rw [eb]; norm_num)
      (by show (65 : ℚ) < fadd (40 + 1 / 2 ^ 17) PADDLE_HEIGHT; rw [eB4]; norm_num)
      (by show (40 + 1 / 2 ^ 17 : ℚ) < fadd 65 BALL_HEIGHT; rw [e5]; norm_num)).2.2.2.2.2.2
      (by show (0 : ℚ) ≤ 40 + 1 / 2 ^ 17; norm_num)
      (by show (40 + 1 / 2 ^ 17 : ℚ) ≤ 380; norm_num)).2.2.1
      (by show fadd (65 : ℚ) BALL_HEIGHT = fadd (40 + 1 / 2 ^ 17) PADDLE_HEIGHT - 80
          rw [eB4, e5]; norm_num)⟩

end Pong
